import Mathlib

/-!
# Quantization pipeline orchestration (quantize_model.cc)

A shallow embedding of
`tensorflow/compiler/mlir/quantization/tensorflow/python/quantize_model.cc`.

The file orchestrates external collaborators (importer, passes, exporter,
calibration runner).  The collaborators are parameters of the embedding; every
collaborator call is recorded, with its arguments and its failure status, in a
trace.  An `mlir::ModuleOp` is a handle to a module that passes rewrite in
place: the embedding passes the module's current value in and gets the value
after the rewrite back.
-/

namespace TfQuant

/-! ## Status values -/

/-- A non-OK `absl::Status`: a status code and a message. -/
structure Status where
  code : Nat
  message : String
deriving DecidableEq, Repr

/-- The code `absl::StatusCode::kInternal`. -/
def kInternal : Nat := 13

/-- Embedding of `absl::InternalError(msg)`. -/
def InternalError (msg : String) : Status := ⟨kInternal, msg⟩

/-- Embedding of `absl::StrCat(a, b)`. -/
def StrCat (a b : String) : String := a ++ b

/-- Embedding of `absl::StatusOr<T>`. -/
abbrev StatusOr (α : Type) : Type := Except Status α

/-! ## Data model -/

/-- The types that are opaque to the orchestration code. -/
structure Sorts where
  /-- Everything outside the invocation: file system, Python runtime,
  temporary-name generator. -/
  World : Type
  /-- The contents of an `mlir::ModuleOp`. -/
  ModuleOp : Type
  /-- The `ExportedModel` proto. -/
  ExportedModel : Type
  /-- The `AssetFileDef` proto. -/
  AssetFileDef : Type
  /-- The `CalibrationOptions` proto. -/
  CalibrationOptions : Type
  /-- The `Session*` held by the `SavedModelBundle` after import. -/
  Session : Type
  /-- The map `flat_hash_map<string, SignatureDef>`. -/
  SignatureDefMap : Type
  /-- The map `flat_hash_map<string, RepresentativeDatasetFile>`. -/
  RepresentativeDatasetFileMap : Type
  /-- Whatever a `PyFunctionLibrary` method call yields to its caller. -/
  PyOutcome : Type

/-- The map `absl::flat_hash_map<FunctionName, FunctionAlias>`, as the list of
its entries. -/
abbrev AliasMap : Type := List (String × String)

/-- The enum `OpSet` of quantization_options.proto. -/
inductive OpSet where
  | OP_SET_UNSPECIFIED
  | TF
  | XLA
  | UNIFORM_QUANTIZED
  | STABLEHLO
deriving DecidableEq, Repr

/-- The enum `DebuggerConfig::DebuggerType`. -/
inductive DebuggerType where
  | DEBUGGER_TYPE_UNSPECIFIED
  | DEBUGGER_TYPE_WHOLE_MODEL
  | DEBUGGER_TYPE_INT_PER_LAYER
  | DEBUGGER_TYPE_FLOAT_PER_LAYER
deriving DecidableEq, Repr

/-- The fields of `DebuggerConfig` that the code reads. -/
structure DebuggerConfig where
  debugger_type : DebuggerType
  unquantized_dump_model_path : String
deriving DecidableEq, Repr

/-- The default instance a proto getter returns for an unset message field. -/
def DebuggerConfig.default_instance : DebuggerConfig :=
  ⟨DebuggerType.DEBUGGER_TYPE_UNSPECIFIED, ""⟩

/-- The fields of `QuantizationOptions` that the code reads.  An unset
`debugger_config` is `none` (`has_debugger_config()` is false). -/
structure QuantizationOptions (T : Sorts) where
  op_set : OpSet
  enable_per_channel_quantization : Bool
  freeze_all_variables : Bool
  calibration_options : T.CalibrationOptions
  force_graph_mode_calibration : Bool
  debugger_config : Option DebuggerConfig
  tags : List String
  signature_keys : List String

/-- Embedding of `quantization_options.has_debugger_config()`. -/
def QuantizationOptions.has_debugger_config {T : Sorts} (q : QuantizationOptions T) : Bool :=
  q.debugger_config.isSome

/-- Embedding of the getter `quantization_options.debugger_config()`. -/
def QuantizationOptions.get_debugger_config {T : Sorts} (q : QuantizationOptions T) :
    DebuggerConfig :=
  q.debugger_config.getD DebuggerConfig.default_instance

/-- The field of `StaticRangePtqPreset` that the code sets. -/
structure StaticRangePtqPreset where
  enable_per_channel_quantized_weight : Bool
deriving DecidableEq, Repr

/-- The field of `PipelineConfig` that the code sets. -/
structure PipelineConfig where
  unpack_quantized_types : Bool
deriving DecidableEq, Repr

/-- The fields of the nested `QuantizationConfig` that the code sets; a
default-constructed config has none of them. -/
structure QuantizationConfig where
  debugger_config : Option DebuggerConfig := none
  static_range_ptq_preset : Option StaticRangePtqPreset := none
  pipeline_config : Option PipelineConfig := none
deriving DecidableEq, Repr

/-- The fields of `MLIRImportOptions` that the code assigns. -/
structure MLIRImportOptions where
  upgrade_legacy : Bool
  lift_variables : Bool
  include_variables_in_initializers : Bool
deriving DecidableEq, Repr

/-- The aggregate `ExportOptions`. -/
structure ExportOptions where
  duplicate_shape_determining_constants : Bool
  unfreeze_constants : Bool
  checkpoint_dir : String
  debug_name : String
deriving DecidableEq, Repr

/-- The string constants the code uses and that are declared in other files. -/
structure Constants where
  kDefaultTfQuantMlirDumpFilePrefix : String
  kExportStepSuffix : String
  kTfQuantQatStepName : String
  kTfQuantPtqPreCalibrationStepName : String
  kTfQuantPtqPostCalibrationStepName : String
  kTfQuantPtqDynamicRangeStepName : String
  kTfQuantWeightOnlyStepName : String

/-- The `add_passes_func` lambdas handed to `RunPasses`: which legacy pass set
is added to the pass manager, with which arguments. -/
inductive PassSet (T : Sorts) where
  | AddQuantizeQatPasses (opts : QuantizationOptions T) (step_name : String)
  | AddQuantizePtqPreCalibrationPasses (opts : QuantizationOptions T)
  | AddQuantizePtqPostCalibrationPasses (opts : QuantizationOptions T) (step_name : String)
  | AddQuantizePtqDynamicRangePasses (opts : QuantizationOptions T) (step_name : String)
  | AddQuantizeWeightOnlyPasses (opts : QuantizationOptions T) (step_name : String)

/-! ## Collaborators -/

/-- The functions of other files that the code calls.  A function that can
fail returns a `StatusOr`; a function that rewrites a module in place returns
the module after the rewrite; every function that can touch the outside takes
the world and returns the world after the call. -/
structure Collaborators (T : Sorts) where
  GetFunctionAliases : String → Finset String → T.World → StatusOr AliasMap × T.World
  SavedModelSignatureDefsToMlirImport :
    String → Finset String → List String → MLIRImportOptions → T.World →
      StatusOr (T.ModuleOp × T.Session) × T.World
  UpdateFunctionAliases : AliasMap → T.ModuleOp → AliasMap
  PreprocessAndFreezeGraph :
    String → Bool → Finset String → T.ModuleOp → T.Session → Bool → Bool → T.World →
      StatusOr T.ModuleOp × T.World
  GetLocalTmpFileName : T.World → StatusOr String × T.World
  RunExportPasses :
    ExportOptions → T.ModuleOp → T.World → StatusOr (List T.AssetFileDef × T.ModuleOp) × T.World
  ConvertMlirModuleToExportedModel :
    T.ModuleOp → String → AliasMap → List T.AssetFileDef → T.World →
      StatusOr T.ExportedModel × T.World
  RunPasses : String → PassSet T → T.ModuleOp → T.World → StatusOr T.ModuleOp × T.World
  PreCalibrationComponentRun :
    T.ModuleOp → QuantizationConfig → T.World → StatusOr T.ModuleOp × T.World
  PostCalibrationComponentRun :
    T.ModuleOp → QuantizationConfig → T.World → StatusOr T.ModuleOp × T.World
  DisableDebugging : T.ModuleOp → T.ModuleOp
  EnableDebugging : T.ExportedModel → T.ExportedModel
  ChangeToQuantizedFilename : T.ModuleOp → T.ModuleOp
  CreateTmpDir : T.World → StatusOr String × T.World
  SaveExportedModel :
    String → T.ExportedModel → String → Finset String → T.SignatureDefMap → T.World →
      T.PyOutcome × T.World
  RunCalibration :
    String → List String → Finset String → T.CalibrationOptions → Bool →
      T.RepresentativeDatasetFileMap → T.World → T.PyOutcome × T.World
  AddCalibrationStatistics :
    T.ModuleOp → T.CalibrationOptions → T.World → (Option Status × T.ModuleOp) × T.World

/-- One collaborator call (or log line), with the arguments it received. -/
inductive Event (T : Sorts) where
  | GetFunctionAliases (saved_model_path : String) (tags : Finset String)
  | SavedModelSignatureDefsToMlirImport (saved_model_path : String) (tags : Finset String)
      (exported_names : List String) (import_options : MLIRImportOptions)
  | UpdateFunctionAliases (function_aliases : AliasMap) (module_op : T.ModuleOp)
  | PreprocessAndFreezeGraph (mlir_dump_file_name : String) (is_inliner_run : Bool)
      (noinline_functions : Finset String) (module_op : T.ModuleOp) (session : T.Session)
      (run_tf_to_stablehlo : Bool) (deserialize_xla_call_module : Bool)
  | GetLocalTmpFileName
  | RunExportPasses (export_opts : ExportOptions) (module_op : T.ModuleOp)
  | ConvertMlirModuleToExportedModel (module_op : T.ModuleOp) (checkpoint_dir : String)
      (function_aliases : AliasMap) (asset_file_defs : List T.AssetFileDef)
  | Clone (module_op : T.ModuleOp)
  | DisableDebugging (module_op : T.ModuleOp)
  | RunPasses (name : String) (add_passes_func : PassSet T) (module_op : T.ModuleOp)
  | PreCalibrationComponentRun (module_op : T.ModuleOp) (config : QuantizationConfig)
  | PostCalibrationComponentRun (module_op : T.ModuleOp) (config : QuantizationConfig)
  | CreateTmpDir
  | SaveExportedModel (dst_saved_model_path : String) (exported_model : T.ExportedModel)
      (src_saved_model_path : String) (tags : Finset String)
      (signature_def_map : T.SignatureDefMap)
  | RunCalibration (saved_model_path : String) (signature_keys : List String)
      (tags : Finset String) (calibration_options : T.CalibrationOptions)
      (force_graph_mode_calibration : Bool)
      (representative_dataset_file_map : T.RepresentativeDatasetFileMap)
  | AddCalibrationStatistics (module_op : T.ModuleOp)
      (calibration_options : T.CalibrationOptions)
  | LogWarning (text : String) (status : Status)
  | EnableDebugging (exported_model : T.ExportedModel)
  | ChangeToQuantizedFilename (module_op : T.ModuleOp)

/-- A trace entry: the call, and the non-OK status it returned, if any. -/
structure Entry (T : Sorts) where
  call : Event T
  failure : Option Status

/-- The state an invocation threads through its steps. -/
structure PState (T : Sorts) where
  world : T.World
  trace : List (Entry T)

/-- A step of an invocation: from a state to a value or a non-OK status, and
the state after the step. -/
def Pipeline (T : Sorts) (α : Type) : Type :=
  PState T → StatusOr α × PState T

namespace Pipeline

variable {T : Sorts} {α β : Type}

/-- A step that returns a value without calling anything. -/
def ret (a : α) : Pipeline T α := fun s => (Except.ok a, s)

/-- Sequencing; a non-OK status ends the invocation (this is
`TF_RETURN_IF_ERROR` and `TF_ASSIGN_OR_RETURN`). -/
def andThen (p : Pipeline T α) (f : α → Pipeline T β) : Pipeline T β := fun s =>
  match p s with
  | (Except.ok a, s1) => f a s1
  | (Except.error st, s1) => (Except.error st, s1)

instance : Monad (Pipeline T) where
  pure := ret
  bind := andThen

/-- Call a collaborator that returns a `StatusOr` (or a `Status`). -/
def call (ev : Event T) (f : T.World → StatusOr α × T.World) : Pipeline T α := fun s =>
  match f s.world with
  | (Except.ok a, w) => (Except.ok a, ⟨w, s.trace ++ [⟨ev, none⟩]⟩)
  | (Except.error st, w) => (Except.error st, ⟨w, s.trace ++ [⟨ev, some st⟩]⟩)

/-- Call a collaborator whose result the caller does not test for failure. -/
def callTotal (ev : Event T) (f : T.World → α × T.World) : Pipeline T α := fun s =>
  match f s.world with
  | (a, w) => (Except.ok a, ⟨w, s.trace ++ [⟨ev, none⟩]⟩)

/-- Record a call of a collaborator that only rewrites its argument. -/
def note (ev : Event T) : Pipeline T Unit := fun s =>
  (Except.ok (), ⟨s.world, s.trace ++ [⟨ev, none⟩]⟩)

/-- Embedding of the idiom
`if (!x.ok()) return absl::InternalError(absl::StrCat(tag, x.status().message()));`. -/
def orInternalError (tag : String) (p : Pipeline T α) : Pipeline T α := fun s =>
  match p s with
  | (Except.ok a, s1) => (Except.ok a, s1)
  | (Except.error st, s1) => (Except.error (InternalError (StrCat tag st.message)), s1)

/-- Run a step from a world, with an empty trace. -/
def exec (p : Pipeline T α) (w : T.World) : StatusOr α × PState T := p ⟨w, []⟩

/-- Call a collaborator that returns an `absl::Status` next to its effect,
where the caller goes on whatever the status is. -/
def callStatus (ev : Event T) (f : T.World → (Option Status × α) × T.World) :
    Pipeline T (Option Status × α) := fun s =>
  match f s.world with
  | (r, w) => (Except.ok r, ⟨w, s.trace ++ [⟨ev, r.1⟩]⟩)

end Pipeline

open Pipeline

/-! ## The functions of quantize_model.cc -/

section Code

variable {T : Sorts}

/-- Embedding of `ImportAndPreprocessSavedModel` (lines 92-134).  The map
`function_aliases` is an in-out reference parameter: the value after the call is
returned next to the module. -/
def ImportAndPreprocessSavedModel (env : Collaborators T) (k : Constants)
    (saved_model_path : String) (signature_keys : List String) (tags : Finset String)
    (is_inliner_run run_tf_to_stablehlo deserialize_xla_call_module : Bool)
    (function_aliases : AliasMap) : Pipeline T (T.ModuleOp × AliasMap) := do
  let import_options : MLIRImportOptions :=
    { upgrade_legacy := true, lift_variables := false,
      include_variables_in_initializers := true }
  let exported_names := signature_keys
  let imported ← orInternalError "Failed to import SavedModel: "
    (call (Event.SavedModelSignatureDefsToMlirImport saved_model_path tags exported_names
        import_options)
      (env.SavedModelSignatureDefsToMlirImport saved_model_path tags exported_names
        import_options))
  let module_ref := imported.1
  let session := imported.2
  note (Event.UpdateFunctionAliases function_aliases module_ref)
  let function_aliases := env.UpdateFunctionAliases function_aliases module_ref
  let aliased_function_names : Finset String :=
    function_aliases.foldl (fun acc aliases => insert aliases.1 acc) ∅
  let module_ref ← call
    (Event.PreprocessAndFreezeGraph k.kDefaultTfQuantMlirDumpFilePrefix is_inliner_run
      aliased_function_names module_ref session run_tf_to_stablehlo
      deserialize_xla_call_module)
    (env.PreprocessAndFreezeGraph k.kDefaultTfQuantMlirDumpFilePrefix is_inliner_run
      aliased_function_names module_ref session run_tf_to_stablehlo
      deserialize_xla_call_module)
  return (module_ref, function_aliases)

/-- Embedding of `ModuleOpToExportedModel` (lines 136-153).  The export passes
rewrite `module_op` in place: the module after them is returned next to the
artifact. -/
def ModuleOpToExportedModel (env : Collaborators T) (k : Constants)
    (module_op : T.ModuleOp) (step_name : String) (unfreeze_constants : Bool)
    (function_aliases : AliasMap) : Pipeline T (T.ExportedModel × T.ModuleOp) := do
  let checkpoint_dir ← call Event.GetLocalTmpFileName env.GetLocalTmpFileName
  let export_opts : ExportOptions :=
    { duplicate_shape_determining_constants := true,
      unfreeze_constants := unfreeze_constants,
      checkpoint_dir := checkpoint_dir,
      debug_name := StrCat step_name k.kExportStepSuffix }
  let exported ← call (Event.RunExportPasses export_opts module_op)
    (env.RunExportPasses export_opts module_op)
  let asset_file_defs := exported.1
  let module_op := exported.2
  let exported_model ← call
    (Event.ConvertMlirModuleToExportedModel module_op checkpoint_dir function_aliases
      asset_file_defs)
    (env.ConvertMlirModuleToExportedModel module_op checkpoint_dir function_aliases
      asset_file_defs)
  return (exported_model, module_op)

/-- Embedding of `ExportCalibrationModel` (lines 155-177).  The clone is a
copy of the module's value; it is dropped when the function returns. -/
def ExportCalibrationModel (env : Collaborators T) (k : Constants)
    (module_op : T.ModuleOp) (quantization_options : QuantizationOptions T)
    (function_aliases : AliasMap) : Pipeline T T.ExportedModel := do
  note (Event.Clone module_op)
  let cloned_module_ref := module_op
  note (Event.DisableDebugging cloned_module_ref)
  let cloned_module_ref := env.DisableDebugging cloned_module_ref
  let exported_model ← orInternalError "Failed to export calibration model: "
    (ModuleOpToExportedModel env k cloned_module_ref k.kTfQuantPtqPreCalibrationStepName
      (!quantization_options.freeze_all_variables) function_aliases)
  return exported_model.1

/-- Embedding of `QuantizePtqModelPreCalibrationImpl` (lines 179-204).  The
module after the stage is returned next to the artifact: it is the state in
which the caller finds the module it passed. -/
def QuantizePtqModelPreCalibrationImpl (env : Collaborators T) (k : Constants)
    (module_op : T.ModuleOp) (quantization_options : QuantizationOptions T)
    (function_aliases : AliasMap) : Pipeline T (T.ExportedModel × T.ModuleOp) := do
  let is_stablehlo : Bool := decide (quantization_options.op_set = OpSet.STABLEHLO)
  let module_op ←
    if is_stablehlo then
      let quantization_config : QuantizationConfig :=
        { debugger_config := some quantization_options.get_debugger_config }
      call (Event.PreCalibrationComponentRun module_op quantization_config)
        (env.PreCalibrationComponentRun module_op quantization_config)
    else
      call
        (Event.RunPasses k.kTfQuantPtqPreCalibrationStepName
          (PassSet.AddQuantizePtqPreCalibrationPasses quantization_options) module_op)
        (env.RunPasses k.kTfQuantPtqPreCalibrationStepName
          (PassSet.AddQuantizePtqPreCalibrationPasses quantization_options) module_op)
  let exported_model ← ExportCalibrationModel env k module_op quantization_options
    function_aliases
  return (exported_model, module_op)

/-- Embedding of `QuantizePtqModelPostCalibrationImpl` (lines 206-240). -/
def QuantizePtqModelPostCalibrationImpl (env : Collaborators T) (k : Constants)
    (module_op : T.ModuleOp) (quantization_options : QuantizationOptions T)
    (function_aliases : AliasMap) : Pipeline T T.ExportedModel := do
  let is_stablehlo : Bool := decide (quantization_options.op_set = OpSet.STABLEHLO)
  let module_op ←
    if is_stablehlo then
      let quantization_config : QuantizationConfig :=
        { static_range_ptq_preset :=
            some { enable_per_channel_quantized_weight :=
                     quantization_options.enable_per_channel_quantization },
          pipeline_config := some { unpack_quantized_types := true } }
      call (Event.PostCalibrationComponentRun module_op quantization_config)
        (env.PostCalibrationComponentRun module_op quantization_config)
    else
      call
        (Event.RunPasses k.kTfQuantPtqPostCalibrationStepName
          (PassSet.AddQuantizePtqPostCalibrationPasses quantization_options
            k.kTfQuantPtqPostCalibrationStepName) module_op)
        (env.RunPasses k.kTfQuantPtqPostCalibrationStepName
          (PassSet.AddQuantizePtqPostCalibrationPasses quantization_options
            k.kTfQuantPtqPostCalibrationStepName) module_op)
  let exported_model ← ModuleOpToExportedModel env k module_op
    k.kTfQuantPtqPostCalibrationStepName (!quantization_options.freeze_all_variables)
    function_aliases
  return exported_model.1

/-- Embedding of `QuantizeQatModel` (lines 244-284). -/
def QuantizeQatModel (env : Collaborators T) (k : Constants)
    (saved_model_path : String) (signature_keys : List String) (tags : Finset String)
    (quantization_options : QuantizationOptions T) : Pipeline T T.ExportedModel := do
  let function_aliases ← orInternalError "Failed to get function alias: "
    (call (Event.GetFunctionAliases saved_model_path tags)
      (env.GetFunctionAliases saved_model_path tags))
  let imported ← orInternalError "Failed to import and preprocess SavedModel: "
    (ImportAndPreprocessSavedModel env k saved_model_path signature_keys tags
      true false false function_aliases)
  let module_ref := imported.1
  let function_aliases := imported.2
  let module_ref ← call
    (Event.RunPasses k.kTfQuantQatStepName
      (PassSet.AddQuantizeQatPasses quantization_options k.kTfQuantQatStepName) module_ref)
    (env.RunPasses k.kTfQuantQatStepName
      (PassSet.AddQuantizeQatPasses quantization_options k.kTfQuantQatStepName) module_ref)
  let exported_model ← ModuleOpToExportedModel env k module_ref k.kTfQuantQatStepName
    (!quantization_options.freeze_all_variables) function_aliases
  return exported_model.1

/-- Embedding of `QuantizePtqModelPreCalibration` (lines 286-317). -/
def QuantizePtqModelPreCalibration (env : Collaborators T) (k : Constants)
    (saved_model_path : String) (signature_keys : List String) (tags : Finset String)
    (quantization_options : QuantizationOptions T) : Pipeline T T.ExportedModel := do
  let function_aliases ← orInternalError "Failed to get function alias: "
    (call (Event.GetFunctionAliases saved_model_path tags)
      (env.GetFunctionAliases saved_model_path tags))
  let is_stablehlo : Bool := decide (quantization_options.op_set = OpSet.STABLEHLO)
  let imported ← orInternalError "Failed to import and preprocess SavedModel: "
    (ImportAndPreprocessSavedModel env k saved_model_path signature_keys tags
      true is_stablehlo false function_aliases)
  let module_ref := imported.1
  let function_aliases := imported.2
  let exported_model ← QuantizePtqModelPreCalibrationImpl env k module_ref
    quantization_options function_aliases
  return exported_model.1

/-- Embedding of `QuantizePtqModelPostCalibration` (lines 319-352). -/
def QuantizePtqModelPostCalibration (env : Collaborators T) (k : Constants)
    (saved_model_path : String) (signature_keys : List String) (tags : Finset String)
    (quantization_options : QuantizationOptions T) : Pipeline T T.ExportedModel := do
  let function_aliases ← orInternalError "Failed to get function alias: "
    (call (Event.GetFunctionAliases saved_model_path tags)
      (env.GetFunctionAliases saved_model_path tags))
  let imported ← orInternalError "Failed to import and preprocess SavedModel: "
    (ImportAndPreprocessSavedModel env k saved_model_path signature_keys tags
      false false false function_aliases)
  let module_ref := imported.1
  let function_aliases := imported.2
  QuantizePtqModelPostCalibrationImpl env k module_ref quantization_options
    function_aliases

/-- Embedding of `QuantizeDynamicRangePtq` (lines 354-395). -/
def QuantizeDynamicRangePtq (env : Collaborators T) (k : Constants)
    (saved_model_path : String) (signature_keys : List String) (tags : Finset String)
    (quantization_options : QuantizationOptions T) : Pipeline T T.ExportedModel := do
  let function_aliases ← orInternalError "Failed to get function alias: "
    (call (Event.GetFunctionAliases saved_model_path tags)
      (env.GetFunctionAliases saved_model_path tags))
  let imported ← orInternalError "Failed to import and preprocess SavedModel: "
    (ImportAndPreprocessSavedModel env k saved_model_path signature_keys tags
      true false false function_aliases)
  let module_ref := imported.1
  let function_aliases := imported.2
  let module_ref ← call
    (Event.RunPasses k.kTfQuantPtqDynamicRangeStepName
      (PassSet.AddQuantizePtqDynamicRangePasses quantization_options
        k.kTfQuantPtqDynamicRangeStepName) module_ref)
    (env.RunPasses k.kTfQuantPtqDynamicRangeStepName
      (PassSet.AddQuantizePtqDynamicRangePasses quantization_options
        k.kTfQuantPtqDynamicRangeStepName) module_ref)
  let exported_model ← ModuleOpToExportedModel env k module_ref
    k.kTfQuantPtqDynamicRangeStepName (!quantization_options.freeze_all_variables)
    function_aliases
  return exported_model.1

/-- Embedding of `QuantizeWeightOnly` (lines 399-443).  The tags and the
signature keys are those of `quantization_options`. -/
def QuantizeWeightOnly (env : Collaborators T) (k : Constants)
    (saved_model_path : String) (quantization_options : QuantizationOptions T) :
    Pipeline T T.ExportedModel := do
  let function_aliases ← orInternalError "Failed to get function alias: "
    (call (Event.GetFunctionAliases saved_model_path quantization_options.tags.toFinset)
      (env.GetFunctionAliases saved_model_path quantization_options.tags.toFinset))
  let imported ← orInternalError "Failed to import and preprocess SavedModel: "
    (ImportAndPreprocessSavedModel env k saved_model_path
      quantization_options.signature_keys quantization_options.tags.toFinset
      true false false function_aliases)
  let module_ref := imported.1
  let function_aliases := imported.2
  let module_ref ← call
    (Event.RunPasses k.kTfQuantWeightOnlyStepName
      (PassSet.AddQuantizeWeightOnlyPasses quantization_options
        k.kTfQuantWeightOnlyStepName) module_ref)
    (env.RunPasses k.kTfQuantWeightOnlyStepName
      (PassSet.AddQuantizeWeightOnlyPasses quantization_options
        k.kTfQuantWeightOnlyStepName) module_ref)
  let exported_model ← ModuleOpToExportedModel env k module_ref
    k.kTfQuantWeightOnlyStepName (!quantization_options.freeze_all_variables)
    function_aliases
  return exported_model.1

/-- The text of the warning logged at lines 501-502. -/
def kMissingStatisticsWarning : String :=
  "Some CustomAggregator ops do not have min or max values. Parts of the graph are not quantized. "

/-- Embedding of `QuantizeStaticRangePtq` (lines 445-528).  The
`py_function_library` argument is the pair of collaborators
`SaveExportedModel` and `RunCalibration`. -/
def QuantizeStaticRangePtq (env : Collaborators T) (k : Constants)
    (saved_model_path : String) (signature_keys : List String) (tags : Finset String)
    (quantization_options : QuantizationOptions T)
    (signature_def_map : T.SignatureDefMap)
    (representative_dataset_file_map_serialized : T.RepresentativeDatasetFileMap) :
    Pipeline T T.ExportedModel := do
  let function_aliases ← orInternalError "Failed to get function alias: "
    (call (Event.GetFunctionAliases saved_model_path tags)
      (env.GetFunctionAliases saved_model_path tags))
  let is_stablehlo : Bool := decide (quantization_options.op_set = OpSet.STABLEHLO)
  let imported ← orInternalError "Failed to import and preprocess SavedModel: "
    (ImportAndPreprocessSavedModel env k saved_model_path signature_keys tags
      true is_stablehlo false function_aliases)
  let module_ref := imported.1
  let function_aliases := imported.2
  let pre_calibration ← QuantizePtqModelPreCalibrationImpl env k module_ref
    quantization_options function_aliases
  let pre_calibration_exported_model := pre_calibration.1
  let module_ref := pre_calibration.2
  let precalibrated_saved_model_dir ← call Event.CreateTmpDir env.CreateTmpDir
  let _ ← callTotal
    (Event.SaveExportedModel precalibrated_saved_model_dir pre_calibration_exported_model
      saved_model_path tags signature_def_map)
    (env.SaveExportedModel precalibrated_saved_model_dir pre_calibration_exported_model
      saved_model_path tags signature_def_map)
  let _ ← callTotal
    (Event.RunCalibration precalibrated_saved_model_dir signature_keys tags
      quantization_options.calibration_options
      quantization_options.force_graph_mode_calibration
      representative_dataset_file_map_serialized)
    (env.RunCalibration precalibrated_saved_model_dir signature_keys tags
      quantization_options.calibration_options
      quantization_options.force_graph_mode_calibration
      representative_dataset_file_map_serialized)
  let statistics ← callStatus
    (Event.AddCalibrationStatistics module_ref quantization_options.calibration_options)
    (env.AddCalibrationStatistics module_ref quantization_options.calibration_options)
  match statistics.1 with
    | some status => note (Event.LogWarning kMissingStatisticsWarning status)
    | none => pure ()
  let module_ref := statistics.2
  let module_ref ←
    if quantization_options.has_debugger_config &&
        decide (quantization_options.get_debugger_config.debugger_type =
          DebuggerType.DEBUGGER_TYPE_WHOLE_MODEL) then do
      note (Event.EnableDebugging pre_calibration_exported_model)
      let pre_calibration_exported_model :=
        env.EnableDebugging pre_calibration_exported_model
      note (Event.ChangeToQuantizedFilename module_ref)
      let module_ref := env.ChangeToQuantizedFilename module_ref
      let unquantized_dump_model_path :=
        quantization_options.get_debugger_config.unquantized_dump_model_path
      let _ ← callTotal
        (Event.SaveExportedModel unquantized_dump_model_path pre_calibration_exported_model
          saved_model_path tags signature_def_map)
        (env.SaveExportedModel unquantized_dump_model_path pre_calibration_exported_model
          saved_model_path tags signature_def_map)
      pure module_ref
    else
      pure module_ref
  QuantizePtqModelPostCalibrationImpl env k module_ref quantization_options
    function_aliases

/-- The six public entry points. -/
inductive EntryPoint where
  | QuantizeQatModel
  | QuantizePtqModelPreCalibration
  | QuantizePtqModelPostCalibration
  | QuantizeDynamicRangePtq
  | QuantizeWeightOnly
  | QuantizeStaticRangePtq
deriving DecidableEq, Repr

/-- The arguments of an invocation (an entry point reads those it declares). -/
structure Invocation (T : Sorts) where
  saved_model_path : String
  signature_keys : List String
  tags : Finset String
  quantization_options : QuantizationOptions T
  signature_def_map : T.SignatureDefMap
  representative_dataset_file_map_serialized : T.RepresentativeDatasetFileMap

/-- Invoke an entry point. -/
def EntryPoint.run (ep : EntryPoint) (env : Collaborators T) (k : Constants)
    (inv : Invocation T) : Pipeline T T.ExportedModel :=
  match ep with
  | EntryPoint.QuantizeQatModel =>
    TfQuant.QuantizeQatModel env k inv.saved_model_path inv.signature_keys inv.tags
      inv.quantization_options
  | EntryPoint.QuantizePtqModelPreCalibration =>
    TfQuant.QuantizePtqModelPreCalibration env k inv.saved_model_path inv.signature_keys inv.tags
      inv.quantization_options
  | EntryPoint.QuantizePtqModelPostCalibration =>
    TfQuant.QuantizePtqModelPostCalibration env k inv.saved_model_path inv.signature_keys inv.tags
      inv.quantization_options
  | EntryPoint.QuantizeDynamicRangePtq =>
    TfQuant.QuantizeDynamicRangePtq env k inv.saved_model_path inv.signature_keys inv.tags
      inv.quantization_options
  | EntryPoint.QuantizeWeightOnly =>
    TfQuant.QuantizeWeightOnly env k inv.saved_model_path inv.quantization_options
  | EntryPoint.QuantizeStaticRangePtq =>
    TfQuant.QuantizeStaticRangePtq env k inv.saved_model_path inv.signature_keys inv.tags
      inv.quantization_options inv.signature_def_map
      inv.representative_dataset_file_map_serialized

/-- The tags an entry point hands to the alias reader and to the importer. -/
def EntryPoint.tagsOf (ep : EntryPoint) (inv : Invocation T) : Finset String :=
  match ep with
  | EntryPoint.QuantizeWeightOnly => inv.quantization_options.tags.toFinset
  | _ => inv.tags

/-- The signature keys an entry point hands to the importer. -/
def EntryPoint.signatureKeysOf (ep : EntryPoint) (inv : Invocation T) : List String :=
  match ep with
  | EntryPoint.QuantizeWeightOnly => inv.quantization_options.signature_keys
  | _ => inv.signature_keys

end Code

/-! ## A concrete instance of the collaborators -/

section Demo

/-- The artifact of the concrete instance. -/
structure DemoExportedModel where
  graph : List String
  checkpoint_dir : String
  function_aliases : AliasMap
  asset_file_defs : List String
  debugging : Bool
deriving DecidableEq, Repr

/-- Concrete types: the world is the list of external effects so far, a module
is the list of rewrites applied to it. -/
@[reducible] def demoSorts : Sorts where
  World := List String
  ModuleOp := List String
  ExportedModel := DemoExportedModel
  AssetFileDef := String
  CalibrationOptions := Nat
  Session := Unit
  SignatureDefMap := List String
  RepresentativeDatasetFileMap := List String
  PyOutcome := Option Status

/-- Which collaborators of the concrete instance fail, and with which message;
whether the importer renames the aliased functions. -/
structure Faults where
  getFunctionAliases : Option String := none
  importer : Option String := none
  preprocess : Option String := none
  runPasses : Option String := none
  component : Option String := none
  getLocalTmpFileName : Option String := none
  runExportPasses : Option String := none
  convert : Option String := none
  createTmpDir : Option String := none
  saveExportedModel : Option String := none
  runCalibration : Option String := none
  addCalibrationStatistics : Option String := none
  renameOnImport : Bool := false

/-- A fresh temporary name: one more mark per external effect so far. -/
def demoTmpName (w : List String) : String :=
  "/tmp/" ++ String.mk (List.replicate w.length (Char.ofNat 120))

/-- Fail with the given message, or succeed with the given value. -/
def demoResult {α : Type} (fault : Option String) (a : α) : StatusOr α :=
  match fault with
  | some m => Except.error ⟨2, m⟩
  | none => Except.ok a

/-- The collaborators of the concrete instance. -/
def demoEnv (f : Faults) : Collaborators demoSorts where
  GetFunctionAliases := fun _ _ w =>
    (demoResult f.getFunctionAliases [("composite_fn", "my_alias")], w)
  SavedModelSignatureDefsToMlirImport := fun path _ _ _ w =>
    (demoResult f.importer (["import " ++ path], ()), w)
  UpdateFunctionAliases := fun aliases _ =>
    if f.renameOnImport then aliases.map (fun a => (a.1 ++ "_0", a.2)) else aliases
  PreprocessAndFreezeGraph := fun _ _ _ m _ _ _ w =>
    (demoResult f.preprocess (m ++ ["freeze"]), w)
  GetLocalTmpFileName := fun w =>
    (demoResult f.getLocalTmpFileName (demoTmpName w), w ++ ["tmp file"])
  RunExportPasses := fun _ m w =>
    (demoResult f.runExportPasses (["asset"], m ++ ["export"]), w)
  ConvertMlirModuleToExportedModel := fun m dir aliases assets w =>
    (demoResult f.convert
      { graph := m, checkpoint_dir := dir, function_aliases := aliases,
        asset_file_defs := assets, debugging := false }, w)
  RunPasses := fun name _ m w => (demoResult f.runPasses (m ++ ["passes " ++ name]), w)
  PreCalibrationComponentRun := fun m _ w =>
    (demoResult f.component (m ++ ["pre-calibration component"]), w)
  PostCalibrationComponentRun := fun m _ w =>
    (demoResult f.component (m ++ ["post-calibration component"]), w)
  DisableDebugging := fun m => m ++ ["debugging off"]
  EnableDebugging := fun e => { e with debugging := true }
  ChangeToQuantizedFilename := fun m => m ++ ["quantized filename"]
  CreateTmpDir := fun w => (demoResult f.createTmpDir (demoTmpName w), w ++ ["tmp dir"])
  SaveExportedModel := fun dst _ _ _ _ w =>
    match f.saveExportedModel with
    | some m => (some ⟨2, m⟩, w)
    | none => (none, w ++ ["saved " ++ dst])
  RunCalibration := fun dir _ _ _ _ _ w =>
    match f.runCalibration with
    | some m => (some ⟨2, m⟩, w)
    | none => (none, w ++ ["calibrated " ++ dir])
  AddCalibrationStatistics := fun m _ w =>
    match f.addCalibrationStatistics with
    | some msg => ((some ⟨2, msg⟩, m ++ ["some statistics"]), w)
    | none => ((none, m ++ ["statistics"]), w)

/-- The constants of the concrete instance. -/
def demoConstants : Constants where
  kDefaultTfQuantMlirDumpFilePrefix := "tf_quant"
  kExportStepSuffix := "_export"
  kTfQuantQatStepName := "qat"
  kTfQuantPtqPreCalibrationStepName := "pre"
  kTfQuantPtqPostCalibrationStepName := "post"
  kTfQuantPtqDynamicRangeStepName := "dynamic"
  kTfQuantWeightOnlyStepName := "weight_only"

/-- Options of the concrete instance, by op set and debugger configuration. -/
def demoOptions (op_set : OpSet) (debugger_config : Option DebuggerConfig) :
    QuantizationOptions demoSorts where
  op_set := op_set
  enable_per_channel_quantization := true
  freeze_all_variables := true
  calibration_options := 0
  force_graph_mode_calibration := false
  debugger_config := debugger_config
  tags := ["serve"]
  signature_keys := ["serving_default"]

/-- An invocation of the concrete instance. -/
def demoInvocation (op_set : OpSet) (debugger_config : Option DebuggerConfig) :
    Invocation demoSorts where
  saved_model_path := "model"
  signature_keys := ["serving_default"]
  tags := {"serve"}
  quantization_options := demoOptions op_set debugger_config
  signature_def_map := []
  representative_dataset_file_map_serialized := []

/-- A whole-model debugger configuration. -/
def demoWholeModel : DebuggerConfig :=
  { debugger_type := DebuggerType.DEBUGGER_TYPE_WHOLE_MODEL,
    unquantized_dump_model_path := "dump" }

/-- Options of the concrete instance: the legacy op set with whole-model debugging. -/
def demoWholeModelOptions : QuantizationOptions demoSorts :=
  demoOptions OpSet.TF (some demoWholeModel)

/-- The artifact the static-range mode returns on the concrete instance under
`demoWholeModelOptions`, when no collaborator fails. -/
def demoStaticRangeResult : DemoExportedModel :=
  { graph := ["import model", "freeze", "passes pre", "statistics", "quantized filename",
      "passes post", "export"],
    checkpoint_dir := "/tmp/xxxxx",
    function_aliases := [("composite_fn", "my_alias")],
    asset_file_defs := ["asset"],
    debugging := false }

/-- The name of the function a pass set is added by. -/
def demoPassSetName (p : PassSet demoSorts) : String :=
  match p with
  | PassSet.AddQuantizeQatPasses _ _ => "AddQuantizeQatPasses"
  | PassSet.AddQuantizePtqPreCalibrationPasses _ => "AddQuantizePtqPreCalibrationPasses"
  | PassSet.AddQuantizePtqPostCalibrationPasses _ _ => "AddQuantizePtqPostCalibrationPasses"
  | PassSet.AddQuantizePtqDynamicRangePasses _ _ => "AddQuantizePtqDynamicRangePasses"
  | PassSet.AddQuantizeWeightOnlyPasses _ _ => "AddQuantizeWeightOnlyPasses"

/-- The fields of a nested quantization config, as text. -/
def demoConfigText (c : QuantizationConfig) : String :=
  match c.static_range_ptq_preset, c.pipeline_config with
  | some preset, some pipeline =>
    "per_channel=" ++ toString preset.enable_per_channel_quantized_weight ++
      " unpack=" ++ toString pipeline.unpack_quantized_types
  | _, _ => "no preset"

/-- A second concrete instance, in which the preprocessor, the pass stages and
the export passes write the arguments they receive into the module they return:
the inliner and lowering flags and which of three function names are in the
no-inline set, the pass set, the config of the post-calibration component, the
`unfreeze_constants` option. -/
def recordingEnv : Collaborators demoSorts :=
  { demoEnv { renameOnImport := true } with
    PreprocessAndFreezeGraph := fun _ inl noinline m _ shl _ w =>
      (Except.ok (m ++ ["freeze inliner=" ++ toString inl ++ " stablehlo=" ++ toString shl] ++
        (["composite_fn", "composite_fn_0", "main"].filter (fun n => decide (n ∈ noinline))).map
          (fun n => "no inlining of " ++ n)), w ++ ["preprocessed"])
    RunPasses := fun name p m w =>
      (Except.ok (m ++ ["passes " ++ name ++ " " ++ demoPassSetName p]), w ++ ["passes run"])
    PreCalibrationComponentRun := fun m _ w =>
      (Except.ok (m ++ ["pre-calibration component"]), w ++ ["component run"])
    PostCalibrationComponentRun := fun m c w =>
      (Except.ok (m ++ ["post-calibration component " ++ demoConfigText c]),
        w ++ ["component run"])
    RunExportPasses := fun opts m w =>
      (Except.ok (["asset"],
        m ++ ["export unfreeze_constants=" ++ toString opts.unfreeze_constants]),
        w ++ ["exported"]) }

/-- An invocation of the concrete instance with `freeze_all_variables` false, in
the legacy op set. -/
def demoUnfrozenInvocation : Invocation demoSorts :=
  { demoInvocation OpSet.TF none with
    quantization_options :=
      { demoOptions OpSet.TF none with freeze_all_variables := false } }

/-- The pre-calibration artifact of the concrete instance, in the legacy op
set. -/
def demoPreCalibrationResult : DemoExportedModel :=
  { graph := ["import model", "freeze", "passes pre", "debugging off", "export"],
    checkpoint_dir := "/tmp/", function_aliases := [("composite_fn", "my_alias")],
    asset_file_defs := ["asset"], debugging := false }

end Demo

/-! ## Vocabulary of the statements -/

section Vocabulary

variable {T : Sorts}

/-- The condition of lines 513-515: a debugger config is set and its type is
`DEBUGGER_TYPE_WHOLE_MODEL`. -/
def wholeModelDebugging (q : QuantizationOptions T) : Bool :=
  q.has_debugger_config &&
    decide (q.get_debugger_config.debugger_type = DebuggerType.DEBUGGER_TYPE_WHOLE_MODEL)

/-- The same collaborators, except that `AddCalibrationStatistics` reports OK;
its effect on the module and on the world is unchanged. -/
def withStatisticsOk (env : Collaborators T) : Collaborators T :=
  { env with
    AddCalibrationStatistics := fun m c w =>
      ((none, (env.AddCalibrationStatistics m c w).1.2),
        (env.AddCalibrationStatistics m c w).2) }

/-- The trace entries of lines 497-504, for a status of
`AddCalibrationStatistics`. -/
def statisticsEntries (module_op : T.ModuleOp) (c : T.CalibrationOptions)
    (status : Option Status) : List (Entry T) :=
  match status with
  | some st =>
    [⟨Event.AddCalibrationStatistics module_op c, some st⟩,
     ⟨Event.LogWarning kMissingStatisticsWarning st, none⟩]
  | none => [⟨Event.AddCalibrationStatistics module_op c, none⟩]

/-- Whether a call runs the post-calibration pass stage: the quantizer
component, or `RunPasses` with the legacy post-calibration pass set. -/
def Event.isPostCalibrationStage : Event T → Bool
  | Event.PostCalibrationComponentRun _ _ => true
  | Event.RunPasses _ (PassSet.AddQuantizePtqPostCalibrationPasses _ _) _ => true
  | _ => false

/-- Whether a call is `CreateTmpDir`. -/
def Event.isCreateTmpDir : Event T → Bool
  | Event.CreateTmpDir => true
  | _ => false

/-- Whether a failing export step belongs to the export of the calibration
model (`ExportCalibrationModel`): always in `QuantizePtqModelPreCalibration`, in
`QuantizeStaticRangePtq` as long as the temporary directory has not been
requested, never in the other entry points. -/
def inCalibrationExport (ep : EntryPoint) (trace : List (Entry T)) : Bool :=
  match ep with
  | EntryPoint.QuantizePtqModelPreCalibration => true
  | EntryPoint.QuantizeStaticRangePtq => !(trace.any (fun en => en.call.isCreateTmpDir))
  | _ => false

/-- How the status `st0` of the failing collaborator call `ev` reaches the
caller as `st`, read off the code: behind a tag in a fresh internal error, or
unchanged. -/
def Reported (ep : EntryPoint) (trace : List (Entry T)) (ev : Event T) (st0 st : Status) :
    Prop :=
  match ev with
  | Event.GetFunctionAliases _ _ =>
    st = InternalError ("Failed to get function alias: " ++ st0.message)
  | Event.SavedModelSignatureDefsToMlirImport _ _ _ _ =>
    st = InternalError
      ("Failed to import and preprocess SavedModel: Failed to import SavedModel: " ++
        st0.message)
  | Event.PreprocessAndFreezeGraph _ _ _ _ _ _ _ =>
    st = InternalError ("Failed to import and preprocess SavedModel: " ++ st0.message)
  | Event.GetLocalTmpFileName =>
    if inCalibrationExport ep trace = true then
      st = InternalError ("Failed to export calibration model: " ++ st0.message)
    else st = st0
  | Event.RunExportPasses _ _ =>
    if inCalibrationExport ep trace = true then
      st = InternalError ("Failed to export calibration model: " ++ st0.message)
    else st = st0
  | Event.ConvertMlirModuleToExportedModel _ _ _ _ =>
    if inCalibrationExport ep trace = true then
      st = InternalError ("Failed to export calibration model: " ++ st0.message)
    else st = st0
  | _ => st = st0

/-- The outcome `r` of a step satisfies `Q`.  A wrapper that keeps the
predicate and the outcome apart while a run is followed step by step. -/
structure Sat {α : Type} (Q : StatusOr α × PState T → Prop) (r : StatusOr α × PState T) :
    Prop where
  holds : Q r

/-- The artifacts handed to `SaveExportedModel` in a trace, each with its
destination path, in call order. -/
def savedArtifacts (trace : List (Entry T)) : List (String × T.ExportedModel) :=
  trace.filterMap fun en =>
    match en.call with
    | Event.SaveExportedModel dst e _ _ _ => some (dst, e)
    | _ => none

/-- The artifacts `EnableDebugging` was applied to in a trace. -/
def enabledArtifacts (trace : List (Entry T)) : List T.ExportedModel :=
  trace.filterMap fun en =>
    match en.call with
    | Event.EnableDebugging e => some e
    | _ => none

/-- The modules `ChangeToQuantizedFilename` was applied to in a trace. -/
def renamedModules (trace : List (Entry T)) : List T.ModuleOp :=
  trace.filterMap fun en =>
    match en.call with
    | Event.ChangeToQuantizedFilename m => some m
    | _ => none

/-- The modules the post-calibration pass stage was run on in a trace. -/
def postCalibrationStageModules (trace : List (Entry T)) : List T.ModuleOp :=
  trace.filterMap fun en =>
    match en.call with
    | Event.PostCalibrationComponentRun m _ => some m
    | Event.RunPasses _ (PassSet.AddQuantizePtqPostCalibrationPasses _ _) m => some m
    | _ => none

/-- Whether a call is `ChangeToQuantizedFilename`. -/
def Event.isChangeToQuantizedFilename : Event T → Bool
  | Event.ChangeToQuantizedFilename _ => true
  | _ => false

/-- Whether a trace reaches the post-calibration pass stage. -/
def reachesPostCalibrationStage (trace : List (Entry T)) : Bool :=
  trace.any fun en => en.call.isPostCalibrationStage

/-- Whether, in a trace, a call of the post-calibration pass stage comes after a
call of `ChangeToQuantizedFilename`. -/
def renamedBeforePostCalibrationStage (trace : List (Entry T)) : Bool :=
  reachesPostCalibrationStage
    (trace.dropWhile fun en => !en.call.isChangeToQuantizedFilename)

/-- The alias maps handed to `ConvertMlirModuleToExportedModel` in a trace. -/
def exportedAliases (trace : List (Entry T)) : List AliasMap :=
  trace.filterMap fun en =>
    match en.call with
    | Event.ConvertMlirModuleToExportedModel _ _ function_aliases _ => some function_aliases
    | _ => none

/-- The export options handed to `RunExportPasses` in a trace. -/
def exportOptions (trace : List (Entry T)) : List ExportOptions :=
  trace.filterMap fun en =>
    match en.call with
    | Event.RunExportPasses export_opts _ => some export_opts
    | _ => none

/-- The calls of a trace that run a pass stage: `RunPasses`, or the `Run` of a
quantizer component. -/
def stageCalls (trace : List (Entry T)) : List (Event T) :=
  trace.filterMap fun en =>
    match en.call with
    | Event.RunPasses name add_passes_func m => some (Event.RunPasses name add_passes_func m)
    | Event.PreCalibrationComponentRun m c => some (Event.PreCalibrationComponentRun m c)
    | Event.PostCalibrationComponentRun m c => some (Event.PostCalibrationComponentRun m c)
    | _ => none

/-- Which `AddQuantize…Passes` function an `add_passes_func` lambda calls. -/
inductive PassSetKind where
  | AddQuantizeQatPasses
  | AddQuantizePtqPreCalibrationPasses
  | AddQuantizePtqPostCalibrationPasses
  | AddQuantizePtqDynamicRangePasses
  | AddQuantizeWeightOnlyPasses
deriving DecidableEq, Repr

/-- The function a pass set is added by, without its arguments. -/
def PassSet.kind : PassSet T → PassSetKind
  | PassSet.AddQuantizeQatPasses _ _ => PassSetKind.AddQuantizeQatPasses
  | PassSet.AddQuantizePtqPreCalibrationPasses _ =>
    PassSetKind.AddQuantizePtqPreCalibrationPasses
  | PassSet.AddQuantizePtqPostCalibrationPasses _ _ =>
    PassSetKind.AddQuantizePtqPostCalibrationPasses
  | PassSet.AddQuantizePtqDynamicRangePasses _ _ =>
    PassSetKind.AddQuantizePtqDynamicRangePasses
  | PassSet.AddQuantizeWeightOnlyPasses _ _ => PassSetKind.AddQuantizeWeightOnlyPasses

/-- How a pass stage is run: a legacy pass set through `RunPasses`, or a
quantizer component. -/
inductive StageChoice where
  | legacy (kind : PassSetKind)
  | preCalibrationComponent
  | postCalibrationComponent
deriving DecidableEq, Repr

/-- The pass stages of a trace, in call order, each by the way it is run. -/
def stageChoices (trace : List (Entry T)) : List StageChoice :=
  trace.filterMap fun en =>
    match en.call with
    | Event.RunPasses _ add_passes_func _ => some (StageChoice.legacy add_passes_func.kind)
    | Event.PreCalibrationComponentRun _ _ => some StageChoice.preCalibrationComponent
    | Event.PostCalibrationComponentRun _ _ => some StageChoice.postCalibrationComponent
    | _ => none

/-- The quantization options handed to the legacy pass sets of a trace. -/
def legacyPassOptions (trace : List (Entry T)) : List (QuantizationOptions T) :=
  trace.filterMap fun en =>
    match en.call with
    | Event.RunPasses _ (PassSet.AddQuantizeQatPasses opts _) _ => some opts
    | Event.RunPasses _ (PassSet.AddQuantizePtqPreCalibrationPasses opts) _ => some opts
    | Event.RunPasses _ (PassSet.AddQuantizePtqPostCalibrationPasses opts _) _ => some opts
    | Event.RunPasses _ (PassSet.AddQuantizePtqDynamicRangePasses opts _) _ => some opts
    | Event.RunPasses _ (PassSet.AddQuantizeWeightOnlyPasses opts _) _ => some opts
    | _ => none

/-- The `run_tf_to_stablehlo` flags handed to `PreprocessAndFreezeGraph` in a
trace. -/
def loweringFlags (trace : List (Entry T)) : List Bool :=
  trace.filterMap fun en =>
    match en.call with
    | Event.PreprocessAndFreezeGraph _ _ _ _ _ run_tf_to_stablehlo _ =>
      some run_tf_to_stablehlo
    | _ => none

/-- The legacy pass set of the entry points that have a single pass stage. -/
def legacyPassSetOf (ep : EntryPoint) : Option PassSetKind :=
  match ep with
  | EntryPoint.QuantizeQatModel => some PassSetKind.AddQuantizeQatPasses
  | EntryPoint.QuantizeDynamicRangePtq => some PassSetKind.AddQuantizePtqDynamicRangePasses
  | EntryPoint.QuantizeWeightOnly => some PassSetKind.AddQuantizeWeightOnlyPasses
  | _ => none

/-- The stage choice an entry point is bound to: its legacy pass set if it has a
single pass stage, the choice `c` itself otherwise. -/
def boundStageChoice (ep : EntryPoint) (c : StageChoice) : StageChoice :=
  match legacyPassSetOf ep with
  | some kind => StageChoice.legacy kind
  | none => c

/-- The `run_tf_to_stablehlo` flag an entry point imports with, read off the
code: whether the op set is `STABLEHLO` in `QuantizePtqModelPreCalibration` and
`QuantizeStaticRangePtq`, false in the other entry points. -/
def loweringFlagOf (ep : EntryPoint) (q : QuantizationOptions T) : Bool :=
  match ep with
  | EntryPoint.QuantizePtqModelPreCalibration => decide (q.op_set = OpSet.STABLEHLO)
  | EntryPoint.QuantizeStaticRangePtq => decide (q.op_set = OpSet.STABLEHLO)
  | _ => false

/-- The steps that `QuantizePtqModelPreCalibration` (lines 291-316) and
`QuantizeStaticRangePtq` (lines 454-481) have in common: alias resolution, import
and preprocessing, the pre-calibration stage and its export.  The value is the
artifact, the module after the stage and the alias map. -/
def preCalibrationSteps (env : Collaborators T) (k : Constants)
    (saved_model_path : String) (signature_keys : List String) (tags : Finset String)
    (quantization_options : QuantizationOptions T) :
    Pipeline T ((T.ExportedModel × T.ModuleOp) × AliasMap) := do
  let function_aliases ← orInternalError "Failed to get function alias: "
    (call (Event.GetFunctionAliases saved_model_path tags)
      (env.GetFunctionAliases saved_model_path tags))
  let is_stablehlo : Bool := decide (quantization_options.op_set = OpSet.STABLEHLO)
  let imported ← orInternalError "Failed to import and preprocess SavedModel: "
    (ImportAndPreprocessSavedModel env k saved_model_path signature_keys tags
      true is_stablehlo false function_aliases)
  let pre_calibration ← QuantizePtqModelPreCalibrationImpl env k imported.1
    quantization_options imported.2
  return (pre_calibration, imported.2)

/-- Lines 483-528 of `QuantizeStaticRangePtq`, as a step of their own: what the
function does once the pre-calibration artifact `pre.1.1`, the live module
`pre.1.2` and the alias map `pre.2` are there. -/
def staticRangeAfterPreCalibration (env : Collaborators T) (k : Constants)
    (saved_model_path : String) (signature_keys : List String) (tags : Finset String)
    (quantization_options : QuantizationOptions T)
    (signature_def_map : T.SignatureDefMap)
    (representative_dataset_file_map_serialized : T.RepresentativeDatasetFileMap)
    (pre : (T.ExportedModel × T.ModuleOp) × AliasMap) : Pipeline T T.ExportedModel := do
  let precalibrated_saved_model_dir ← call Event.CreateTmpDir env.CreateTmpDir
  let _ ← callTotal
    (Event.SaveExportedModel precalibrated_saved_model_dir pre.1.1
      saved_model_path tags signature_def_map)
    (env.SaveExportedModel precalibrated_saved_model_dir pre.1.1
      saved_model_path tags signature_def_map)
  let _ ← callTotal
    (Event.RunCalibration precalibrated_saved_model_dir signature_keys tags
      quantization_options.calibration_options
      quantization_options.force_graph_mode_calibration
      representative_dataset_file_map_serialized)
    (env.RunCalibration precalibrated_saved_model_dir signature_keys tags
      quantization_options.calibration_options
      quantization_options.force_graph_mode_calibration
      representative_dataset_file_map_serialized)
  let statistics ← callStatus
    (Event.AddCalibrationStatistics pre.1.2 quantization_options.calibration_options)
    (env.AddCalibrationStatistics pre.1.2 quantization_options.calibration_options)
  match statistics.1 with
    | some status => note (Event.LogWarning kMissingStatisticsWarning status)
    | none => pure ()
  let module_ref := statistics.2
  let module_ref ←
    if quantization_options.has_debugger_config &&
        decide (quantization_options.get_debugger_config.debugger_type =
          DebuggerType.DEBUGGER_TYPE_WHOLE_MODEL) then do
      note (Event.EnableDebugging pre.1.1)
      note (Event.ChangeToQuantizedFilename module_ref)
      let _ ← callTotal
        (Event.SaveExportedModel
          quantization_options.get_debugger_config.unquantized_dump_model_path
          (env.EnableDebugging pre.1.1) saved_model_path tags signature_def_map)
        (env.SaveExportedModel
          quantization_options.get_debugger_config.unquantized_dump_model_path
          (env.EnableDebugging pre.1.1) saved_model_path tags signature_def_map)
      pure (env.ChangeToQuantizedFilename module_ref)
    else
      pure module_ref
  QuantizePtqModelPostCalibrationImpl env k module_ref quantization_options pre.2

/-- The call of the pre-calibration pass stage on a module (lines 183-200). -/
def preCalibrationStage (k : Constants) (q : QuantizationOptions T) (m : T.ModuleOp) :
    Event T :=
  if q.op_set = OpSet.STABLEHLO then
    Event.PreCalibrationComponentRun m { debugger_config := some q.get_debugger_config }
  else
    Event.RunPasses k.kTfQuantPtqPreCalibrationStepName
      (PassSet.AddQuantizePtqPreCalibrationPasses q) m

/-- The call of the post-calibration pass stage on a module (lines 210-234). -/
def postCalibrationStage (k : Constants) (q : QuantizationOptions T) (m : T.ModuleOp) :
    Event T :=
  if q.op_set = OpSet.STABLEHLO then
    Event.PostCalibrationComponentRun m
      { static_range_ptq_preset :=
          some { enable_per_channel_quantized_weight := q.enable_per_channel_quantization },
        pipeline_config := some { unpack_quantized_types := true } }
  else
    Event.RunPasses k.kTfQuantPtqPostCalibrationStepName
      (PassSet.AddQuantizePtqPostCalibrationPasses q k.kTfQuantPtqPostCalibrationStepName) m

/-- What a pass stage returns for a call of `preCalibrationStage` or
`postCalibrationStage`, in a world. -/
def stageResult (env : Collaborators T) (ev : Event T) (w : T.World) :
    Option (StatusOr T.ModuleOp × T.World) :=
  match ev with
  | Event.RunPasses name add_passes_func m => some (env.RunPasses name add_passes_func m w)
  | Event.PreCalibrationComponentRun m c => some (env.PreCalibrationComponentRun m c w)
  | Event.PostCalibrationComponentRun m c => some (env.PostCalibrationComponentRun m c w)
  | _ => none

/-- The trace entry of the warning of lines 501-503, for a status of
`AddCalibrationStatistics`. -/
def warningEntries (status : Option Status) : List (Entry T) :=
  match status with
  | some st => [⟨Event.LogWarning kMissingStatisticsWarning st, none⟩]
  | none => []

/-- The trace entries of lines 513-524: none unless whole-model debugging is
configured. -/
def wholeModelEntries (env : Collaborators T) (q : QuantizationOptions T)
    (e : T.ExportedModel) (m : T.ModuleOp) (path : String) (tags : Finset String)
    (sdm : T.SignatureDefMap) : List (Entry T) :=
  if wholeModelDebugging q = true then
    [⟨Event.EnableDebugging e, none⟩, ⟨Event.ChangeToQuantizedFilename m, none⟩,
     ⟨Event.SaveExportedModel q.get_debugger_config.unquantized_dump_model_path
        (env.EnableDebugging e) path tags sdm, none⟩]
  else []

/-- The live module after lines 513-524. -/
def liveModule (env : Collaborators T) (q : QuantizationOptions T) (m : T.ModuleOp) :
    T.ModuleOp :=
  if wholeModelDebugging q = true then env.ChangeToQuantizedFilename m else m

/-- The export options of `ModuleOpToExportedModel` (lines 142-145). -/
def exportOptionsOf (k : Constants) (q : QuantizationOptions T) (step_name : String)
    (checkpoint_dir : String) : ExportOptions :=
  { duplicate_shape_determining_constants := true,
    unfreeze_constants := !q.freeze_all_variables,
    checkpoint_dir := checkpoint_dir,
    debug_name := StrCat step_name k.kExportStepSuffix }

/-- The trace entries of alias resolution, import and preprocessing (lines 92-134
and the alias reader before them), with the failure status of
`PreprocessAndFreezeGraph`, if any. -/
def preprocessingEntries (env : Collaborators T) (k : Constants) (path : String) (tags : Finset String)
    (keys : List String) (is_inliner_run run_tf_to_stablehlo : Bool) (a0 : AliasMap)
    (m0 : T.ModuleOp) (session : T.Session) (failure : Option Status) : List (Entry T) :=
  [⟨Event.GetFunctionAliases path tags, none⟩,
   ⟨Event.SavedModelSignatureDefsToMlirImport path tags keys ⟨true, false, true⟩, none⟩,
   ⟨Event.UpdateFunctionAliases a0 m0, none⟩,
   ⟨Event.PreprocessAndFreezeGraph k.kDefaultTfQuantMlirDumpFilePrefix is_inliner_run
      ((env.UpdateFunctionAliases a0 m0).foldl (fun acc aliases => insert aliases.1 acc) ∅)
      m0 session run_tf_to_stablehlo false, failure⟩]

/-- The non-OK status of a `StatusOr`, if it holds one. -/
def failureOf {α : Type} (r : StatusOr α) : Option Status :=
  match r with
  | Except.ok _ => none
  | Except.error st => some st

/-- What the call recorded by an event does when it is made in a world: the
non-OK status the collaborator returns, if any, and the world after the call.
The collaborators that only rewrite their argument, and the log line, return no
status and leave the world as it is; what `SaveExportedModel` and
`RunCalibration` yield is not a status. -/
def Event.outcome (env : Collaborators T) (ev : Event T) (w : T.World) :
    Option Status × T.World :=
  match ev with
  | Event.GetFunctionAliases path tags =>
    (failureOf (env.GetFunctionAliases path tags w).1, (env.GetFunctionAliases path tags w).2)
  | Event.SavedModelSignatureDefsToMlirImport path tags names opts =>
    (failureOf (env.SavedModelSignatureDefsToMlirImport path tags names opts w).1,
      (env.SavedModelSignatureDefsToMlirImport path tags names opts w).2)
  | Event.UpdateFunctionAliases _ _ => (none, w)
  | Event.PreprocessAndFreezeGraph name inl noinline m session shl dx =>
    (failureOf (env.PreprocessAndFreezeGraph name inl noinline m session shl dx w).1,
      (env.PreprocessAndFreezeGraph name inl noinline m session shl dx w).2)
  | Event.GetLocalTmpFileName =>
    (failureOf (env.GetLocalTmpFileName w).1, (env.GetLocalTmpFileName w).2)
  | Event.RunExportPasses opts m =>
    (failureOf (env.RunExportPasses opts m w).1, (env.RunExportPasses opts m w).2)
  | Event.ConvertMlirModuleToExportedModel m dir aliases assets =>
    (failureOf (env.ConvertMlirModuleToExportedModel m dir aliases assets w).1,
      (env.ConvertMlirModuleToExportedModel m dir aliases assets w).2)
  | Event.Clone _ => (none, w)
  | Event.DisableDebugging _ => (none, w)
  | Event.RunPasses name add_passes_func m =>
    (failureOf (env.RunPasses name add_passes_func m w).1,
      (env.RunPasses name add_passes_func m w).2)
  | Event.PreCalibrationComponentRun m c =>
    (failureOf (env.PreCalibrationComponentRun m c w).1,
      (env.PreCalibrationComponentRun m c w).2)
  | Event.PostCalibrationComponentRun m c =>
    (failureOf (env.PostCalibrationComponentRun m c w).1,
      (env.PostCalibrationComponentRun m c w).2)
  | Event.CreateTmpDir => (failureOf (env.CreateTmpDir w).1, (env.CreateTmpDir w).2)
  | Event.SaveExportedModel dst e src tags sdm =>
    (none, (env.SaveExportedModel dst e src tags sdm w).2)
  | Event.RunCalibration dir keys tags c fg rdm =>
    (none, (env.RunCalibration dir keys tags c fg rdm w).2)
  | Event.AddCalibrationStatistics m c =>
    ((env.AddCalibrationStatistics m c w).1.1, (env.AddCalibrationStatistics m c w).2)
  | Event.LogWarning _ _ => (none, w)
  | Event.EnableDebugging _ => (none, w)
  | Event.ChangeToQuantizedFilename _ => (none, w)

/-- Make the calls recorded in a trace one after the other, from a world: the
statuses they return, and the world after the last of them. -/
def replay (env : Collaborators T) (trace : List (Entry T)) (w : T.World) :
    List (Option Status) × T.World :=
  match trace with
  | [] => ([], w)
  | en :: rest =>
    ((en.call.outcome env w).1 :: (replay env rest (en.call.outcome env w).2).1,
      (replay env rest (en.call.outcome env w).2).2)

/-- A step keeps a true record: the entries it appends to the trace are calls
that, made for real in that order from the world the step starts in, return the
recorded statuses and lead to the world the step ends in. -/
structure Faithful {α : Type} (env : Collaborators T) (p : Pipeline T α) : Prop where
  holds : ∀ s : PState T, ∃ t : List (Entry T),
    (p s).2.trace = s.trace ++ t ∧
    replay env t s.world = (t.map Entry.failure, (p s).2.world)

/-- A step is framed when it only appends to the trace and never reads it. -/
def Framed {α : Type} (p : Pipeline T α) : Prop :=
  ∀ (w : T.World) (t : List (Entry T)),
    p ⟨w, t⟩ = ((p ⟨w, []⟩).1, ⟨(p ⟨w, []⟩).2.world, t ++ (p ⟨w, []⟩).2.trace⟩)

end Vocabulary

/-! ## Basic facts about the pipeline combinators -/

section Basics

variable {T : Sorts} {α β : Type}

theorem bind_eq (p : Pipeline T α) (f : α → Pipeline T β) : (p >>= f) = andThen p f := rfl

theorem pure_eq (a : α) : (pure a : Pipeline T α) = ret a := rfl

theorem forall_mem_of_eq_map_const {γ : Type} {l : List γ} {u : γ}
    (h : l = l.map (fun _ => u)) : ∀ x ∈ l, x = u := by
  intro x hx
  rw [h] at hx
  obtain ⟨_, _, rfl⟩ := List.mem_map.mp hx
  rfl

theorem ne_nil_of_ok {γ δ : Type} {r : StatusOr γ} {l : List δ}
    (h : (r.toBool && l.isEmpty) = false) : ∀ e, r = Except.ok e → l ≠ [] := by
  intro e he hl
  subst he hl
  simp [Except.toBool] at h

theorem all_beq_of_map_eq_const {γ : Type} {l : List γ} {f : γ → Bool} {b : Bool}
    (h : l.map f = l.map (fun _ => b)) : l.all (fun o => f o == b) = true := by
  induction l with
  | nil => rfl
  | cons x l ih =>
    simp only [List.map_cons, List.cons.injEq] at h
    simp only [List.all_cons, Bool.and_eq_true, beq_iff_eq]
    exact ⟨h.1, ih h.2⟩

theorem framed_ret (a : α) : Framed (ret a : Pipeline T α) := by
  intro w t
  simp [ret]

theorem framed_call (ev : Event T) (f : T.World → StatusOr α × T.World) :
    Framed (call ev f) := by
  intro w t
  simp only [call]
  rcases f w with ⟨r | r, w1⟩ <;> simp

theorem framed_callTotal (ev : Event T) (f : T.World → α × T.World) :
    Framed (callTotal ev f) := by
  intro w t
  simp [callTotal]

theorem framed_callStatus (ev : Event T) (f : T.World → (Option Status × α) × T.World) :
    Framed (callStatus ev f) := by
  intro w t
  simp [callStatus]

theorem framed_note (ev : Event T) : Framed (note ev) := by
  intro w t
  simp [note]

theorem framed_orInternalError (tag : String) {p : Pipeline T α} (hp : Framed p) :
    Framed (orInternalError tag p) := by
  intro w t
  simp only [orInternalError]
  rw [hp w t]
  rcases p ⟨w, []⟩ with ⟨r | r, s1⟩ <;> simp

theorem framed_andThen {p : Pipeline T α} {f : α → Pipeline T β} (hp : Framed p)
    (hf : ∀ a, Framed (f a)) : Framed (andThen p f) := by
  intro w t
  simp only [andThen]
  rw [hp w t]
  rcases p ⟨w, []⟩ with ⟨r | r, s1⟩
  · simp
  · simp only
    rw [hf r s1.world (t ++ s1.trace), hf r s1.world s1.trace]
    simp

theorem framed_ite (c : Bool) {p q : Pipeline T α} (hp : Framed p) (hq : Framed q) :
    Framed (if c = true then p else q) := by
  cases c <;> simpa

end Basics

/-! ## The run of the static-range mode after calibration (C1) -/

section

variable {T : Sorts} {α β : Type}

theorem framed_ModuleOpToExportedModel (env : Collaborators T) (k : Constants)
    (m : T.ModuleOp) (step_name : String) (u : Bool) (a : AliasMap) :
    Framed (ModuleOpToExportedModel env k m step_name u a) := by
  unfold ModuleOpToExportedModel
  simp only [bind_eq, pure_eq]
  refine framed_andThen (framed_call _ _) (fun _ => ?_)
  refine framed_andThen (framed_call _ _) (fun _ => ?_)
  exact framed_andThen (framed_call _ _) (fun _ => framed_ret _)

theorem framed_PostCalibrationImpl (env : Collaborators T) (k : Constants)
    (m : T.ModuleOp) (qo : QuantizationOptions T) (a : AliasMap) :
    Framed (QuantizePtqModelPostCalibrationImpl env k m qo a) := by
  unfold QuantizePtqModelPostCalibrationImpl
  simp only [bind_eq, pure_eq]
  refine framed_ite _ ?_ ?_ <;>
    exact framed_andThen (framed_call _ _) (fun _ =>
      framed_andThen (framed_ModuleOpToExportedModel _ _ _ _ _ _) (fun _ => framed_ret _))

theorem staticRange_from_statistics (env : Collaborators T) (k : Constants) (path : String)
    (keys : List String) (tags : Finset String) (qo : QuantizationOptions T)
    (sdm : T.SignatureDefMap) (rdm : T.RepresentativeDatasetFileMap) (s0 s2 s3 : PState T)
    (a0 a : AliasMap) (m0 m1 m2 : T.ModuleOp) (e : T.ExportedModel) (dir : String)
    (w1 w4 w5 w6 w7 : T.World) (o1 o2 : T.PyOutcome) (ost : Option Status)
    (hA : env.GetFunctionAliases path tags s0.world = (Except.ok a0, w1))
    (hI : ImportAndPreprocessSavedModel env k path keys tags true
      (decide (qo.op_set = OpSet.STABLEHLO)) false a0
        ⟨w1, s0.trace ++ [⟨Event.GetFunctionAliases path tags, none⟩]⟩
      = (Except.ok (m0, a), s2))
    (hP : QuantizePtqModelPreCalibrationImpl env k m0 qo a s2 = (Except.ok (e, m1), s3))
    (hT : env.CreateTmpDir s3.world = (Except.ok dir, w4))
    (hS : env.SaveExportedModel dir e path tags sdm w4 = (o1, w5))
    (hR : env.RunCalibration dir keys tags qo.calibration_options
      qo.force_graph_mode_calibration rdm w5 = (o2, w6))
    (hC : env.AddCalibrationStatistics m1 qo.calibration_options w6 = ((ost, m2), w7)) :
    QuantizeStaticRangePtq env k path keys tags qo sdm rdm s0 =
      if wholeModelDebugging qo = true then
        QuantizePtqModelPostCalibrationImpl env k (env.ChangeToQuantizedFilename m2) qo a
          ⟨(env.SaveExportedModel qo.get_debugger_config.unquantized_dump_model_path
              (env.EnableDebugging e) path tags sdm w7).2,
            s3.trace ++ [⟨Event.CreateTmpDir, none⟩,
              ⟨Event.SaveExportedModel dir e path tags sdm, none⟩,
              ⟨Event.RunCalibration dir keys tags qo.calibration_options
                qo.force_graph_mode_calibration rdm, none⟩]
              ++ statisticsEntries m1 qo.calibration_options ost
              ++ [⟨Event.EnableDebugging e, none⟩,
                ⟨Event.ChangeToQuantizedFilename m2, none⟩,
                ⟨Event.SaveExportedModel qo.get_debugger_config.unquantized_dump_model_path
                  (env.EnableDebugging e) path tags sdm, none⟩]⟩
      else
        QuantizePtqModelPostCalibrationImpl env k m2 qo a
          ⟨w7, s3.trace ++ [⟨Event.CreateTmpDir, none⟩,
              ⟨Event.SaveExportedModel dir e path tags sdm, none⟩,
              ⟨Event.RunCalibration dir keys tags qo.calibration_options
                qo.force_graph_mode_calibration rdm, none⟩]
              ++ statisticsEntries m1 qo.calibration_options ost⟩ := by
  unfold QuantizeStaticRangePtq
  simp only [bind_eq, pure_eq]
  have hW : (qo.has_debugger_config = true ∧ qo.get_debugger_config.debugger_type =
      DebuggerType.DEBUGGER_TYPE_WHOLE_MODEL) ↔ wholeModelDebugging qo = true := by
    simp [wholeModelDebugging]
  cases hD : wholeModelDebugging qo <;> cases ost <;>
    simp [andThen, orInternalError, hA, hI, hP, call, callTotal, callStatus, hT, hS, hR, hC,
      note, hW, hD, ret, statisticsEntries]

theorem import_withStatisticsOk (env : Collaborators T) :
    ImportAndPreprocessSavedModel (withStatisticsOk env) = ImportAndPreprocessSavedModel env :=
  rfl

theorem preImpl_withStatisticsOk (env : Collaborators T) :
    QuantizePtqModelPreCalibrationImpl (withStatisticsOk env) =
      QuantizePtqModelPreCalibrationImpl env :=
  rfl

theorem postImpl_withStatisticsOk (env : Collaborators T) :
    QuantizePtqModelPostCalibrationImpl (withStatisticsOk env) =
      QuantizePtqModelPostCalibrationImpl env :=
  rfl

/-- C1. In `QuantizeStaticRangePtq`, when every step up to the creation of the
temporary directory succeeds and `AddCalibrationStatistics` returns a non-OK
status: the invocation goes on, and it is the run of
`QuantizePtqModelPostCalibrationImpl` on the live module (after
`ChangeToQuantizedFilename` when whole-model debugging is on); its result and the
final world are those of the run in which `AddCalibrationStatistics` reports OK
with the same effect; the two traces differ only by the failure status of that
call and by the logged warning. -/
theorem static_range_statistics_failure_only_warns (env : Collaborators T) (k : Constants)
    (path : String) (keys : List String) (tags : Finset String) (qo : QuantizationOptions T)
    (sdm : T.SignatureDefMap) (rdm : T.RepresentativeDatasetFileMap) (s0 s2 s3 : PState T)
    (a0 a : AliasMap) (m0 m1 m2 : T.ModuleOp) (e : T.ExportedModel) (dir : String)
    (w1 w4 w5 w6 w7 : T.World) (o1 o2 : T.PyOutcome) (st : Status)
    (hA : env.GetFunctionAliases path tags s0.world = (Except.ok a0, w1))
    (hI : ImportAndPreprocessSavedModel env k path keys tags true
      (decide (qo.op_set = OpSet.STABLEHLO)) false a0
        ⟨w1, s0.trace ++ [⟨Event.GetFunctionAliases path tags, none⟩]⟩
      = (Except.ok (m0, a), s2))
    (hP : QuantizePtqModelPreCalibrationImpl env k m0 qo a s2 = (Except.ok (e, m1), s3))
    (hT : env.CreateTmpDir s3.world = (Except.ok dir, w4))
    (hS : env.SaveExportedModel dir e path tags sdm w4 = (o1, w5))
    (hR : env.RunCalibration dir keys tags qo.calibration_options
      qo.force_graph_mode_calibration rdm w5 = (o2, w6))
    (hC : env.AddCalibrationStatistics m1 qo.calibration_options w6 = ((some st, m2), w7)) :
    (QuantizeStaticRangePtq env k path keys tags qo sdm rdm s0 =
      if wholeModelDebugging qo = true then
        QuantizePtqModelPostCalibrationImpl env k (env.ChangeToQuantizedFilename m2) qo a
          ⟨(env.SaveExportedModel qo.get_debugger_config.unquantized_dump_model_path
              (env.EnableDebugging e) path tags sdm w7).2,
            s3.trace ++ [⟨Event.CreateTmpDir, none⟩,
              ⟨Event.SaveExportedModel dir e path tags sdm, none⟩,
              ⟨Event.RunCalibration dir keys tags qo.calibration_options
                qo.force_graph_mode_calibration rdm, none⟩,
              ⟨Event.AddCalibrationStatistics m1 qo.calibration_options, some st⟩,
              ⟨Event.LogWarning kMissingStatisticsWarning st, none⟩,
              ⟨Event.EnableDebugging e, none⟩,
              ⟨Event.ChangeToQuantizedFilename m2, none⟩,
              ⟨Event.SaveExportedModel qo.get_debugger_config.unquantized_dump_model_path
                (env.EnableDebugging e) path tags sdm, none⟩]⟩
      else
        QuantizePtqModelPostCalibrationImpl env k m2 qo a
          ⟨w7, s3.trace ++ [⟨Event.CreateTmpDir, none⟩,
              ⟨Event.SaveExportedModel dir e path tags sdm, none⟩,
              ⟨Event.RunCalibration dir keys tags qo.calibration_options
                qo.force_graph_mode_calibration rdm, none⟩,
              ⟨Event.AddCalibrationStatistics m1 qo.calibration_options, some st⟩,
              ⟨Event.LogWarning kMissingStatisticsWarning st, none⟩]⟩) ∧
    (QuantizeStaticRangePtq env k path keys tags qo sdm rdm s0).1 =
      (QuantizeStaticRangePtq (withStatisticsOk env) k path keys tags qo sdm rdm s0).1 ∧
    (QuantizeStaticRangePtq env k path keys tags qo sdm rdm s0).2.world =
      (QuantizeStaticRangePtq (withStatisticsOk env) k path keys tags qo sdm rdm s0).2.world ∧
    ∃ before after : List (Entry T),
      (QuantizeStaticRangePtq env k path keys tags qo sdm rdm s0).2.trace =
        before ++ [⟨Event.AddCalibrationStatistics m1 qo.calibration_options, some st⟩,
          ⟨Event.LogWarning kMissingStatisticsWarning st, none⟩] ++ after ∧
      (QuantizeStaticRangePtq (withStatisticsOk env) k path keys tags qo sdm rdm s0).2.trace =
        before ++ [⟨Event.AddCalibrationStatistics m1 qo.calibration_options, none⟩] ++ after := by
  have hC2 : (withStatisticsOk env).AddCalibrationStatistics m1 qo.calibration_options w6 =
      ((none, m2), w7) := by
    simp [withStatisticsOk, hC]
  have h1 := staticRange_from_statistics env k path keys tags qo sdm rdm s0 s2 s3 a0 a m0 m1 m2
    e dir w1 w4 w5 w6 w7 o1 o2 (some st) hA hI hP hT hS hR hC
  have h2 := staticRange_from_statistics (withStatisticsOk env) k path keys tags qo sdm rdm
    s0 s2 s3 a0 a m0 m1 m2 e dir w1 w4 w5 w6 w7 o1 o2 none hA
    (by rw [import_withStatisticsOk]; exact hI) (by rw [preImpl_withStatisticsOk]; exact hP)
    hT hS hR hC2
  rw [postImpl_withStatisticsOk] at h2
  simp only [show (withStatisticsOk env).ChangeToQuantizedFilename =
      env.ChangeToQuantizedFilename from rfl,
    show (withStatisticsOk env).SaveExportedModel = env.SaveExportedModel from rfl,
    show (withStatisticsOk env).EnableDebugging = env.EnableDebugging from rfl] at h2
  rw [h1, h2]
  cases hD : wholeModelDebugging qo
  · simp only [Bool.false_eq_true, if_false]
    refine ⟨by simp [statisticsEntries], ?_⟩
    rw [framed_PostCalibrationImpl env k m2 qo a w7 (_ ++ statisticsEntries _ _ (some st)),
      framed_PostCalibrationImpl env k m2 qo a w7 (_ ++ statisticsEntries _ _ none)]
    refine ⟨rfl, rfl, s3.trace ++ [⟨Event.CreateTmpDir, none⟩,
        ⟨Event.SaveExportedModel dir e path tags sdm, none⟩,
        ⟨Event.RunCalibration dir keys tags qo.calibration_options
          qo.force_graph_mode_calibration rdm, none⟩],
      (QuantizePtqModelPostCalibrationImpl env k m2 qo a ⟨w7, []⟩).2.trace, ?_, ?_⟩ <;>
      simp [statisticsEntries]
  · simp only [if_true]
    refine ⟨by simp [statisticsEntries], ?_⟩
    rw [framed_PostCalibrationImpl env k _ qo a _ (_ ++ statisticsEntries _ _ (some st) ++ _),
      framed_PostCalibrationImpl env k _ qo a _ (_ ++ statisticsEntries _ _ none ++ _)]
    refine ⟨rfl, rfl, s3.trace ++ [⟨Event.CreateTmpDir, none⟩,
        ⟨Event.SaveExportedModel dir e path tags sdm, none⟩,
        ⟨Event.RunCalibration dir keys tags qo.calibration_options
          qo.force_graph_mode_calibration rdm, none⟩],
      [⟨Event.EnableDebugging e, none⟩, ⟨Event.ChangeToQuantizedFilename m2, none⟩,
        ⟨Event.SaveExportedModel qo.get_debugger_config.unquantized_dump_model_path
          (env.EnableDebugging e) path tags sdm, none⟩] ++
      (QuantizePtqModelPostCalibrationImpl env k (env.ChangeToQuantizedFilename m2) qo a
        ⟨(env.SaveExportedModel qo.get_debugger_config.unquantized_dump_model_path
              (env.EnableDebugging e) path tags sdm w7).2, []⟩).2.trace, ?_, ?_⟩ <;>
      simp [statisticsEntries]

/-- Witness of C1 on the concrete instance, with `AddCalibrationStatistics`
failing in the legacy op set and no debugger configuration. -/
theorem static_range_statistics_failure_only_warns_witness :
    (QuantizeStaticRangePtq (demoEnv { addCalibrationStatistics := some "no min or max" })
        demoConstants "model" ["serving_default"] {"serve"} (demoOptions OpSet.TF none) [] []
        ⟨[], []⟩).1 =
      (QuantizeStaticRangePtq
        (withStatisticsOk (demoEnv { addCalibrationStatistics := some "no min or max" }))
        demoConstants "model" ["serving_default"] {"serve"} (demoOptions OpSet.TF none) [] []
        ⟨[], []⟩).1 :=
  (static_range_statistics_failure_only_warns
    (demoEnv { addCalibrationStatistics := some "no min or max" })
    demoConstants "model" ["serving_default"] {"serve"} (demoOptions OpSet.TF none) [] []
    ⟨[], []⟩
    (ImportAndPreprocessSavedModel (demoEnv { addCalibrationStatistics := some "no min or max" })
      demoConstants "model" ["serving_default"] {"serve"} true false false
      [("composite_fn", "my_alias")]
      ⟨[], [⟨Event.GetFunctionAliases "model" {"serve"}, none⟩]⟩).2
    (QuantizePtqModelPreCalibrationImpl
      (demoEnv { addCalibrationStatistics := some "no min or max" })
      demoConstants ["import model", "freeze"] (demoOptions OpSet.TF none)
      [("composite_fn", "my_alias")]
      (ImportAndPreprocessSavedModel
        (demoEnv { addCalibrationStatistics := some "no min or max" })
        demoConstants "model" ["serving_default"] {"serve"} true false false
        [("composite_fn", "my_alias")]
        ⟨[], [⟨Event.GetFunctionAliases "model" {"serve"}, none⟩]⟩).2).2
    [("composite_fn", "my_alias")] [("composite_fn", "my_alias")]
    ["import model", "freeze"] ["import model", "freeze", "passes pre"]
    ["import model", "freeze", "passes pre", "some statistics"]
    { graph := ["import model", "freeze", "passes pre", "debugging off", "export"],
      checkpoint_dir := "/tmp/", function_aliases := [("composite_fn", "my_alias")],
      asset_file_defs := ["asset"], debugging := false }
    "/tmp/x" [] ["tmp file", "tmp dir"] ["tmp file", "tmp dir", "saved /tmp/x"]
    ["tmp file", "tmp dir", "saved /tmp/x", "calibrated /tmp/x"]
    ["tmp file", "tmp dir", "saved /tmp/x", "calibrated /tmp/x"]
    none none ⟨2, "no min or max"⟩ rfl rfl rfl rfl rfl rfl rfl).2.1

end

/-! ## Import failure (C3) -/

section

variable {T : Sorts} {α β : Type}

theorem InternalError_message (m : String) : (InternalError m).message = m := rfl

theorem import_tag_append (m : String) :
    "Failed to import and preprocess SavedModel: " ++ ("Failed to import SavedModel: " ++ m) =
      "Failed to import and preprocess SavedModel: Failed to import SavedModel: " ++ m := by
  rw [← String.append_assoc]
  rfl

/-- C3. For each of the six entry points: when the alias reader succeeds and
the importer fails with a status of message `m`, the entry point returns the
internal error whose message is "Failed to import and preprocess SavedModel:
Failed to import SavedModel: " followed by `m`, and the alias reader and the
importer are the only collaborators called. -/
theorem import_failure_is_returned (ep : EntryPoint) (env : Collaborators T) (k : Constants)
    (inv : Invocation T) (s0 : PState T) (a0 : AliasMap) (w1 w2 : T.World) (st : Status)
    (hA : env.GetFunctionAliases inv.saved_model_path (ep.tagsOf inv) s0.world =
      (Except.ok a0, w1))
    (hI : env.SavedModelSignatureDefsToMlirImport inv.saved_model_path (ep.tagsOf inv)
      (ep.signatureKeysOf inv) ⟨true, false, true⟩ w1 = (Except.error st, w2)) :
    ep.run env k inv s0 =
      (Except.error (InternalError
          ("Failed to import and preprocess SavedModel: Failed to import SavedModel: " ++
            st.message)),
        ⟨w2, s0.trace ++
          [⟨Event.GetFunctionAliases inv.saved_model_path (ep.tagsOf inv), none⟩,
           ⟨Event.SavedModelSignatureDefsToMlirImport inv.saved_model_path (ep.tagsOf inv)
              (ep.signatureKeysOf inv) ⟨true, false, true⟩, some st⟩]⟩) := by
  cases ep <;>
    simp only [EntryPoint.tagsOf, EntryPoint.signatureKeysOf] at hA hI <;>
    simp [EntryPoint.run, QuantizeQatModel, QuantizePtqModelPreCalibration,
      QuantizePtqModelPostCalibration, QuantizeDynamicRangePtq, QuantizeWeightOnly,
      QuantizeStaticRangePtq, ImportAndPreprocessSavedModel, bind_eq, pure_eq, andThen,
      orInternalError, call, hA, hI, StrCat, InternalError_message, import_tag_append, EntryPoint.tagsOf,
      EntryPoint.signatureKeysOf]
/-- Witness of C3 on the concrete instance: the static-range entry point with a
failing importer. -/
theorem import_failure_is_returned_witness :
    EntryPoint.run EntryPoint.QuantizeStaticRangePtq (demoEnv { importer := some "no such tag" })
        demoConstants (demoInvocation OpSet.STABLEHLO none) ⟨[], []⟩ =
      (Except.error (InternalError
          ("Failed to import and preprocess SavedModel: Failed to import SavedModel: " ++
            "no such tag")),
        ⟨[], [] ++
          [⟨Event.GetFunctionAliases "model" {"serve"}, none⟩,
           ⟨Event.SavedModelSignatureDefsToMlirImport "model" {"serve"} ["serving_default"]
              ⟨true, false, true⟩, some ⟨2, "no such tag"⟩⟩]⟩) :=
  import_failure_is_returned EntryPoint.QuantizeStaticRangePtq
    (demoEnv { importer := some "no such tag" }) demoConstants
    (demoInvocation OpSet.STABLEHLO none) ⟨[], []⟩ [("composite_fn", "my_alias")] [] []
    ⟨2, "no such tag"⟩ rfl rfl

end

/-! ## Following a run step by step; how failures are reported (C4) -/

section

variable {T : Sorts} {α β : Type}

theorem sat_ret {Q : StatusOr α × PState T → Prop} {a : α} {s : PState T}
    (h : Q (Except.ok a, s)) : Sat Q (ret a s) :=
  ⟨h⟩

theorem sat_note {Q : StatusOr Unit × PState T → Prop} {ev : Event T} {s : PState T}
    (h : Q (Except.ok (), ⟨s.world, s.trace ++ [⟨ev, none⟩]⟩)) : Sat Q (note ev s) :=
  ⟨h⟩

theorem sat_call {Q : StatusOr α × PState T → Prop} {ev : Event T}
    {g : T.World → StatusOr α × T.World} {s : PState T}
    (hok : ∀ a w, g s.world = (Except.ok a, w) →
      Q (Except.ok a, ⟨w, s.trace ++ [⟨ev, none⟩]⟩))
    (herr : ∀ st w, g s.world = (Except.error st, w) →
      Q (Except.error st, ⟨w, s.trace ++ [⟨ev, some st⟩]⟩)) :
    Sat Q (call ev g s) := by
  refine ⟨?_⟩
  simp only [call]
  rcases h : g s.world with ⟨r | r, w⟩
  · exact herr r w h
  · exact hok r w h

theorem sat_callTotal {Q : StatusOr α × PState T → Prop} {ev : Event T}
    {g : T.World → α × T.World} {s : PState T}
    (h : ∀ a w, g s.world = (a, w) → Q (Except.ok a, ⟨w, s.trace ++ [⟨ev, none⟩]⟩)) :
    Sat Q (callTotal ev g s) := by
  refine ⟨?_⟩
  simp only [callTotal]
  rcases hg : g s.world with ⟨r, w⟩
  exact h r w hg

theorem sat_callStatus {Q : StatusOr (Option Status × α) × PState T → Prop} {ev : Event T}
    {g : T.World → (Option Status × α) × T.World} {s : PState T}
    (hnone : ∀ a w, g s.world = ((none, a), w) →
      Q (Except.ok (none, a), ⟨w, s.trace ++ [⟨ev, none⟩]⟩))
    (hsome : ∀ st a w, g s.world = ((some st, a), w) →
      Q (Except.ok (some st, a), ⟨w, s.trace ++ [⟨ev, some st⟩]⟩)) :
    Sat Q (callStatus ev g s) := by
  refine ⟨?_⟩
  simp only [callStatus]
  rcases hg : g s.world with ⟨⟨_ | st, a⟩, w⟩
  · exact hnone a w hg
  · exact hsome st a w hg

theorem sat_andThen {Q : StatusOr β × PState T → Prop} {p : Pipeline T α}
    {f : α → Pipeline T β} {s : PState T}
    (h : Sat (fun r => match r with
      | (Except.ok a, s1) => Sat Q (f a s1)
      | (Except.error st, s1) => Q (Except.error st, s1)) (p s)) :
    Sat Q (andThen p f s) := by
  have h1 := h.holds
  simp only [andThen]
  revert h1
  rcases p s with ⟨r | r, s1⟩ <;> intro h1
  · exact ⟨h1⟩
  · exact h1

theorem sat_orInternalError {Q : StatusOr α × PState T → Prop} {tag : String}
    {p : Pipeline T α} {s : PState T}
    (h : Sat (fun r => match r with
      | (Except.ok a, s1) => Q (Except.ok a, s1)
      | (Except.error st, s1) =>
        Q (Except.error (InternalError (StrCat tag st.message)), s1)) (p s)) :
    Sat Q (orInternalError tag p s) := by
  have h1 := h.holds
  refine ⟨?_⟩
  simp only [orInternalError]
  revert h1
  rcases p s with ⟨r | r, s1⟩ <;> intro h1
  · exact h1
  · exact h1

theorem sat_ite {Q : StatusOr α × PState T → Prop} {c : Bool} {p q : Pipeline T α}
    {s : PState T} (hp : c = true → Sat Q (p s)) (hq : c = false → Sat Q (q s)) :
    Sat Q ((if c = true then p else q) s) := by
  cases c
  · simpa using hq rfl
  · simpa using hp rfl

set_option maxHeartbeats 1000000 in
theorem failure_reported_sat (ep : EntryPoint) (env : Collaborators T) (k : Constants)
    (inv : Invocation T) (w : T.World) :
    Sat (fun r => ∀ st, r.1 = Except.error st →
        ∃ ev st0, r.2.trace.getLast? = some ⟨ev, some st0⟩ ∧
          Reported ep r.2.trace ev st0 st)
      (ep.run env k inv ⟨w, []⟩) := by
  cases ep <;>
  simp only [EntryPoint.run, QuantizeQatModel, QuantizePtqModelPreCalibration,
    QuantizePtqModelPostCalibration, QuantizeDynamicRangePtq, QuantizeWeightOnly,
    QuantizeStaticRangePtq, QuantizePtqModelPreCalibrationImpl,
    QuantizePtqModelPostCalibrationImpl, ExportCalibrationModel,
    ImportAndPreprocessSavedModel, ModuleOpToExportedModel, bind_eq, pure_eq] <;>
  repeat' first
    | with_reducible apply sat_andThen
    | with_reducible apply sat_orInternalError
    | with_reducible apply sat_call
    | with_reducible apply sat_callTotal
    | with_reducible apply sat_callStatus
    | with_reducible apply sat_note
    | with_reducible apply sat_ret
    | with_reducible apply sat_ite
    | (intro st h
       simp only [Except.error.injEq, reduceCtorEq] at h <;>
       (try subst h) <;>
       exact ⟨_, _, rfl, rfl⟩)
    | (intro _ _ _
       dsimp only [List.cons_append, List.nil_append])
    | (intro _
       dsimp only [List.cons_append, List.nil_append])
    | intro _

/-- C4 (amended). When an entry point returns a non-OK status, the last call of
the run is the collaborator call that failed, and the status returned carries
that call's message unchanged at its end: behind the tag "Failed to get function
alias: " for the alias reader, "Failed to import and preprocess SavedModel:
Failed to import SavedModel: " for the importer, "Failed to import and
preprocess SavedModel: " for the preprocessor, "Failed to export calibration
model: " for the three steps of the export of the calibration model; the status
of every other failing step (a pass stage, the creation of the temporary
directory, the steps of a final export) is returned unchanged, with no tag. -/
theorem failure_is_reported (ep : EntryPoint) (env : Collaborators T) (k : Constants)
    (inv : Invocation T) (w : T.World) (st : Status)
    (h : (exec (ep.run env k inv) w).1 = Except.error st) :
    ∃ ev st0,
      (exec (ep.run env k inv) w).2.trace.getLast? = some ⟨ev, some st0⟩ ∧
      Reported ep (exec (ep.run env k inv) w).2.trace ev st0 st :=
  (failure_reported_sat ep env k inv w).holds st h

/-- Witness of C4 (amended) on the concrete instance: the export of the
calibration model fails in the static-range entry point. -/
theorem failure_is_reported_witness :
    ∃ ev st0,
      (exec (EntryPoint.run EntryPoint.QuantizeStaticRangePtq
          (demoEnv { runExportPasses := some "no checkpoint" }) demoConstants
          (demoInvocation OpSet.TF none)) []).2.trace.getLast? = some ⟨ev, some st0⟩ ∧
      Reported EntryPoint.QuantizeStaticRangePtq
        (exec (EntryPoint.run EntryPoint.QuantizeStaticRangePtq
          (demoEnv { runExportPasses := some "no checkpoint" }) demoConstants
          (demoInvocation OpSet.TF none)) []).2.trace ev st0
        (InternalError "Failed to export calibration model: no checkpoint") :=
  failure_is_reported EntryPoint.QuantizeStaticRangePtq
    (demoEnv { runExportPasses := some "no checkpoint" }) demoConstants
    (demoInvocation OpSet.TF none) [] _ rfl

/-- C4 (counterexample). On the concrete instance, a pass stage that fails with
the status (2, "pass failed") makes `QuantizeQatModel` return exactly that
status, and one that fails with an empty message makes it return an empty
message: the message returned names no step. -/
theorem failure_tagged_counterexample :
    (exec (EntryPoint.run EntryPoint.QuantizeQatModel (demoEnv { runPasses := some "pass failed" })
        demoConstants (demoInvocation OpSet.TF none)) []).1 =
      Except.error ⟨2, "pass failed"⟩ ∧
    (exec (EntryPoint.run EntryPoint.QuantizeQatModel (demoEnv { runPasses := some "" })
        demoConstants (demoInvocation OpSet.TF none)) []).1 =
      Except.error ⟨2, ""⟩ :=
  ⟨rfl, rfl⟩

end

/-! ## The module after the pre-calibration stage (C5) -/

section

variable {T : Sorts} {α β : Type}

theorem preImpl_sat (env : Collaborators T) (k : Constants) (m : T.ModuleOp)
    (qo : QuantizationOptions T) (a : AliasMap) (s : PState T) :
    Sat (fun r => ∀ e m1 s1, r = (Except.ok (e, m1), s1) →
        (if decide (qo.op_set = OpSet.STABLEHLO) = true then
          env.PreCalibrationComponentRun m { debugger_config := some qo.get_debugger_config }
            s.world
        else
          env.RunPasses k.kTfQuantPtqPreCalibrationStepName
            (PassSet.AddQuantizePtqPreCalibrationPasses qo) m s.world).1 = Except.ok m1 ∧
        ∃ (stage : Event T) (dir : String) (exported : List T.AssetFileDef × T.ModuleOp),
          stage = (if decide (qo.op_set = OpSet.STABLEHLO) = true then
              Event.PreCalibrationComponentRun m
                { debugger_config := some qo.get_debugger_config }
            else
              Event.RunPasses k.kTfQuantPtqPreCalibrationStepName
                (PassSet.AddQuantizePtqPreCalibrationPasses qo) m) ∧
          s1.trace = s.trace ++
            [⟨stage, none⟩, ⟨Event.Clone m1, none⟩, ⟨Event.DisableDebugging m1, none⟩,
             ⟨Event.GetLocalTmpFileName, none⟩,
             ⟨Event.RunExportPasses
                { duplicate_shape_determining_constants := true,
                  unfreeze_constants := !qo.freeze_all_variables,
                  checkpoint_dir := dir,
                  debug_name := StrCat k.kTfQuantPtqPreCalibrationStepName k.kExportStepSuffix }
                (env.DisableDebugging m1), none⟩,
             ⟨Event.ConvertMlirModuleToExportedModel exported.2 dir a exported.1, none⟩])
      (QuantizePtqModelPreCalibrationImpl env k m qo a s) := by
  simp only [QuantizePtqModelPreCalibrationImpl, ExportCalibrationModel,
    ModuleOpToExportedModel, bind_eq, pure_eq]
  repeat' first
    | with_reducible apply sat_andThen
    | with_reducible apply sat_orInternalError
    | with_reducible apply sat_call
    | with_reducible apply sat_note
    | with_reducible apply sat_ret
    | with_reducible apply sat_ite
    | (intro e m1 s1 h
       simp only [Prod.mk.injEq, Except.ok.injEq, reduceCtorEq, false_and] at h <;>
       obtain ⟨⟨_, rfl⟩, rfl⟩ := h <;>
       simp_all)
    | (intro _ _ _
       dsimp only)
    | (intro _
       dsimp only)

/-- C5 (amended). `QuantizePtqModelPreCalibrationImpl` runs the pre-calibration
pass stage on the module it is given, in place, and clones the module
afterwards: when it returns an artifact, the module is in the state in which the
pass stage left it, and `DisableDebugging` and the export passes have been
applied to the clone only. -/
theorem precalibration_stage_runs_on_live_module (env : Collaborators T) (k : Constants)
    (m : T.ModuleOp) (qo : QuantizationOptions T) (a : AliasMap) (s s1 : PState T)
    (e : T.ExportedModel) (m1 : T.ModuleOp)
    (h : QuantizePtqModelPreCalibrationImpl env k m qo a s = (Except.ok (e, m1), s1)) :
    (if decide (qo.op_set = OpSet.STABLEHLO) = true then
      env.PreCalibrationComponentRun m { debugger_config := some qo.get_debugger_config }
        s.world
    else
      env.RunPasses k.kTfQuantPtqPreCalibrationStepName
        (PassSet.AddQuantizePtqPreCalibrationPasses qo) m s.world).1 = Except.ok m1 ∧
    ∃ (dir : String) (exported : List T.AssetFileDef × T.ModuleOp),
      s1.trace = s.trace ++
        [⟨if decide (qo.op_set = OpSet.STABLEHLO) = true then
            Event.PreCalibrationComponentRun m
              { debugger_config := some qo.get_debugger_config }
          else
            Event.RunPasses k.kTfQuantPtqPreCalibrationStepName
              (PassSet.AddQuantizePtqPreCalibrationPasses qo) m, none⟩,
         ⟨Event.Clone m1, none⟩, ⟨Event.DisableDebugging m1, none⟩,
         ⟨Event.GetLocalTmpFileName, none⟩,
         ⟨Event.RunExportPasses
            { duplicate_shape_determining_constants := true,
              unfreeze_constants := !qo.freeze_all_variables,
              checkpoint_dir := dir,
              debug_name := StrCat k.kTfQuantPtqPreCalibrationStepName k.kExportStepSuffix }
            (env.DisableDebugging m1), none⟩,
         ⟨Event.ConvertMlirModuleToExportedModel exported.2 dir a exported.1, none⟩] := by
  obtain ⟨h1, stage, dir, exported, rfl, h2⟩ := (preImpl_sat env k m qo a s).holds e m1 s1 h
  exact ⟨h1, dir, exported, h2⟩

/-- Witness of C5 (amended) on the concrete instance, in the legacy op set. -/
theorem precalibration_stage_runs_on_live_module_witness :
    ((demoEnv {}).RunPasses "pre"
        (PassSet.AddQuantizePtqPreCalibrationPasses (demoOptions OpSet.TF none))
        ["import model", "freeze"] []).1 =
      Except.ok ["import model", "freeze", "passes pre"] :=
  (precalibration_stage_runs_on_live_module (demoEnv {}) demoConstants
    ["import model", "freeze"] (demoOptions OpSet.TF none) [("composite_fn", "my_alias")]
    ⟨[], []⟩
    (QuantizePtqModelPreCalibrationImpl (demoEnv {}) demoConstants
      ["import model", "freeze"] (demoOptions OpSet.TF none) [("composite_fn", "my_alias")]
      ⟨[], []⟩).2
    { graph := ["import model", "freeze", "passes pre", "debugging off", "export"],
      checkpoint_dir := "/tmp/", function_aliases := [("composite_fn", "my_alias")],
      asset_file_defs := ["asset"], debugging := false }
    ["import model", "freeze", "passes pre"] rfl).1

/-- C5 (counterexample). On the concrete instance, the module that
`QuantizePtqModelPreCalibrationImpl` leaves to its caller differs from the
module it was given: it has been through the pre-calibration passes, which ran
before the clone was taken; `QuantizeStaticRangePtq` hands that module to
`AddCalibrationStatistics`. -/
theorem precalibration_keeps_module_counterexample :
    (QuantizePtqModelPreCalibrationImpl (demoEnv {}) demoConstants
        ["import model", "freeze"] (demoOptions OpSet.TF none)
        [("composite_fn", "my_alias")] ⟨[], []⟩).1 =
      Except.ok
        ({ graph := ["import model", "freeze", "passes pre", "debugging off", "export"],
           checkpoint_dir := "/tmp/", function_aliases := [("composite_fn", "my_alias")],
           asset_file_defs := ["asset"], debugging := false },
         ["import model", "freeze", "passes pre"]) ∧
    (["import model", "freeze", "passes pre"] : List String) ≠ ["import model", "freeze"] ∧
    ((QuantizePtqModelPreCalibrationImpl (demoEnv {}) demoConstants
        ["import model", "freeze"] (demoOptions OpSet.TF none)
        [("composite_fn", "my_alias")] ⟨[], []⟩).2.trace.take 2) =
      [⟨Event.RunPasses "pre"
          (PassSet.AddQuantizePtqPreCalibrationPasses (demoOptions OpSet.TF none))
          ["import model", "freeze"], none⟩,
       ⟨Event.Clone ["import model", "freeze", "passes pre"], none⟩] ∧
    ((exec (QuantizeStaticRangePtq (demoEnv {}) demoConstants "model" ["serving_default"]
        {"serve"} (demoOptions OpSet.TF none) [] []) []).2.trace.get? 13) =
      some ⟨Event.AddCalibrationStatistics ["import model", "freeze", "passes pre"] 0, none⟩ :=
  ⟨rfl, by decide, rfl, rfl⟩

end

/-! ## The alias map of the output artifact (C7) -/

section

variable {T : Sorts} {α β : Type}

theorem sat_call_of_eq {Q : StatusOr α × PState T → Prop} {ev : Event T}
    {g : T.World → StatusOr α × T.World} {s : PState T} {a : α} {w : T.World}
    (hg : g s.world = (Except.ok a, w))
    (h : Q (Except.ok a, ⟨w, s.trace ++ [⟨ev, none⟩]⟩)) : Sat Q (call ev g s) := by
  refine ⟨?_⟩
  simp only [call, hg]
  exact h

set_option maxHeartbeats 1000000 in
theorem exported_aliases_sat (ep : EntryPoint) (env : Collaborators T) (k : Constants)
    (inv : Invocation T) (w w1 w2 : T.World) (a0 : AliasMap) (m0 : T.ModuleOp)
    (session : T.Session)
    (hA : env.GetFunctionAliases inv.saved_model_path (ep.tagsOf inv) w = (Except.ok a0, w1))
    (hI : env.SavedModelSignatureDefsToMlirImport inv.saved_model_path (ep.tagsOf inv)
      (ep.signatureKeysOf inv) ⟨true, false, true⟩ w1 = (Except.ok (m0, session), w2)) :
    Sat (fun r =>
        exportedAliases r.2.trace =
          (exportedAliases r.2.trace).map (fun _ => env.UpdateFunctionAliases a0 m0) ∧
        (r.1.toBool && (exportedAliases r.2.trace).isEmpty) = false)
      (ep.run env k inv ⟨w, []⟩) := by
  cases ep <;>
  simp only [EntryPoint.tagsOf, EntryPoint.signatureKeysOf] at hA hI <;>
  simp only [EntryPoint.run, QuantizeQatModel, QuantizePtqModelPreCalibration,
    QuantizePtqModelPostCalibration, QuantizeDynamicRangePtq, QuantizeWeightOnly,
    QuantizeStaticRangePtq, QuantizePtqModelPreCalibrationImpl,
    QuantizePtqModelPostCalibrationImpl, ExportCalibrationModel,
    ImportAndPreprocessSavedModel, ModuleOpToExportedModel, bind_eq, pure_eq] <;>
  refine sat_andThen (sat_orInternalError (sat_call_of_eq hA ?_)) <;>
  dsimp only [List.cons_append, List.nil_append] <;>
  refine sat_andThen (sat_orInternalError (sat_andThen (sat_orInternalError
    (sat_call_of_eq hI ?_)))) <;>
  dsimp only [List.cons_append, List.nil_append] <;>
  repeat' first
    | with_reducible apply sat_andThen
    | with_reducible apply sat_orInternalError
    | with_reducible apply sat_call
    | with_reducible apply sat_callTotal
    | with_reducible apply sat_callStatus
    | with_reducible apply sat_note
    | with_reducible apply sat_ret
    | with_reducible apply sat_ite
    | exact ⟨rfl, rfl⟩
    | (intro _ _ _
       dsimp only [List.cons_append, List.nil_append])
    | (intro _
       dsimp only [List.cons_append, List.nil_append])
    | intro _

/-- C7 (amended). For every entry point, when the alias reader returns the map
`a0` and the importer the module `m0`: every call of
`ConvertMlirModuleToExportedModel` in the run receives the map
`UpdateFunctionAliases` makes of `a0` and `m0`, passed on unchanged from there,
and a successful run makes such a call.  The entries of `a0` are in the output
map when `UpdateFunctionAliases` keeps them. -/
theorem exported_alias_map_is_updated_map (ep : EntryPoint) (env : Collaborators T)
    (k : Constants) (inv : Invocation T) (w w1 w2 : T.World) (a0 : AliasMap)
    (m0 : T.ModuleOp) (session : T.Session)
    (hA : env.GetFunctionAliases inv.saved_model_path (ep.tagsOf inv) w = (Except.ok a0, w1))
    (hI : env.SavedModelSignatureDefsToMlirImport inv.saved_model_path (ep.tagsOf inv)
      (ep.signatureKeysOf inv) ⟨true, false, true⟩ w1 = (Except.ok (m0, session), w2)) :
    (∀ al ∈ exportedAliases (exec (ep.run env k inv) w).2.trace,
      al = env.UpdateFunctionAliases a0 m0) ∧
    ∀ e, (exec (ep.run env k inv) w).1 = Except.ok e →
      exportedAliases (exec (ep.run env k inv) w).2.trace ≠ [] :=
  ⟨forall_mem_of_eq_map_const
      (exported_aliases_sat ep env k inv w w1 w2 a0 m0 session hA hI).holds.1,
    ne_nil_of_ok (exported_aliases_sat ep env k inv w w1 w2 a0 m0 session hA hI).holds.2⟩

/-- Witness of C7 (amended) on the concrete instance, with an importer that
renames the aliased function. -/
theorem exported_alias_map_is_updated_map_witness :
    ([("composite_fn_0", "my_alias")] : AliasMap) =
      (demoEnv { renameOnImport := true }).UpdateFunctionAliases
        [("composite_fn", "my_alias")] ["import model"] :=
  (exported_alias_map_is_updated_map EntryPoint.QuantizeQatModel
    (demoEnv { renameOnImport := true }) demoConstants (demoInvocation OpSet.TF none)
    [] [] [] [("composite_fn", "my_alias")] ["import model"] () rfl rfl).1
    [("composite_fn_0", "my_alias")] (List.Mem.head _)

/-- C7 (counterexample). On the concrete instance with an importer that renames
the aliased function, the alias reader reads the entry ("composite_fn",
"my_alias"), the run of `QuantizeQatModel` succeeds, and the map of the output
artifact, the one handed to `ConvertMlirModuleToExportedModel`, does not contain
that entry. -/
theorem alias_round_trip_counterexample :
    ((demoEnv { renameOnImport := true }).GetFunctionAliases "model" {"serve"} []).1 =
      Except.ok [("composite_fn", "my_alias")] ∧
    (exec (EntryPoint.run EntryPoint.QuantizeQatModel (demoEnv { renameOnImport := true })
        demoConstants (demoInvocation OpSet.TF none)) []).1 =
      Except.ok
        { graph := ["import model", "freeze", "passes qat", "export"],
          checkpoint_dir := "/tmp/", function_aliases := [("composite_fn_0", "my_alias")],
          asset_file_defs := ["asset"], debugging := false } ∧
    exportedAliases (exec (EntryPoint.run EntryPoint.QuantizeQatModel
        (demoEnv { renameOnImport := true }) demoConstants (demoInvocation OpSet.TF none))
        []).2.trace = [[("composite_fn_0", "my_alias")]] ∧
    (("composite_fn", "my_alias") : String × String) ∉
      ([("composite_fn_0", "my_alias")] : List (String × String)) :=
  ⟨rfl, rfl, rfl, by decide⟩

end

/-! ## The functions exempt from inlining (C8) -/

section

variable {T : Sorts} {α β : Type}

theorem foldl_insert_keys (l : AliasMap) (acc : Finset String) :
    l.foldl (fun acc aliases => insert aliases.1 acc) acc =
      acc ∪ (l.map Prod.fst).toFinset := by
  induction l generalizing acc with
  | nil => simp
  | cons p l ih =>
    simp only [List.foldl_cons, List.map_cons, List.toFinset_cons]
    rw [ih]
    ext x
    simp only [Finset.mem_union, Finset.mem_insert]
    tauto

theorem mem_aliased_function_names (l : AliasMap) (x : String) :
    x ∈ l.foldl (fun acc aliases => insert aliases.1 acc) (∅ : Finset String) ↔
      ∃ al, (x, al) ∈ l := by
  rw [foldl_insert_keys]
  simp

/-- C8. In `ImportAndPreprocessSavedModel`, when the importer succeeds with the
module `m0`: the function calls `UpdateFunctionAliases` and then
`PreprocessAndFreezeGraph`, and the set `names` of no-inline function names that
`PreprocessAndFreezeGraph` receives is exactly the key set of the alias map as
`UpdateFunctionAliases` leaves it: a name is in the set if and only if the map
has an entry for it.  What `PreprocessAndFreezeGraph` returns for that set is
what the function returns (with the updated map), in the world the call left. -/
theorem noinline_functions_are_alias_keys (env : Collaborators T) (k : Constants)
    (path : String) (keys : List String) (tags : Finset String)
    (is_inliner_run run_tf_to_stablehlo deserialize_xla_call_module : Bool)
    (a : AliasMap) (w w1 : T.World) (m0 : T.ModuleOp) (session : T.Session)
    (hI : env.SavedModelSignatureDefsToMlirImport path tags keys ⟨true, false, true⟩ w =
      (Except.ok (m0, session), w1)) :
    ∃ names : Finset String,
      (∀ x, x ∈ names ↔ ∃ al, (x, al) ∈ env.UpdateFunctionAliases a m0) ∧
      names = ((env.UpdateFunctionAliases a m0).map Prod.fst).toFinset ∧
      exec (ImportAndPreprocessSavedModel env k path keys tags is_inliner_run
        run_tf_to_stablehlo deserialize_xla_call_module a) w =
        (match env.PreprocessAndFreezeGraph k.kDefaultTfQuantMlirDumpFilePrefix is_inliner_run
          names m0 session run_tf_to_stablehlo deserialize_xla_call_module w1 with
        | (Except.error st, w2) =>
          (Except.error st,
            ⟨w2,
              [⟨Event.SavedModelSignatureDefsToMlirImport path tags keys ⟨true, false, true⟩,
                  none⟩,
               ⟨Event.UpdateFunctionAliases a m0, none⟩,
               ⟨Event.PreprocessAndFreezeGraph k.kDefaultTfQuantMlirDumpFilePrefix
                  is_inliner_run names m0 session run_tf_to_stablehlo
                  deserialize_xla_call_module, some st⟩]⟩)
        | (Except.ok m1, w2) =>
          (Except.ok (m1, env.UpdateFunctionAliases a m0),
            ⟨w2,
              [⟨Event.SavedModelSignatureDefsToMlirImport path tags keys ⟨true, false, true⟩,
                  none⟩,
               ⟨Event.UpdateFunctionAliases a m0, none⟩,
               ⟨Event.PreprocessAndFreezeGraph k.kDefaultTfQuantMlirDumpFilePrefix
                  is_inliner_run names m0 session run_tf_to_stablehlo
                  deserialize_xla_call_module, none⟩]⟩)) := by
  refine ⟨(env.UpdateFunctionAliases a m0).foldl (fun acc aliases => insert aliases.1 acc) ∅,
    fun x => mem_aliased_function_names _ x, by rw [foldl_insert_keys]; simp, ?_⟩
  unfold ImportAndPreprocessSavedModel
  simp only [bind_eq, pure_eq, exec]
  rcases hP : env.PreprocessAndFreezeGraph k.kDefaultTfQuantMlirDumpFilePrefix is_inliner_run
      ((env.UpdateFunctionAliases a m0).foldl (fun acc aliases => insert aliases.1 acc) ∅)
      m0 session run_tf_to_stablehlo deserialize_xla_call_module w1 with ⟨st | m1, w2⟩ <;>
    simp [andThen, orInternalError, call, note, ret, hI, hP]

/-- Witness of C8 on the recording instance, whose importer renames the aliased
function: the module `PreprocessAndFreezeGraph` returns shows that, of the names
"composite_fn", "composite_fn_0" and "main", the set it received held
"composite_fn_0" only. -/
theorem noinline_functions_are_alias_keys_witness :
    recordingEnv.UpdateFunctionAliases [("composite_fn", "my_alias")] ["import model"] =
      [("composite_fn_0", "my_alias")] ∧
    ∃ names : Finset String,
      (∀ x, x ∈ names ↔ ∃ al, (x, al) ∈ ([("composite_fn_0", "my_alias")] : AliasMap)) ∧
      (exec (ImportAndPreprocessSavedModel recordingEnv demoConstants "model"
        ["serving_default"] {"serve"} true false false [("composite_fn", "my_alias")]) []).1 =
        Except.ok
          (["import model", "freeze inliner=true stablehlo=false",
            "no inlining of composite_fn_0"], [("composite_fn_0", "my_alias")]) ∧
      (recordingEnv.PreprocessAndFreezeGraph "tf_quant" true names ["import model"] () false
        false []).1 =
        Except.ok ["import model", "freeze inliner=true stablehlo=false",
          "no inlining of composite_fn_0"] :=
  ⟨rfl,
    (noinline_functions_are_alias_keys recordingEnv demoConstants "model" ["serving_default"]
      {"serve"} true false false [("composite_fn", "my_alias")] [] [] ["import model"] ()
      rfl).elim
      (fun names h => ⟨names, h.1, (congrArg Prod.fst h.2.2).trans (h.2.1 ▸ rfl),
        h.2.1 ▸ rfl⟩)⟩

end

/-! ## The trace as a record of the calls made -/

section

variable {T : Sorts} {α β : Type}

theorem replay_append (env : Collaborators T) (t1 t2 : List (Entry T)) (w : T.World) :
    replay env (t1 ++ t2) w =
      ((replay env t1 w).1 ++ (replay env t2 (replay env t1 w).2).1,
        (replay env t2 (replay env t1 w).2).2) := by
  induction t1 generalizing w with
  | nil => rfl
  | cons en t1 ih =>
    rw [List.cons_append, replay, ih]
    rfl

theorem faithful_ret (env : Collaborators T) (a : α) : Faithful env (ret a : Pipeline T α) :=
  ⟨fun s => ⟨[], by simp [ret], rfl⟩⟩

theorem faithful_note (env : Collaborators T) (ev : Event T)
    (h : ∀ w, ev.outcome env w = (none, w)) : Faithful env (note ev) :=
  ⟨fun s => ⟨[⟨ev, none⟩], rfl, by simp [replay, h, note]⟩⟩

theorem faithful_call (env : Collaborators T) (ev : Event T)
    (f : T.World → StatusOr α × T.World)
    (h : ∀ w, ev.outcome env w = (failureOf (f w).1, (f w).2)) : Faithful env (call ev f) := by
  refine ⟨fun s => ?_⟩
  simp only [call]
  have hs := h s.world
  revert hs
  rcases f s.world with ⟨st | a, w1⟩ <;> intro hs
  · exact ⟨[⟨ev, some st⟩], rfl, by simp [replay, hs, failureOf]⟩
  · exact ⟨[⟨ev, none⟩], rfl, by simp [replay, hs, failureOf]⟩

theorem faithful_callTotal (env : Collaborators T) (ev : Event T)
    (f : T.World → α × T.World)
    (h : ∀ w, ev.outcome env w = (none, (f w).2)) : Faithful env (callTotal ev f) :=
  ⟨fun s => ⟨[⟨ev, none⟩], rfl, by simp [replay, h, callTotal]⟩⟩

theorem faithful_callStatus (env : Collaborators T) (ev : Event T)
    (f : T.World → (Option Status × α) × T.World)
    (h : ∀ w, ev.outcome env w = ((f w).1.1, (f w).2)) : Faithful env (callStatus ev f) :=
  ⟨fun s => ⟨[⟨ev, (f s.world).1.1⟩], rfl, by simp [replay, h, callStatus]⟩⟩

theorem faithful_orInternalError (env : Collaborators T) (tag : String) {p : Pipeline T α}
    (hp : Faithful env p) : Faithful env (orInternalError tag p) := by
  refine ⟨fun s => ?_⟩
  obtain ⟨t, h1, h2⟩ := hp.holds s
  refine ⟨t, ?_, ?_⟩
  · simp only [orInternalError]
    revert h1
    rcases p s with ⟨r | r, s1⟩ <;> exact id
  · simp only [orInternalError]
    revert h2
    rcases p s with ⟨r | r, s1⟩ <;> exact id

theorem faithful_andThen (env : Collaborators T) {p : Pipeline T α} {f : α → Pipeline T β}
    (hp : Faithful env p) (hf : ∀ a, Faithful env (f a)) : Faithful env (andThen p f) := by
  refine ⟨fun s => ?_⟩
  obtain ⟨t1, h1, h2⟩ := hp.holds s
  simp only [andThen]
  revert h1 h2
  rcases p s with ⟨st | a, s1⟩ <;> intro h1 h2
  · exact ⟨t1, h1, h2⟩
  · obtain ⟨t2, h3, h4⟩ := (hf a).holds s1
    refine ⟨t1 ++ t2, ?_, ?_⟩
    · simp only at h1 ⊢
      rw [h3, h1, List.append_assoc]
    · simp only at h2 ⊢
      rw [replay_append, h2]
      simp only [h4, List.map_append]

theorem faithful_ite (env : Collaborators T) (c : Bool) {p q : Pipeline T α}
    (hp : Faithful env p) (hq : Faithful env q) :
    Faithful env (if c = true then p else q) := by
  cases c <;> simpa

theorem faithful_run (ep : EntryPoint) (env : Collaborators T) (k : Constants)
    (inv : Invocation T) : Faithful env (ep.run env k inv) := by
  cases ep <;>
  simp only [EntryPoint.run, QuantizeQatModel, QuantizePtqModelPreCalibration,
    QuantizePtqModelPostCalibration, QuantizeDynamicRangePtq, QuantizeWeightOnly,
    QuantizeStaticRangePtq, QuantizePtqModelPreCalibrationImpl,
    QuantizePtqModelPostCalibrationImpl, ExportCalibrationModel,
    ImportAndPreprocessSavedModel, ModuleOpToExportedModel, bind_eq, pure_eq] <;>
  repeat' first
    | with_reducible apply faithful_andThen
    | with_reducible apply faithful_orInternalError
    | with_reducible apply faithful_ret
    | with_reducible apply faithful_ite
    | (with_reducible apply faithful_call
       intro _
       rfl)
    | (with_reducible apply faithful_callTotal
       intro _
       rfl)
    | (with_reducible apply faithful_callStatus
       intro _
       rfl)
    | (with_reducible apply faithful_note
       intro _
       rfl)
    | intro _
    | split

end

/-! ## Export options (C9) -/

section

variable {T : Sorts} {α β : Type}

set_option maxHeartbeats 1000000 in
theorem export_options_sat (ep : EntryPoint) (env : Collaborators T) (k : Constants)
    (inv : Invocation T) (w : T.World) :
    Sat (fun r =>
        (exportOptions r.2.trace).map (fun o => o.unfreeze_constants) =
          (exportOptions r.2.trace).map
            (fun _ => !inv.quantization_options.freeze_all_variables) ∧
        ∀ e, r.1 = Except.ok e →
          ∃ (opts : ExportOptions) (m : T.ModuleOp)
            (exported : List T.AssetFileDef × T.ModuleOp) (dir : String) (al : AliasMap)
            (w1 w2 w3 : T.World),
            r.2.trace.getLast? =
              some ⟨Event.ConvertMlirModuleToExportedModel exported.2 dir al exported.1, none⟩ ∧
            r.2.trace.dropLast.getLast? = some ⟨Event.RunExportPasses opts m, none⟩ ∧
            env.RunExportPasses opts m w1 = (Except.ok exported, w2) ∧
            env.ConvertMlirModuleToExportedModel exported.2 dir al exported.1 w2 =
              (Except.ok e, w3) ∧
            r.2.world = w3 ∧
            opts.unfreeze_constants = !inv.quantization_options.freeze_all_variables)
      (ep.run env k inv ⟨w, []⟩) := by
  cases ep <;>
  simp only [EntryPoint.run, QuantizeQatModel, QuantizePtqModelPreCalibration,
    QuantizePtqModelPostCalibration, QuantizeDynamicRangePtq, QuantizeWeightOnly,
    QuantizeStaticRangePtq, QuantizePtqModelPreCalibrationImpl,
    QuantizePtqModelPostCalibrationImpl, ExportCalibrationModel,
    ImportAndPreprocessSavedModel, ModuleOpToExportedModel, bind_eq, pure_eq] <;>
  repeat' first
    | with_reducible apply sat_andThen
    | with_reducible apply sat_orInternalError
    | with_reducible apply sat_call
    | with_reducible apply sat_callTotal
    | with_reducible apply sat_callStatus
    | with_reducible apply sat_note
    | with_reducible apply sat_ret
    | with_reducible apply sat_ite
    | exact ⟨rfl, fun e h => Except.noConfusion h⟩
    | exact ⟨rfl, fun e h => by
        cases h
        exact ⟨_, _, _, _, _, _, _, _, rfl, rfl, by assumption, by assumption, rfl, rfl⟩⟩
    | (intro _ _ _
       dsimp only [List.cons_append, List.nil_append])
    | (intro _
       dsimp only [List.cons_append, List.nil_append])
    | intro _
/-- C9. For every entry point and every run.  Every export recorded in the
trace (the export of the calibration model in the static-range mode included)
hands `RunExportPasses` an `unfreeze_constants` option equal to the negation of
`quantization_options.freeze_all_variables`.  The trace is a true record: its
calls, made for real in that order from the initial world with the recorded
arguments, return the recorded statuses and lead to the final world of the run.
When the run returns an artifact, its last two calls are `RunExportPasses` with
such an option and the conversion of the module those passes really returned,
and the artifact is what that conversion returned.  `ModuleOpToExportedModel`,
through which every export goes, hands the flag it is given to `RunExportPasses`
as `unfreeze_constants`, and what that call really returns decides its run. -/
theorem unfreeze_constants_negates_freeze_all_variables (ep : EntryPoint)
    (env : Collaborators T) (k : Constants) (inv : Invocation T) (w : T.World) :
    (exportOptions (exec (ep.run env k inv) w).2.trace).all (fun o =>
      o.unfreeze_constants == !inv.quantization_options.freeze_all_variables) = true ∧
    replay env (exec (ep.run env k inv) w).2.trace w =
      ((exec (ep.run env k inv) w).2.trace.map Entry.failure,
        (exec (ep.run env k inv) w).2.world) ∧
    (∀ e, (exec (ep.run env k inv) w).1 = Except.ok e →
      ∃ (opts : ExportOptions) (m : T.ModuleOp)
        (exported : List T.AssetFileDef × T.ModuleOp) (dir : String) (al : AliasMap)
        (w1 w2 w3 : T.World),
        (exec (ep.run env k inv) w).2.trace.getLast? =
          some ⟨Event.ConvertMlirModuleToExportedModel exported.2 dir al exported.1, none⟩ ∧
        (exec (ep.run env k inv) w).2.trace.dropLast.getLast? =
          some ⟨Event.RunExportPasses opts m, none⟩ ∧
        env.RunExportPasses opts m w1 = (Except.ok exported, w2) ∧
        env.ConvertMlirModuleToExportedModel exported.2 dir al exported.1 w2 =
          (Except.ok e, w3) ∧
        (exec (ep.run env k inv) w).2.world = w3 ∧
        opts.unfreeze_constants = !inv.quantization_options.freeze_all_variables) ∧
    ∀ (m : T.ModuleOp) (step_name : String) (unfreeze_constants : Bool) (al : AliasMap)
      (w0 : T.World),
      exec (ModuleOpToExportedModel env k m step_name unfreeze_constants al) w0 =
        (match env.GetLocalTmpFileName w0 with
        | (Except.error st, w1) =>
          (Except.error st, ⟨w1, [⟨Event.GetLocalTmpFileName, some st⟩]⟩)
        | (Except.ok dir, w1) =>
          (match env.RunExportPasses
            { duplicate_shape_determining_constants := true,
              unfreeze_constants := unfreeze_constants,
              checkpoint_dir := dir,
              debug_name := StrCat step_name k.kExportStepSuffix } m w1 with
          | (Except.error st, w2) =>
            (Except.error st,
              ⟨w2, [⟨Event.GetLocalTmpFileName, none⟩,
                ⟨Event.RunExportPasses
                  { duplicate_shape_determining_constants := true,
                    unfreeze_constants := unfreeze_constants,
                    checkpoint_dir := dir,
                    debug_name := StrCat step_name k.kExportStepSuffix } m, some st⟩]⟩)
          | (Except.ok exported, w2) =>
            (match env.ConvertMlirModuleToExportedModel exported.2 dir al exported.1 w2 with
            | (Except.error st, w3) =>
              (Except.error st,
                ⟨w3, [⟨Event.GetLocalTmpFileName, none⟩,
                  ⟨Event.RunExportPasses
                    { duplicate_shape_determining_constants := true,
                      unfreeze_constants := unfreeze_constants,
                      checkpoint_dir := dir,
                      debug_name := StrCat step_name k.kExportStepSuffix } m, none⟩,
                  ⟨Event.ConvertMlirModuleToExportedModel exported.2 dir al exported.1,
                    some st⟩]⟩)
            | (Except.ok e, w3) =>
              (Except.ok (e, exported.2),
                ⟨w3, [⟨Event.GetLocalTmpFileName, none⟩,
                  ⟨Event.RunExportPasses
                    { duplicate_shape_determining_constants := true,
                      unfreeze_constants := unfreeze_constants,
                      checkpoint_dir := dir,
                      debug_name := StrCat step_name k.kExportStepSuffix } m, none⟩,
                  ⟨Event.ConvertMlirModuleToExportedModel exported.2 dir al exported.1,
                    none⟩]⟩)))) := by
  refine ⟨all_beq_of_map_eq_const (export_options_sat ep env k inv w).holds.1, ?_,
    (export_options_sat ep env k inv w).holds.2, ?_⟩
  · obtain ⟨t, h1, h2⟩ := (faithful_run ep env k inv).holds ⟨w, []⟩
    simp only [List.nil_append] at h1
    rw [exec, h1]
    exact h2
  · intro m step_name unfreeze_constants al w0
    unfold ModuleOpToExportedModel
    simp only [bind_eq, pure_eq, exec]
    rcases hG : env.GetLocalTmpFileName w0 with ⟨st | dir, w1⟩
    · simp [andThen, call, hG]
    · rcases hR : env.RunExportPasses
          { duplicate_shape_determining_constants := true,
            unfreeze_constants := unfreeze_constants,
            checkpoint_dir := dir,
            debug_name := StrCat step_name k.kExportStepSuffix } m w1 with ⟨st | exported, w2⟩
      · simp [andThen, call, hG, hR]
      · rcases hC : env.ConvertMlirModuleToExportedModel exported.2 dir al exported.1 w2
          with ⟨st | e, w3⟩ <;>
        simp [andThen, call, ret, hG, hR, hC]

/-- Witness of C9 on the recording instance, in the static-range mode with
`freeze_all_variables` false: both exports of the run receive
`unfreeze_constants = true`, and the module of the artifact returned shows that
the export passes received it. -/
theorem unfreeze_constants_negates_freeze_all_variables_witness :
    exportOptions (exec (EntryPoint.run EntryPoint.QuantizeStaticRangePtq recordingEnv
        demoConstants demoUnfrozenInvocation) []).2.trace =
      [{ duplicate_shape_determining_constants := true, unfreeze_constants := true,
         checkpoint_dir := "/tmp/xx", debug_name := "pre_export" },
       { duplicate_shape_determining_constants := true, unfreeze_constants := true,
         checkpoint_dir := "/tmp/xxxxxxxx", debug_name := "post_export" }] ∧
    (exec (EntryPoint.run EntryPoint.QuantizeStaticRangePtq recordingEnv demoConstants
        demoUnfrozenInvocation) []).1 =
      Except.ok
        { graph := ["import model", "freeze inliner=true stablehlo=false",
            "no inlining of composite_fn_0", "passes pre AddQuantizePtqPreCalibrationPasses",
            "statistics", "passes post AddQuantizePtqPostCalibrationPasses",
            "export unfreeze_constants=true"],
          checkpoint_dir := "/tmp/xxxxxxxx",
          function_aliases := [("composite_fn_0", "my_alias")],
          asset_file_defs := ["asset"], debugging := false } ∧
    (exportOptions (exec (EntryPoint.run EntryPoint.QuantizeStaticRangePtq recordingEnv
        demoConstants demoUnfrozenInvocation) []).2.trace).all (fun o =>
      o.unfreeze_constants == !demoUnfrozenInvocation.quantization_options.freeze_all_variables)
      = true :=
  ⟨rfl, rfl,
    (unfreeze_constants_negates_freeze_all_variables EntryPoint.QuantizeStaticRangePtq
      recordingEnv demoConstants demoUnfrozenInvocation []).1⟩

end

/-! ## The dispatch of the calibration stages (C10) -/

section

variable {T : Sorts} {α β : Type}

theorem andThen_call (ev : Event T) (f : T.World → StatusOr α × T.World)
    (rest : α → Pipeline T β) (s : PState T) :
    andThen (call ev f) rest s =
      match f s.world with
      | (Except.ok a, w1) => rest a ⟨w1, s.trace ++ [⟨ev, none⟩]⟩
      | (Except.error st, w1) => (Except.error st, ⟨w1, s.trace ++ [⟨ev, some st⟩]⟩) := by
  simp only [andThen, call]
  rcases f s.world with ⟨_ | _, _⟩ <;> rfl

theorem preImpl_stage_sat (env : Collaborators T) (k : Constants) (m : T.ModuleOp)
    (qo : QuantizationOptions T) (a : AliasMap) (w : T.World) :
    Sat (fun r => stageCalls r.2.trace =
        [if qo.op_set = OpSet.STABLEHLO then
          Event.PreCalibrationComponentRun m { debugger_config := some qo.get_debugger_config }
        else
          Event.RunPasses k.kTfQuantPtqPreCalibrationStepName
            (PassSet.AddQuantizePtqPreCalibrationPasses qo) m])
      (QuantizePtqModelPreCalibrationImpl env k m qo a ⟨w, []⟩) := by
  by_cases hc : qo.op_set = OpSet.STABLEHLO <;>
  simp only [QuantizePtqModelPreCalibrationImpl, ExportCalibrationModel,
    ModuleOpToExportedModel, bind_eq, pure_eq, hc, decide_True, decide_False, if_true,
    if_false, Bool.false_eq_true] <;>
  repeat' first
    | with_reducible apply sat_andThen
    | with_reducible apply sat_orInternalError
    | with_reducible apply sat_call
    | with_reducible apply sat_note
    | with_reducible apply sat_ret
    | rfl
    | (intro _ _ _
       dsimp only [List.cons_append, List.nil_append])

theorem postImpl_stage_sat (env : Collaborators T) (k : Constants) (m : T.ModuleOp)
    (qo : QuantizationOptions T) (a : AliasMap) (w : T.World) :
    Sat (fun r => stageCalls r.2.trace =
        [if qo.op_set = OpSet.STABLEHLO then
          Event.PostCalibrationComponentRun m
            { static_range_ptq_preset :=
                some { enable_per_channel_quantized_weight :=
                         qo.enable_per_channel_quantization },
              pipeline_config := some { unpack_quantized_types := true } }
        else
          Event.RunPasses k.kTfQuantPtqPostCalibrationStepName
            (PassSet.AddQuantizePtqPostCalibrationPasses qo
              k.kTfQuantPtqPostCalibrationStepName) m])
      (QuantizePtqModelPostCalibrationImpl env k m qo a ⟨w, []⟩) := by
  by_cases hc : qo.op_set = OpSet.STABLEHLO <;>
  simp only [QuantizePtqModelPostCalibrationImpl,
    ModuleOpToExportedModel, bind_eq, pure_eq, hc, decide_True, decide_False, if_true,
    if_false, Bool.false_eq_true] <;>
  repeat' first
    | with_reducible apply sat_andThen
    | with_reducible apply sat_orInternalError
    | with_reducible apply sat_call
    | with_reducible apply sat_note
    | with_reducible apply sat_ret
    | rfl
    | (intro _ _ _
       dsimp only [List.cons_append, List.nil_append])

/-- C10. `QuantizePtqModelPreCalibrationImpl` and
`QuantizePtqModelPostCalibrationImpl` begin with their pass stage, and what the
stage returns decides the run.  If `quantization_options.op_set` is `STABLEHLO`,
the stage is the call of the quantizer component (`PreCalibrationComponent`,
`PostCalibrationComponent`) on the module, and the config the post-calibration
component receives has `enable_per_channel_quantized_weight` equal to
`quantization_options.enable_per_channel_quantization` and
`unpack_quantized_types` set to true; otherwise the stage is the call of
`RunPasses` with the legacy pass set (`AddQuantizePtqPreCalibrationPasses`,
`AddQuantizePtqPostCalibrationPasses`).  When the stage fails, the function
returns its status in the world the stage left, having called nothing else; when
it returns a module, the function goes on with the export of that module from
the world the stage left.  Each function makes exactly one stage call, never
both kinds. -/
theorem calibration_stage_dispatch (env : Collaborators T) (k : Constants) (m : T.ModuleOp)
    (qo : QuantizationOptions T) (a : AliasMap) (w : T.World) :
    (qo.op_set = OpSet.STABLEHLO →
      exec (QuantizePtqModelPreCalibrationImpl env k m qo a) w =
        (match env.PreCalibrationComponentRun m
          { debugger_config := some qo.get_debugger_config } w with
        | (Except.error st, w1) =>
          (Except.error st,
            ⟨w1, [⟨Event.PreCalibrationComponentRun m
              { debugger_config := some qo.get_debugger_config }, some st⟩]⟩)
        | (Except.ok m1, w1) =>
          andThen (ExportCalibrationModel env k m1 qo a) (fun exported => ret (exported, m1))
            ⟨w1, [⟨Event.PreCalibrationComponentRun m
              { debugger_config := some qo.get_debugger_config }, none⟩]⟩) ∧
      exec (QuantizePtqModelPostCalibrationImpl env k m qo a) w =
        (match env.PostCalibrationComponentRun m
          { static_range_ptq_preset :=
              some { enable_per_channel_quantized_weight :=
                       qo.enable_per_channel_quantization },
            pipeline_config := some { unpack_quantized_types := true } } w with
        | (Except.error st, w1) =>
          (Except.error st,
            ⟨w1, [⟨Event.PostCalibrationComponentRun m
              { static_range_ptq_preset :=
                  some { enable_per_channel_quantized_weight :=
                           qo.enable_per_channel_quantization },
                pipeline_config := some { unpack_quantized_types := true } }, some st⟩]⟩)
        | (Except.ok m1, w1) =>
          andThen
            (ModuleOpToExportedModel env k m1 k.kTfQuantPtqPostCalibrationStepName
              (!qo.freeze_all_variables) a)
            (fun exported => ret exported.1)
            ⟨w1, [⟨Event.PostCalibrationComponentRun m
              { static_range_ptq_preset :=
                  some { enable_per_channel_quantized_weight :=
                           qo.enable_per_channel_quantization },
                pipeline_config := some { unpack_quantized_types := true } }, none⟩]⟩)) ∧
    (qo.op_set ≠ OpSet.STABLEHLO →
      exec (QuantizePtqModelPreCalibrationImpl env k m qo a) w =
        (match env.RunPasses k.kTfQuantPtqPreCalibrationStepName
          (PassSet.AddQuantizePtqPreCalibrationPasses qo) m w with
        | (Except.error st, w1) =>
          (Except.error st,
            ⟨w1, [⟨Event.RunPasses k.kTfQuantPtqPreCalibrationStepName
              (PassSet.AddQuantizePtqPreCalibrationPasses qo) m, some st⟩]⟩)
        | (Except.ok m1, w1) =>
          andThen (ExportCalibrationModel env k m1 qo a) (fun exported => ret (exported, m1))
            ⟨w1, [⟨Event.RunPasses k.kTfQuantPtqPreCalibrationStepName
              (PassSet.AddQuantizePtqPreCalibrationPasses qo) m, none⟩]⟩) ∧
      exec (QuantizePtqModelPostCalibrationImpl env k m qo a) w =
        (match env.RunPasses k.kTfQuantPtqPostCalibrationStepName
          (PassSet.AddQuantizePtqPostCalibrationPasses qo
            k.kTfQuantPtqPostCalibrationStepName) m w with
        | (Except.error st, w1) =>
          (Except.error st,
            ⟨w1, [⟨Event.RunPasses k.kTfQuantPtqPostCalibrationStepName
              (PassSet.AddQuantizePtqPostCalibrationPasses qo
                k.kTfQuantPtqPostCalibrationStepName) m, some st⟩]⟩)
        | (Except.ok m1, w1) =>
          andThen
            (ModuleOpToExportedModel env k m1 k.kTfQuantPtqPostCalibrationStepName
              (!qo.freeze_all_variables) a)
            (fun exported => ret exported.1)
            ⟨w1, [⟨Event.RunPasses k.kTfQuantPtqPostCalibrationStepName
              (PassSet.AddQuantizePtqPostCalibrationPasses qo
                k.kTfQuantPtqPostCalibrationStepName) m, none⟩]⟩)) ∧
    stageCalls (exec (QuantizePtqModelPreCalibrationImpl env k m qo a) w).2.trace =
      [if qo.op_set = OpSet.STABLEHLO then
        Event.PreCalibrationComponentRun m { debugger_config := some qo.get_debugger_config }
      else
        Event.RunPasses k.kTfQuantPtqPreCalibrationStepName
          (PassSet.AddQuantizePtqPreCalibrationPasses qo) m] ∧
    stageCalls (exec (QuantizePtqModelPostCalibrationImpl env k m qo a) w).2.trace =
      [if qo.op_set = OpSet.STABLEHLO then
        Event.PostCalibrationComponentRun m
          { static_range_ptq_preset :=
              some { enable_per_channel_quantized_weight :=
                       qo.enable_per_channel_quantization },
            pipeline_config := some { unpack_quantized_types := true } }
      else
        Event.RunPasses k.kTfQuantPtqPostCalibrationStepName
          (PassSet.AddQuantizePtqPostCalibrationPasses qo
            k.kTfQuantPtqPostCalibrationStepName) m] := by
  refine ⟨fun hc => ⟨?_, ?_⟩, fun hc => ⟨?_, ?_⟩,
    (preImpl_stage_sat env k m qo a w).holds, (postImpl_stage_sat env k m qo a w).holds⟩
  · simp only [exec, QuantizePtqModelPreCalibrationImpl, bind_eq, pure_eq, hc, decide_True,
      if_true, andThen_call, List.nil_append]
    rcases env.PreCalibrationComponentRun m _ w with ⟨_ | _, _⟩ <;> rfl
  · simp only [exec, QuantizePtqModelPostCalibrationImpl, bind_eq, pure_eq, hc, decide_True,
      if_true, andThen_call, List.nil_append]
    rcases env.PostCalibrationComponentRun m _ w with ⟨_ | _, _⟩ <;> rfl
  · simp only [exec, QuantizePtqModelPreCalibrationImpl, bind_eq, pure_eq, hc, decide_False,
      Bool.false_eq_true, if_false, andThen_call, List.nil_append]
    rcases env.RunPasses _ _ m w with ⟨_ | _, _⟩ <;> rfl
  · simp only [exec, QuantizePtqModelPostCalibrationImpl, bind_eq, pure_eq, hc, decide_False,
      Bool.false_eq_true, if_false, andThen_call, List.nil_append]
    rcases env.RunPasses _ _ m w with ⟨_ | _, _⟩ <;> rfl

/-- Witness of C10 on the recording instance, with the op set `STABLEHLO`: the
module the post-calibration stage returns shows the config the component
received. -/
theorem calibration_stage_dispatch_witness :
    (demoOptions OpSet.STABLEHLO none).op_set = OpSet.STABLEHLO ∧
    (exec (QuantizePtqModelPostCalibrationImpl recordingEnv demoConstants
        ["import model", "statistics"] (demoOptions OpSet.STABLEHLO none)
        [("composite_fn", "my_alias")]) []).1 =
      Except.ok
        { graph := ["import model", "statistics",
            "post-calibration component per_channel=true unpack=true",
            "export unfreeze_constants=false"],
          checkpoint_dir := "/tmp/x", function_aliases := [("composite_fn", "my_alias")],
          asset_file_defs := ["asset"], debugging := false } :=
  ⟨rfl, (congrArg Prod.fst ((calibration_stage_dispatch recordingEnv demoConstants
    ["import model", "statistics"] (demoOptions OpSet.STABLEHLO none)
    [("composite_fn", "my_alias")] []).1 rfl).2).trans rfl⟩

end

/-! ## The call order of a successful static-range run (C11) -/

section

variable {T : Sorts} {α β : Type}

set_option maxHeartbeats 2000000 in
theorem static_range_order_sat (env : Collaborators T) (k : Constants) (path : String)
    (keys : List String) (tags : Finset String) (qo : QuantizationOptions T)
    (sdm : T.SignatureDefMap) (rdm : T.RepresentativeDatasetFileMap) (w : T.World) :
    Sat (fun r => ∀ eF, r.1 = Except.ok eF →
        ∃ (a0 : AliasMap) (m0 : T.ModuleOp) (session : T.Session) (m0f m1 : T.ModuleOp)
          (dir1 : String) (ex1 : List T.AssetFileDef × T.ModuleOp) (e : T.ExportedModel)
          (dirT : String) (ost : Option Status) (m2 mP : T.ModuleOp) (dir2 : String)
          (ex2 : List T.AssetFileDef × T.ModuleOp),
          r.2.trace =
            [⟨Event.GetFunctionAliases path tags, none⟩,
             ⟨Event.SavedModelSignatureDefsToMlirImport path tags keys ⟨true, false, true⟩,
               none⟩,
             ⟨Event.UpdateFunctionAliases a0 m0, none⟩,
             ⟨Event.PreprocessAndFreezeGraph k.kDefaultTfQuantMlirDumpFilePrefix true
               ((env.UpdateFunctionAliases a0 m0).foldl
                 (fun acc aliases => insert aliases.1 acc) ∅)
               m0 session (decide (qo.op_set = OpSet.STABLEHLO)) false, none⟩,
             ⟨preCalibrationStage k qo m0f, none⟩,
             ⟨Event.Clone m1, none⟩,
             ⟨Event.DisableDebugging m1, none⟩,
             ⟨Event.GetLocalTmpFileName, none⟩,
             ⟨Event.RunExportPasses
               (exportOptionsOf k qo k.kTfQuantPtqPreCalibrationStepName dir1)
               (env.DisableDebugging m1), none⟩,
             ⟨Event.ConvertMlirModuleToExportedModel ex1.2 dir1
               (env.UpdateFunctionAliases a0 m0) ex1.1, none⟩,
             ⟨Event.CreateTmpDir, none⟩,
             ⟨Event.SaveExportedModel dirT e path tags sdm, none⟩,
             ⟨Event.RunCalibration dirT keys tags qo.calibration_options
               qo.force_graph_mode_calibration rdm, none⟩,
             ⟨Event.AddCalibrationStatistics m1 qo.calibration_options, ost⟩] ++
            warningEntries ost ++
            wholeModelEntries env qo e m2 path tags sdm ++
            [⟨postCalibrationStage k qo (liveModule env qo m2), none⟩,
             ⟨Event.GetLocalTmpFileName, none⟩,
             ⟨Event.RunExportPasses
               (exportOptionsOf k qo k.kTfQuantPtqPostCalibrationStepName dir2) mP, none⟩,
             ⟨Event.ConvertMlirModuleToExportedModel ex2.2 dir2
               (env.UpdateFunctionAliases a0 m0) ex2.1, none⟩] ∧
          (∃ w1 w2, stageResult env (preCalibrationStage k qo m0f) w1 =
            some (Except.ok m1, w2)) ∧
          (∃ w1 w2, env.ConvertMlirModuleToExportedModel ex1.2 dir1
            (env.UpdateFunctionAliases a0 m0) ex1.1 w1 = (Except.ok e, w2)) ∧
          (∃ w1 w2, env.CreateTmpDir w1 = (Except.ok dirT, w2)) ∧
          (∃ w1 w2, env.AddCalibrationStatistics m1 qo.calibration_options w1 =
            ((ost, m2), w2)) ∧
          (∃ w1 w2, stageResult env (postCalibrationStage k qo (liveModule env qo m2)) w1 =
            some (Except.ok mP, w2)) ∧
          (∃ w1 w2, env.ConvertMlirModuleToExportedModel ex2.2 dir2
            (env.UpdateFunctionAliases a0 m0) ex2.1 w1 = (Except.ok eF, w2)))
      (QuantizeStaticRangePtq env k path keys tags qo sdm rdm ⟨w, []⟩) := by
  have hW : (qo.has_debugger_config && decide (qo.get_debugger_config.debugger_type =
      DebuggerType.DEBUGGER_TYPE_WHOLE_MODEL)) = wholeModelDebugging qo := rfl
  by_cases hc : qo.op_set = OpSet.STABLEHLO <;>
  cases hD : wholeModelDebugging qo <;>
  simp only [QuantizeStaticRangePtq, QuantizePtqModelPreCalibrationImpl,
    QuantizePtqModelPostCalibrationImpl, ExportCalibrationModel,
    ImportAndPreprocessSavedModel, ModuleOpToExportedModel, bind_eq, pure_eq, hW, hD, hc,
    decide_True, decide_False, if_true, if_false, Bool.false_eq_true, preCalibrationStage,
    postCalibrationStage, wholeModelEntries, liveModule, exportOptionsOf, stageResult] <;>
  repeat' first
    | with_reducible apply sat_andThen
    | with_reducible apply sat_orInternalError
    | with_reducible apply sat_call
    | with_reducible apply sat_callTotal
    | with_reducible apply sat_callStatus
    | with_reducible apply sat_note
    | with_reducible apply sat_ret
    | (intro eF h
       first
         | exact Except.noConfusion h
         | (cases h
            exact ⟨_, _, _, _, _, _, _, _, _, _, _, _, _, _, rfl,
              ⟨_, _, congrArg some (by assumption)⟩, ⟨_, _, by assumption⟩,
              ⟨_, _, by assumption⟩, ⟨_, _, by assumption⟩,
              ⟨_, _, congrArg some (by assumption)⟩, ⟨_, _, by assumption⟩⟩))
    | (intro _ _ _
       dsimp only [List.cons_append, List.nil_append])
    | (intro _
       dsimp only [List.cons_append, List.nil_append])
    | intro _

/-- C11. A run of `QuantizeStaticRangePtq` that returns an artifact made exactly
this sequence of calls, each entered after the one before it returned: alias
resolution (`GetFunctionAliases`), import, preprocessing, the pre-calibration
stage, the intermediate export (of a clone with debugging disabled), temp-dir
creation, `SaveExportedModel` of the artifact the intermediate export returned
into the directory `CreateTmpDir` returned, `RunCalibration` on that directory,
`AddCalibrationStatistics` on the module the pre-calibration stage returned (the
live one, not the clone), the post-calibration stage on the live module, and the
final export, whose result is the value returned.  Each of these steps occurs
once.  The only other entries are the warning of lines 499-503, present when
`AddCalibrationStatistics` yields a failure, and the three calls of lines
513-524, present under whole-model debugging; both sit between
`AddCalibrationStatistics` and the post-calibration stage. -/
theorem static_range_call_order (env : Collaborators T) (k : Constants) (path : String)
    (keys : List String) (tags : Finset String) (qo : QuantizationOptions T)
    (sdm : T.SignatureDefMap) (rdm : T.RepresentativeDatasetFileMap) (w : T.World)
    (eF : T.ExportedModel)
    (h : (exec (QuantizeStaticRangePtq env k path keys tags qo sdm rdm) w).1 = Except.ok eF) :
    ∃ (a0 : AliasMap) (m0 : T.ModuleOp) (session : T.Session) (m0f m1 : T.ModuleOp)
      (dir1 : String) (ex1 : List T.AssetFileDef × T.ModuleOp) (e : T.ExportedModel)
      (dirT : String) (ost : Option Status) (m2 mP : T.ModuleOp) (dir2 : String)
      (ex2 : List T.AssetFileDef × T.ModuleOp),
      (exec (QuantizeStaticRangePtq env k path keys tags qo sdm rdm) w).2.trace =
        [⟨Event.GetFunctionAliases path tags, none⟩,
         ⟨Event.SavedModelSignatureDefsToMlirImport path tags keys ⟨true, false, true⟩,
           none⟩,
         ⟨Event.UpdateFunctionAliases a0 m0, none⟩,
         ⟨Event.PreprocessAndFreezeGraph k.kDefaultTfQuantMlirDumpFilePrefix true
           ((env.UpdateFunctionAliases a0 m0).foldl
             (fun acc aliases => insert aliases.1 acc) ∅)
           m0 session (decide (qo.op_set = OpSet.STABLEHLO)) false, none⟩,
         ⟨preCalibrationStage k qo m0f, none⟩,
         ⟨Event.Clone m1, none⟩,
         ⟨Event.DisableDebugging m1, none⟩,
         ⟨Event.GetLocalTmpFileName, none⟩,
         ⟨Event.RunExportPasses
           (exportOptionsOf k qo k.kTfQuantPtqPreCalibrationStepName dir1)
           (env.DisableDebugging m1), none⟩,
         ⟨Event.ConvertMlirModuleToExportedModel ex1.2 dir1
           (env.UpdateFunctionAliases a0 m0) ex1.1, none⟩,
         ⟨Event.CreateTmpDir, none⟩,
         ⟨Event.SaveExportedModel dirT e path tags sdm, none⟩,
         ⟨Event.RunCalibration dirT keys tags qo.calibration_options
           qo.force_graph_mode_calibration rdm, none⟩,
         ⟨Event.AddCalibrationStatistics m1 qo.calibration_options, ost⟩] ++
        warningEntries ost ++
        wholeModelEntries env qo e m2 path tags sdm ++
        [⟨postCalibrationStage k qo (liveModule env qo m2), none⟩,
         ⟨Event.GetLocalTmpFileName, none⟩,
         ⟨Event.RunExportPasses
           (exportOptionsOf k qo k.kTfQuantPtqPostCalibrationStepName dir2) mP, none⟩,
         ⟨Event.ConvertMlirModuleToExportedModel ex2.2 dir2
           (env.UpdateFunctionAliases a0 m0) ex2.1, none⟩] ∧
      (∃ w1 w2, stageResult env (preCalibrationStage k qo m0f) w1 =
        some (Except.ok m1, w2)) ∧
      (∃ w1 w2, env.ConvertMlirModuleToExportedModel ex1.2 dir1
        (env.UpdateFunctionAliases a0 m0) ex1.1 w1 = (Except.ok e, w2)) ∧
      (∃ w1 w2, env.CreateTmpDir w1 = (Except.ok dirT, w2)) ∧
      (∃ w1 w2, env.AddCalibrationStatistics m1 qo.calibration_options w1 =
        ((ost, m2), w2)) ∧
      (∃ w1 w2, stageResult env (postCalibrationStage k qo (liveModule env qo m2)) w1 =
        some (Except.ok mP, w2)) ∧
      (∃ w1 w2, env.ConvertMlirModuleToExportedModel ex2.2 dir2
        (env.UpdateFunctionAliases a0 m0) ex2.1 w1 = (Except.ok eF, w2)) :=
  (static_range_order_sat env k path keys tags qo sdm rdm w).holds eF h


/-- Witness of C11 on the concrete instance, with the legacy op set and whole-model
debugging. -/
theorem static_range_call_order_witness :
    (exec (QuantizeStaticRangePtq (demoEnv {}) demoConstants "model" ["serving_default"]
      {"serve"} demoWholeModelOptions [] []) []).1 =
      Except.ok demoStaticRangeResult ∧
    ∃ (a0 : AliasMap) (m0 : demoSorts.ModuleOp) (session : demoSorts.Session)
      (m0f m1 : demoSorts.ModuleOp) (dir1 : String)
      (ex1 : List demoSorts.AssetFileDef × demoSorts.ModuleOp) (e : demoSorts.ExportedModel)
      (dirT : String) (ost : Option Status) (m2 mP : demoSorts.ModuleOp) (dir2 : String)
      (ex2 : List demoSorts.AssetFileDef × demoSorts.ModuleOp),
      (exec (QuantizeStaticRangePtq (demoEnv {}) demoConstants "model" ["serving_default"]
      {"serve"} demoWholeModelOptions [] []) []).2.trace =
        [⟨Event.GetFunctionAliases "model" {"serve"}, none⟩,
         ⟨Event.SavedModelSignatureDefsToMlirImport "model" {"serve"} ["serving_default"]
           ⟨true, false, true⟩,
           none⟩,
         ⟨Event.UpdateFunctionAliases a0 m0, none⟩,
         ⟨Event.PreprocessAndFreezeGraph demoConstants.kDefaultTfQuantMlirDumpFilePrefix true
           (((demoEnv {}).UpdateFunctionAliases a0 m0).foldl
             (fun acc aliases => insert aliases.1 acc) ∅)
           m0 session (decide (demoWholeModelOptions.op_set = OpSet.STABLEHLO)) false, none⟩,
         ⟨preCalibrationStage demoConstants demoWholeModelOptions m0f, none⟩,
         ⟨Event.Clone m1, none⟩,
         ⟨Event.DisableDebugging m1, none⟩,
         ⟨Event.GetLocalTmpFileName, none⟩,
         ⟨Event.RunExportPasses
           (exportOptionsOf demoConstants demoWholeModelOptions
             demoConstants.kTfQuantPtqPreCalibrationStepName dir1)
           ((demoEnv {}).DisableDebugging m1), none⟩,
         ⟨Event.ConvertMlirModuleToExportedModel ex1.2 dir1
           ((demoEnv {}).UpdateFunctionAliases a0 m0) ex1.1, none⟩,
         ⟨Event.CreateTmpDir, none⟩,
         ⟨Event.SaveExportedModel dirT e "model" {"serve"} [], none⟩,
         ⟨Event.RunCalibration dirT ["serving_default"] {"serve"}
           demoWholeModelOptions.calibration_options
           demoWholeModelOptions.force_graph_mode_calibration [], none⟩,
         ⟨Event.AddCalibrationStatistics m1 demoWholeModelOptions.calibration_options, ost⟩] ++
        warningEntries ost ++
        wholeModelEntries (demoEnv {}) demoWholeModelOptions e m2 "model" {"serve"} [] ++
        [⟨postCalibrationStage demoConstants demoWholeModelOptions
           (liveModule (demoEnv {}) demoWholeModelOptions m2), none⟩,
         ⟨Event.GetLocalTmpFileName, none⟩,
         ⟨Event.RunExportPasses
           (exportOptionsOf demoConstants demoWholeModelOptions
             demoConstants.kTfQuantPtqPostCalibrationStepName dir2) mP, none⟩,
         ⟨Event.ConvertMlirModuleToExportedModel ex2.2 dir2
           ((demoEnv {}).UpdateFunctionAliases a0 m0) ex2.1, none⟩] ∧
      (∃ w1 w2, stageResult (demoEnv {})
        (preCalibrationStage demoConstants demoWholeModelOptions m0f) w1 =
        some (Except.ok m1, w2)) ∧
      (∃ w1 w2, (demoEnv {}).ConvertMlirModuleToExportedModel ex1.2 dir1
        ((demoEnv {}).UpdateFunctionAliases a0 m0) ex1.1 w1 = (Except.ok e, w2)) ∧
      (∃ w1 w2, (demoEnv {}).CreateTmpDir w1 = (Except.ok dirT, w2)) ∧
      (∃ w1 w2, (demoEnv {}).AddCalibrationStatistics m1
        demoWholeModelOptions.calibration_options w1 =
        ((ost, m2), w2)) ∧
      (∃ w1 w2, stageResult (demoEnv {})
        (postCalibrationStage demoConstants demoWholeModelOptions
          (liveModule (demoEnv {}) demoWholeModelOptions m2)) w1 =
        some (Except.ok mP, w2)) ∧
      (∃ w1 w2, (demoEnv {}).ConvertMlirModuleToExportedModel ex2.2 dir2
        ((demoEnv {}).UpdateFunctionAliases a0 m0) ex2.1 w1 =
        (Except.ok demoStaticRangeResult, w2)) :=
  ⟨rfl, static_range_call_order (demoEnv {}) demoConstants "model" ["serving_default"]
    {"serve"} demoWholeModelOptions [] [] [] demoStaticRangeResult rfl⟩

end

/-! ## What the entry points do with the op set (C12) -/

section

variable {T : Sorts} {α β : Type}

theorem all_beq_of_eq_map_const {γ : Type} [DecidableEq γ] {l : List γ} {u : γ}
    (h : l = l.map (fun _ => u)) : l.all (fun c => c == u) = true := by
  rw [List.all_eq_true]
  intro x hx
  rw [h] at hx
  obtain ⟨_, _, rfl⟩ := List.mem_map.mp hx
  simp

set_option maxHeartbeats 1000000 in
theorem dispatch_sat (ep : EntryPoint) (env : Collaborators T) (k : Constants)
    (inv : Invocation T) (w : T.World) :
    Sat (fun r =>
        loweringFlags r.2.trace =
          (loweringFlags r.2.trace).map (fun _ => loweringFlagOf ep inv.quantization_options) ∧
        stageChoices r.2.trace = (stageChoices r.2.trace).map (boundStageChoice ep) ∧
        legacyPassOptions r.2.trace =
          (legacyPassOptions r.2.trace).map (fun _ => inv.quantization_options) ∧
        (r.1.toBool && (stageChoices r.2.trace).isEmpty) = false)
      (ep.run env k inv ⟨w, []⟩) := by
  cases ep <;>
  simp only [EntryPoint.run, QuantizeQatModel, QuantizePtqModelPreCalibration,
    QuantizePtqModelPostCalibration, QuantizeDynamicRangePtq, QuantizeWeightOnly,
    QuantizeStaticRangePtq, QuantizePtqModelPreCalibrationImpl,
    QuantizePtqModelPostCalibrationImpl, ExportCalibrationModel,
    ImportAndPreprocessSavedModel, ModuleOpToExportedModel, bind_eq, pure_eq] <;>
  repeat' first
    | with_reducible apply sat_andThen
    | with_reducible apply sat_orInternalError
    | with_reducible apply sat_call
    | with_reducible apply sat_callTotal
    | with_reducible apply sat_callStatus
    | with_reducible apply sat_note
    | with_reducible apply sat_ret
    | with_reducible apply sat_ite
    | exact ⟨rfl, rfl, rfl, rfl⟩
    | (intro _ _ _
       dsimp only [List.cons_append, List.nil_append])
    | (intro _
       dsimp only [List.cons_append, List.nil_append])
    | intro _

/-- C12. What each entry point does once the alias reader and the importer have
succeeded, whatever `quantization_options.op_set` is.  `QuantizeQatModel`,
`QuantizeDynamicRangePtq` and `QuantizeWeightOnly` call `PreprocessAndFreezeGraph`
with `run_tf_to_stablehlo = false`; when it returns a module, they call
`RunPasses` on that module with their legacy pass set (`AddQuantizeQatPasses`,
`AddQuantizePtqDynamicRangePasses`, `AddQuantizeWeightOnlyPasses`), handing it the
options as they are, and no quantizer component; when `RunPasses` returns a
module, they export it.  `QuantizePtqModelPostCalibration` also preprocesses with
`run_tf_to_stablehlo = false`.  `QuantizePtqModelPreCalibration` and
`QuantizeStaticRangePtq` preprocess with `run_tf_to_stablehlo` true exactly when
the op set is `STABLEHLO`.  In every case the status or module that
`PreprocessAndFreezeGraph` really returns for these arguments decides how the
run goes on, from the world that call left.  Over the whole run of any entry
point: every `run_tf_to_stablehlo` flag in the trace is as said, the three
legacy entry points record no pass stage but their own legacy pass set, the
options reach the pass sets unchanged, and a successful run has run a pass
stage. -/
theorem legacy_modes_ignore_op_set (env : Collaborators T) (k : Constants) (path : String)
    (keys : List String) (tags : Finset String) (qo : QuantizationOptions T)
    (w w1 w2 : T.World) (a0 : AliasMap) (m0 : T.ModuleOp) (session : T.Session) :
    (env.GetFunctionAliases path tags w = (Except.ok a0, w1) →
      env.SavedModelSignatureDefsToMlirImport path tags keys ⟨true, false, true⟩ w1 =
        (Except.ok (m0, session), w2) →
      exec (QuantizeQatModel env k path keys tags qo) w =
        (match env.PreprocessAndFreezeGraph k.kDefaultTfQuantMlirDumpFilePrefix true
          ((env.UpdateFunctionAliases a0 m0).foldl (fun acc aliases => insert aliases.1 acc) ∅)
          m0 session false false w2 with
        | (Except.error st, w3) =>
          (Except.error (InternalError
              ("Failed to import and preprocess SavedModel: " ++ st.message)),
            ⟨w3,
              preprocessingEntries env k path tags keys true
                false a0 m0 session (some st)⟩)
        | (Except.ok m1, w3) =>
          (match env.RunPasses k.kTfQuantQatStepName
            (PassSet.AddQuantizeQatPasses qo k.kTfQuantQatStepName) m1 w3 with
          | (Except.error st, w4) =>
            (Except.error st,
              ⟨w4,
                preprocessingEntries env k path tags keys true
                  false a0 m0 session none ++
                [⟨Event.RunPasses k.kTfQuantQatStepName
                    (PassSet.AddQuantizeQatPasses qo k.kTfQuantQatStepName) m1, some st⟩]⟩)
          | (Except.ok m2, w4) =>
            andThen
              (ModuleOpToExportedModel env k m2 k.kTfQuantQatStepName
                (!qo.freeze_all_variables) (env.UpdateFunctionAliases a0 m0))
              (fun exported => ret exported.1)
              ⟨w4,
                preprocessingEntries env k path tags keys true
                  false a0 m0 session none ++
                [⟨Event.RunPasses k.kTfQuantQatStepName
                    (PassSet.AddQuantizeQatPasses qo k.kTfQuantQatStepName) m1, none⟩]⟩)) ∧
      exec (QuantizeDynamicRangePtq env k path keys tags qo) w =
        (match env.PreprocessAndFreezeGraph k.kDefaultTfQuantMlirDumpFilePrefix true
          ((env.UpdateFunctionAliases a0 m0).foldl (fun acc aliases => insert aliases.1 acc) ∅)
          m0 session false false w2 with
        | (Except.error st, w3) =>
          (Except.error (InternalError
              ("Failed to import and preprocess SavedModel: " ++ st.message)),
            ⟨w3,
              preprocessingEntries env k path tags keys true
                false a0 m0 session (some st)⟩)
        | (Except.ok m1, w3) =>
          (match env.RunPasses k.kTfQuantPtqDynamicRangeStepName
            (PassSet.AddQuantizePtqDynamicRangePasses qo k.kTfQuantPtqDynamicRangeStepName) m1 w3
              with
          | (Except.error st, w4) =>
            (Except.error st,
              ⟨w4,
                preprocessingEntries env k path tags keys true
                  false a0 m0 session none ++
                [⟨Event.RunPasses k.kTfQuantPtqDynamicRangeStepName
                    (PassSet.AddQuantizePtqDynamicRangePasses qo k.kTfQuantPtqDynamicRangeStepName)
                      m1, some st⟩]⟩)
          | (Except.ok m2, w4) =>
            andThen
              (ModuleOpToExportedModel env k m2 k.kTfQuantPtqDynamicRangeStepName
                (!qo.freeze_all_variables) (env.UpdateFunctionAliases a0 m0))
              (fun exported => ret exported.1)
              ⟨w4,
                preprocessingEntries env k path tags keys true
                  false a0 m0 session none ++
                [⟨Event.RunPasses k.kTfQuantPtqDynamicRangeStepName
                    (PassSet.AddQuantizePtqDynamicRangePasses qo k.kTfQuantPtqDynamicRangeStepName)
                      m1, none⟩]⟩)) ∧
      exec (QuantizePtqModelPreCalibration env k path keys tags qo) w =
        (match env.PreprocessAndFreezeGraph k.kDefaultTfQuantMlirDumpFilePrefix true
          ((env.UpdateFunctionAliases a0 m0).foldl (fun acc aliases => insert aliases.1 acc) ∅)
          m0 session (decide (qo.op_set = OpSet.STABLEHLO)) false w2 with
        | (Except.error st, w3) =>
          (Except.error (InternalError
              ("Failed to import and preprocess SavedModel: " ++ st.message)),
            ⟨w3,
              preprocessingEntries env k path tags keys true
                (decide (qo.op_set = OpSet.STABLEHLO)) a0 m0 session (some st)⟩)
        | (Except.ok m1, w3) =>
          andThen
            (QuantizePtqModelPreCalibrationImpl env k m1 qo (env.UpdateFunctionAliases a0 m0))
            (fun exported => ret exported.1)
            ⟨w3,
              preprocessingEntries env k path tags keys true
                (decide (qo.op_set = OpSet.STABLEHLO)) a0 m0 session none⟩) ∧
      exec (QuantizePtqModelPostCalibration env k path keys tags qo) w =
        (match env.PreprocessAndFreezeGraph k.kDefaultTfQuantMlirDumpFilePrefix false
          ((env.UpdateFunctionAliases a0 m0).foldl (fun acc aliases => insert aliases.1 acc) ∅)
          m0 session false false w2 with
        | (Except.error st, w3) =>
          (Except.error (InternalError
              ("Failed to import and preprocess SavedModel: " ++ st.message)),
            ⟨w3,
              preprocessingEntries env k path tags keys false
                false a0 m0 session (some st)⟩)
        | (Except.ok m1, w3) =>
          QuantizePtqModelPostCalibrationImpl env k m1 qo (env.UpdateFunctionAliases a0 m0)
            ⟨w3,
              preprocessingEntries env k path tags keys false
                false a0 m0 session none⟩) ∧
      ∀ (sdm : T.SignatureDefMap) (rdm : T.RepresentativeDatasetFileMap),
        exec (QuantizeStaticRangePtq env k path keys tags qo sdm rdm) w =
          (match env.PreprocessAndFreezeGraph k.kDefaultTfQuantMlirDumpFilePrefix true
            ((env.UpdateFunctionAliases a0 m0).foldl (fun acc aliases => insert aliases.1 acc) ∅)
            m0 session (decide (qo.op_set = OpSet.STABLEHLO)) false w2 with
          | (Except.error st, w3) =>
            (Except.error (InternalError
                ("Failed to import and preprocess SavedModel: " ++ st.message)),
              ⟨w3,
                preprocessingEntries env k path tags keys true
                  (decide (qo.op_set = OpSet.STABLEHLO)) a0 m0 session (some st)⟩)
          | (Except.ok m1, w3) =>
            andThen
              (QuantizePtqModelPreCalibrationImpl env k m1 qo (env.UpdateFunctionAliases a0 m0))
              (fun pre => staticRangeAfterPreCalibration env k path keys tags qo sdm rdm
                (pre, env.UpdateFunctionAliases a0 m0))
              ⟨w3,
                preprocessingEntries env k path tags keys true
                  (decide (qo.op_set = OpSet.STABLEHLO)) a0 m0 session none⟩)) ∧
    (env.GetFunctionAliases path qo.tags.toFinset w = (Except.ok a0, w1) →
      env.SavedModelSignatureDefsToMlirImport path qo.tags.toFinset qo.signature_keys
        ⟨true, false, true⟩ w1 = (Except.ok (m0, session), w2) →
      exec (QuantizeWeightOnly env k path qo) w =
        (match env.PreprocessAndFreezeGraph k.kDefaultTfQuantMlirDumpFilePrefix true
          ((env.UpdateFunctionAliases a0 m0).foldl (fun acc aliases => insert aliases.1 acc) ∅)
          m0 session false false w2 with
        | (Except.error st, w3) =>
          (Except.error (InternalError
              ("Failed to import and preprocess SavedModel: " ++ st.message)),
            ⟨w3,
              preprocessingEntries env k path qo.tags.toFinset qo.signature_keys true
                false a0 m0 session (some st)⟩)
        | (Except.ok m1, w3) =>
          (match env.RunPasses k.kTfQuantWeightOnlyStepName
            (PassSet.AddQuantizeWeightOnlyPasses qo k.kTfQuantWeightOnlyStepName) m1 w3 with
          | (Except.error st, w4) =>
            (Except.error st,
              ⟨w4,
                preprocessingEntries env k path qo.tags.toFinset qo.signature_keys true
                  false a0 m0 session none ++
                [⟨Event.RunPasses k.kTfQuantWeightOnlyStepName
                    (PassSet.AddQuantizeWeightOnlyPasses qo k.kTfQuantWeightOnlyStepName) m1, some
                      st⟩]⟩)
          | (Except.ok m2, w4) =>
            andThen
              (ModuleOpToExportedModel env k m2 k.kTfQuantWeightOnlyStepName
                (!qo.freeze_all_variables) (env.UpdateFunctionAliases a0 m0))
              (fun exported => ret exported.1)
              ⟨w4,
                preprocessingEntries env k path qo.tags.toFinset qo.signature_keys true
                  false a0 m0 session none ++
                [⟨Event.RunPasses k.kTfQuantWeightOnlyStepName
                    (PassSet.AddQuantizeWeightOnlyPasses qo k.kTfQuantWeightOnlyStepName) m1,
                      none⟩]⟩))) ∧
    ∀ (ep : EntryPoint) (inv : Invocation T) (w0 : T.World),
      (loweringFlags (exec (ep.run env k inv) w0).2.trace).all
        (fun b => b == loweringFlagOf ep inv.quantization_options) = true ∧
      (match legacyPassSetOf ep with
        | some kind =>
          (stageChoices (exec (ep.run env k inv) w0).2.trace).all
            (fun c => c == StageChoice.legacy kind) = true
        | none => True) ∧
      legacyPassOptions (exec (ep.run env k inv) w0).2.trace =
        (legacyPassOptions (exec (ep.run env k inv) w0).2.trace).map
          (fun _ => inv.quantization_options) ∧
      ((exec (ep.run env k inv) w0).1.toBool &&
        (stageChoices (exec (ep.run env k inv) w0).2.trace).isEmpty) = false := by
  refine ⟨fun hA hI => ⟨?_, ?_, ?_, ?_, fun sdm rdm => ?_⟩, fun hA hI => ?_,
    fun ep inv w0 => ?_⟩
  · unfold QuantizeQatModel ImportAndPreprocessSavedModel
    simp only [bind_eq, pure_eq, exec]
    rcases hP : env.PreprocessAndFreezeGraph k.kDefaultTfQuantMlirDumpFilePrefix true
      ((env.UpdateFunctionAliases a0 m0).foldl (fun acc aliases => insert aliases.1 acc) ∅)
      m0 session false false w2 with ⟨st | m1, w3⟩
    · simp [andThen, orInternalError, call, note, ret, hA, hI, hP, StrCat,
        preprocessingEntries]
    · rcases hR : env.RunPasses k.kTfQuantQatStepName
        (PassSet.AddQuantizeQatPasses qo k.kTfQuantQatStepName) m1 w3 with ⟨st | m2, w4⟩ <;>
      simp [andThen, orInternalError, call, note, ret, hA, hI, hP, hR, preprocessingEntries]
  · unfold QuantizeDynamicRangePtq ImportAndPreprocessSavedModel
    simp only [bind_eq, pure_eq, exec]
    rcases hP : env.PreprocessAndFreezeGraph k.kDefaultTfQuantMlirDumpFilePrefix true
      ((env.UpdateFunctionAliases a0 m0).foldl (fun acc aliases => insert aliases.1 acc) ∅)
      m0 session false false w2 with ⟨st | m1, w3⟩
    · simp [andThen, orInternalError, call, note, ret, hA, hI, hP, StrCat,
        preprocessingEntries]
    · rcases hR : env.RunPasses k.kTfQuantPtqDynamicRangeStepName
        (PassSet.AddQuantizePtqDynamicRangePasses qo
          k.kTfQuantPtqDynamicRangeStepName) m1 w3 with ⟨st | m2, w4⟩ <;>
      simp [andThen, orInternalError, call, note, ret, hA, hI, hP, hR, preprocessingEntries]
  · unfold QuantizePtqModelPreCalibration ImportAndPreprocessSavedModel
    simp only [bind_eq, pure_eq, exec]
    rcases hP : env.PreprocessAndFreezeGraph k.kDefaultTfQuantMlirDumpFilePrefix true
      ((env.UpdateFunctionAliases a0 m0).foldl (fun acc aliases => insert aliases.1 acc) ∅)
      m0 session (decide (qo.op_set = OpSet.STABLEHLO)) false w2 with ⟨st | m1, w3⟩ <;>
    simp [andThen, orInternalError, call, note, ret, hA, hI, hP, StrCat, preprocessingEntries]
  · unfold QuantizePtqModelPostCalibration ImportAndPreprocessSavedModel
    simp only [bind_eq, pure_eq, exec]
    rcases hP : env.PreprocessAndFreezeGraph k.kDefaultTfQuantMlirDumpFilePrefix false
      ((env.UpdateFunctionAliases a0 m0).foldl (fun acc aliases => insert aliases.1 acc) ∅)
      m0 session false false w2 with ⟨st | m1, w3⟩ <;>
    simp [andThen, orInternalError, call, note, ret, hA, hI, hP, StrCat, preprocessingEntries]
  · unfold QuantizeStaticRangePtq staticRangeAfterPreCalibration ImportAndPreprocessSavedModel
    simp only [bind_eq, pure_eq, exec]
    rcases hP : env.PreprocessAndFreezeGraph k.kDefaultTfQuantMlirDumpFilePrefix true
      ((env.UpdateFunctionAliases a0 m0).foldl (fun acc aliases => insert aliases.1 acc) ∅)
      m0 session (decide (qo.op_set = OpSet.STABLEHLO)) false w2 with ⟨st | m1, w3⟩ <;>
    simp [andThen, orInternalError, call, note, ret, hA, hI, hP, StrCat, preprocessingEntries]
  · unfold QuantizeWeightOnly ImportAndPreprocessSavedModel
    simp only [bind_eq, pure_eq, exec]
    rcases hP : env.PreprocessAndFreezeGraph k.kDefaultTfQuantMlirDumpFilePrefix true
      ((env.UpdateFunctionAliases a0 m0).foldl (fun acc aliases => insert aliases.1 acc) ∅)
      m0 session false false w2 with ⟨st | m1, w3⟩
    · simp [andThen, orInternalError, call, note, ret, hA, hI, hP, StrCat,
        preprocessingEntries]
    · rcases hR : env.RunPasses k.kTfQuantWeightOnlyStepName
        (PassSet.AddQuantizeWeightOnlyPasses qo
          k.kTfQuantWeightOnlyStepName) m1 w3 with ⟨st | m2, w4⟩ <;>
      simp [andThen, orInternalError, call, note, ret, hA, hI, hP, hR, preprocessingEntries]
  · obtain ⟨h1, h2, h3, h4⟩ := (dispatch_sat ep env k inv w0).holds
    refine ⟨all_beq_of_eq_map_const h1, ?_, h3, h4⟩
    cases ep
    · exact all_beq_of_eq_map_const h2
    · trivial
    · trivial
    · exact all_beq_of_eq_map_const h2
    · exact all_beq_of_eq_map_const h2
    · trivial

/-- Witness of C12 on the recording instance, with the op set `STABLEHLO`: the
module `QuantizeQatModel` exports shows preprocessing without lowering and the
pass set `AddQuantizeQatPasses`; the module `QuantizePtqModelPreCalibration`
exports shows preprocessing with lowering. -/
theorem legacy_modes_ignore_op_set_witness :
    recordingEnv.GetFunctionAliases "model" {"serve"} [] =
      (Except.ok [("composite_fn", "my_alias")], []) ∧
    recordingEnv.SavedModelSignatureDefsToMlirImport "model" {"serve"} ["serving_default"]
      ⟨true, false, true⟩ [] = (Except.ok (["import model"], ()), []) ∧
    (exec (QuantizeQatModel recordingEnv demoConstants "model" ["serving_default"] {"serve"}
        (demoOptions OpSet.STABLEHLO none)) []).1 =
      Except.ok
        { graph := ["import model", "freeze inliner=true stablehlo=false",
            "no inlining of composite_fn_0", "passes qat AddQuantizeQatPasses",
            "export unfreeze_constants=false"],
          checkpoint_dir := "/tmp/xx", function_aliases := [("composite_fn_0", "my_alias")],
          asset_file_defs := ["asset"], debugging := false } ∧
    (exec (QuantizePtqModelPreCalibration recordingEnv demoConstants "model"
        ["serving_default"] {"serve"} (demoOptions OpSet.STABLEHLO none)) []).1 =
      Except.ok
        { graph := ["import model", "freeze inliner=true stablehlo=true",
            "no inlining of composite_fn_0", "pre-calibration component", "debugging off",
            "export unfreeze_constants=false"],
          checkpoint_dir := "/tmp/xx", function_aliases := [("composite_fn_0", "my_alias")],
          asset_file_defs := ["asset"], debugging := false } :=
  ⟨rfl, rfl,
    (congrArg Prod.fst ((legacy_modes_ignore_op_set recordingEnv demoConstants "model"
      ["serving_default"] {"serve"} (demoOptions OpSet.STABLEHLO none) [] [] []
      [("composite_fn", "my_alias")] ["import model"] ()).1 rfl rfl).1).trans rfl,
    (congrArg Prod.fst ((legacy_modes_ignore_op_set recordingEnv demoConstants "model"
      ["serving_default"] {"serve"} (demoOptions OpSet.STABLEHLO none) [] [] []
      [("composite_fn", "my_alias")] ["import model"] ()).1 rfl rfl).2.2.1).trans rfl⟩

end

/-! ## The static-range mode against the pre-calibration entry point (C13) -/

section

variable {T : Sorts} {α β : Type}

theorem andThen_assoc {γ : Type} (p : Pipeline T α) (f : α → Pipeline T β)
    (g : β → Pipeline T γ) :
    andThen (andThen p f) g = andThen p (fun a => andThen (f a) g) := by
  funext s
  simp only [andThen]
  rcases p s with ⟨r | r, s1⟩ <;> rfl

theorem ret_andThen (a : α) (f : α → Pipeline T β) : andThen (ret a) f = f a := rfl

theorem preCalibration_split (env : Collaborators T) (k : Constants) (path : String)
    (keys : List String) (tags : Finset String) (qo : QuantizationOptions T) :
    QuantizePtqModelPreCalibration env k path keys tags qo =
      andThen (preCalibrationSteps env k path keys tags qo) (fun pre => ret pre.1.1) := by
  simp only [QuantizePtqModelPreCalibration, preCalibrationSteps, bind_eq, pure_eq,
    andThen_assoc, ret_andThen]

theorem staticRange_split (env : Collaborators T) (k : Constants) (path : String)
    (keys : List String) (tags : Finset String) (qo : QuantizationOptions T)
    (sdm : T.SignatureDefMap) (rdm : T.RepresentativeDatasetFileMap) :
    QuantizeStaticRangePtq env k path keys tags qo sdm rdm =
      andThen (preCalibrationSteps env k path keys tags qo)
        (staticRangeAfterPreCalibration env k path keys tags qo sdm rdm) := by
  simp only [QuantizeStaticRangePtq, preCalibrationSteps, staticRangeAfterPreCalibration,
    bind_eq, pure_eq, andThen_assoc, ret_andThen]

theorem framed_staticRangeAfterPreCalibration (env : Collaborators T) (k : Constants)
    (path : String) (keys : List String) (tags : Finset String) (qo : QuantizationOptions T)
    (sdm : T.SignatureDefMap) (rdm : T.RepresentativeDatasetFileMap)
    (pre : (T.ExportedModel × T.ModuleOp) × AliasMap) :
    Framed (staticRangeAfterPreCalibration env k path keys tags qo sdm rdm pre) := by
  simp only [staticRangeAfterPreCalibration, bind_eq, pure_eq]
  refine framed_andThen (framed_call _ _) (fun _ => ?_)
  refine framed_andThen (framed_callTotal _ _) (fun _ => ?_)
  refine framed_andThen (framed_callTotal _ _) (fun _ => ?_)
  refine framed_andThen (framed_callStatus _ _) (fun statistics => ?_)
  have hrest : ∀ m : T.ModuleOp,
      Framed (if (qo.has_debugger_config && decide (qo.get_debugger_config.debugger_type =
          DebuggerType.DEBUGGER_TYPE_WHOLE_MODEL)) = true then
        andThen (note (Event.EnableDebugging pre.1.1)) fun _ =>
          andThen (note (Event.ChangeToQuantizedFilename m)) fun _ =>
            andThen (callTotal
              (Event.SaveExportedModel qo.get_debugger_config.unquantized_dump_model_path
                (env.EnableDebugging pre.1.1) path tags sdm)
              (env.SaveExportedModel qo.get_debugger_config.unquantized_dump_model_path
                (env.EnableDebugging pre.1.1) path tags sdm)) fun _ =>
              andThen (ret (env.ChangeToQuantizedFilename m)) fun y =>
                QuantizePtqModelPostCalibrationImpl env k y qo pre.2
      else
        andThen (ret m) fun y => QuantizePtqModelPostCalibrationImpl env k y qo pre.2) := by
    intro m
    refine framed_ite _ ?_ ?_
    · refine framed_andThen (framed_note _) (fun _ => ?_)
      refine framed_andThen (framed_note _) (fun _ => ?_)
      refine framed_andThen (framed_callTotal _ _) (fun _ => ?_)
      exact framed_andThen (framed_ret _) (fun _ => framed_PostCalibrationImpl _ _ _ _ _)
    · exact framed_andThen (framed_ret _) (fun _ => framed_PostCalibrationImpl _ _ _ _ _)
  rcases statistics with ⟨_ | st, m⟩
  · exact framed_andThen (framed_ret _) (fun _ => hrest m)
  · exact framed_andThen (framed_note _) (fun _ => hrest m)

theorem sat_call_of_error {Q : StatusOr α × PState T → Prop} {ev : Event T}
    {g : T.World → StatusOr α × T.World} {s : PState T} {st : Status} {w : T.World}
    (hg : g s.world = (Except.error st, w))
    (h : Q (Except.error st, ⟨w, s.trace ++ [⟨ev, some st⟩]⟩)) : Sat Q (call ev g s) := by
  refine ⟨?_⟩
  simp only [call, hg]
  exact h

theorem preCalibrationSteps_saves_nothing (env : Collaborators T) (k : Constants)
    (path : String) (keys : List String) (tags : Finset String) (qo : QuantizationOptions T)
    (w : T.World) :
    Sat (fun r => savedArtifacts r.2.trace = [])
      (preCalibrationSteps env k path keys tags qo ⟨w, []⟩) := by
  simp only [preCalibrationSteps, QuantizePtqModelPreCalibrationImpl, ExportCalibrationModel,
    ImportAndPreprocessSavedModel, ModuleOpToExportedModel, bind_eq, pure_eq]
  repeat' first
    | with_reducible apply sat_andThen
    | with_reducible apply sat_orInternalError
    | with_reducible apply sat_call
    | with_reducible apply sat_note
    | with_reducible apply sat_ret
    | with_reducible apply sat_ite
    | rfl
    | (intro _ _ _
       dsimp only [List.cons_append, List.nil_append])
    | (intro _
       dsimp only [List.cons_append, List.nil_append])

theorem staticRangeAfterPreCalibration_first_save (env : Collaborators T) (k : Constants)
    (path : String) (keys : List String) (tags : Finset String) (qo : QuantizationOptions T)
    (sdm : T.SignatureDefMap) (rdm : T.RepresentativeDatasetFileMap)
    (pre : (T.ExportedModel × T.ModuleOp) × AliasMap) (w : T.World) :
    Sat (fun r =>
        match env.CreateTmpDir w with
        | (Except.error st, _) => r.1 = Except.error st ∧ savedArtifacts r.2.trace = []
        | (Except.ok dir, _) => (savedArtifacts r.2.trace).head? = some (dir, pre.1.1))
      (staticRangeAfterPreCalibration env k path keys tags qo sdm rdm pre ⟨w, []⟩) := by
  simp only [staticRangeAfterPreCalibration, QuantizePtqModelPostCalibrationImpl,
    ModuleOpToExportedModel, bind_eq, pure_eq]
  rcases hT : env.CreateTmpDir w with ⟨st | dir, w2⟩
  · exact sat_andThen (sat_call_of_error hT ⟨rfl, rfl⟩)
  · refine sat_andThen (sat_call_of_eq hT ?_)
    dsimp only [List.cons_append, List.nil_append]
    repeat' first
      | with_reducible apply sat_andThen
      | with_reducible apply sat_call
      | with_reducible apply sat_callTotal
      | with_reducible apply sat_callStatus
      | with_reducible apply sat_note
      | with_reducible apply sat_ret
      | with_reducible apply sat_ite
      | rfl
      | (intro _ _ _
         dsimp only [List.cons_append, List.nil_append])
      | (intro _
         dsimp only [List.cons_append, List.nil_append])
      | intro _

theorem savedArtifacts_append (t1 t2 : List (Entry T)) :
    savedArtifacts (t1 ++ t2) = savedArtifacts t1 ++ savedArtifacts t2 := by
  simp [savedArtifacts, List.filterMap_append]

/-- C13 (amended). From the same world, `QuantizeStaticRangePtq` first does what
`QuantizePtqModelPreCalibration` does.  When `QuantizePtqModelPreCalibration`
fails, `QuantizeStaticRangePtq` ends in the same state with the same status,
having saved nothing.  When `QuantizePtqModelPreCalibration` returns an
artifact, `QuantizeStaticRangePtq` asks for a temporary directory next: if that
fails, it returns the status of `CreateTmpDir`, having saved nothing; if not,
the first artifact it hands to `SaveExportedModel` is the artifact
`QuantizePtqModelPreCalibration` returns, saved to that directory. -/
theorem static_range_starts_as_pre_calibration (env : Collaborators T) (k : Constants)
    (path : String) (keys : List String) (tags : Finset String) (qo : QuantizationOptions T)
    (sdm : T.SignatureDefMap) (rdm : T.RepresentativeDatasetFileMap) (w : T.World) :
    match exec (QuantizePtqModelPreCalibration env k path keys tags qo) w with
    | (Except.error st, s1) =>
      exec (QuantizeStaticRangePtq env k path keys tags qo sdm rdm) w = (Except.error st, s1) ∧
      savedArtifacts s1.trace = []
    | (Except.ok e, s1) =>
      match env.CreateTmpDir s1.world with
      | (Except.error st, _) =>
        (exec (QuantizeStaticRangePtq env k path keys tags qo sdm rdm) w).1 =
          Except.error st ∧
        savedArtifacts (exec (QuantizeStaticRangePtq env k path keys tags qo sdm rdm) w).2.trace
          = []
      | (Except.ok dir, _) =>
        (savedArtifacts
          (exec (QuantizeStaticRangePtq env k path keys tags qo sdm rdm) w).2.trace).head? =
          some (dir, e) := by
  have h0 := (preCalibrationSteps_saves_nothing env k path keys tags qo w).holds
  simp only [exec, preCalibration_split, staticRange_split, andThen]
  revert h0
  rcases preCalibrationSteps env k path keys tags qo ⟨w, []⟩ with ⟨st | pre, s1⟩ <;> intro h0
  · exact ⟨rfl, h0⟩
  · simp only at h0 ⊢
    have h1 := (staticRangeAfterPreCalibration_first_save env k path keys tags qo sdm rdm pre
      s1.world).holds
    rw [framed_staticRangeAfterPreCalibration env k path keys tags qo sdm rdm pre s1.world
      s1.trace]
    simp only [ret, savedArtifacts_append, h0, List.nil_append]
    exact h1

/-- C13 (counterexample). On the concrete instance with a failing
`CreateTmpDir`, `QuantizePtqModelPreCalibration` returns an artifact, while
`QuantizeStaticRangePtq` fails, with the status of `CreateTmpDir`, before it
has saved anything. -/
theorem static_range_fails_as_pre_calibration_counterexample :
    (exec (QuantizePtqModelPreCalibration (demoEnv { createTmpDir := some "no space" })
        demoConstants "model" ["serving_default"] {"serve"} (demoOptions OpSet.TF none))
      []).1 =
      Except.ok
        { graph := ["import model", "freeze", "passes pre", "debugging off", "export"],
          checkpoint_dir := "/tmp/", function_aliases := [("composite_fn", "my_alias")],
          asset_file_defs := ["asset"], debugging := false } ∧
    (exec (QuantizeStaticRangePtq (demoEnv { createTmpDir := some "no space" })
        demoConstants "model" ["serving_default"] {"serve"} (demoOptions OpSet.TF none) [] [])
      []).1 = Except.error ⟨2, "no space"⟩ ∧
    savedArtifacts (exec (QuantizeStaticRangePtq (demoEnv { createTmpDir := some "no space" })
        demoConstants "model" ["serving_default"] {"serve"} (demoOptions OpSet.TF none) [] [])
      []).2.trace = [] :=
  ⟨rfl, rfl, rfl⟩

end

/-! ## The artifacts saved by the static-range mode (C6) -/

section

variable {T : Sorts} {α β : Type}

theorem static_saved_whole_model (env : Collaborators T) (k : Constants) (path : String)
    (keys : List String) (tags : Finset String) (qo : QuantizationOptions T)
    (sdm : T.SignatureDefMap) (rdm : T.RepresentativeDatasetFileMap) (w : T.World)
    (hD : wholeModelDebugging qo = true) :
    Sat (fun r => reachesPostCalibrationStage r.2.trace = true →
        renamedBeforePostCalibrationStage r.2.trace = true)
      (QuantizeStaticRangePtq env k path keys tags qo sdm rdm ⟨w, []⟩) := by
  have hW : (qo.has_debugger_config && decide (qo.get_debugger_config.debugger_type =
      DebuggerType.DEBUGGER_TYPE_WHOLE_MODEL)) = wholeModelDebugging qo := rfl
  simp only [QuantizeStaticRangePtq, QuantizePtqModelPreCalibrationImpl,
    QuantizePtqModelPostCalibrationImpl, ExportCalibrationModel,
    ImportAndPreprocessSavedModel, ModuleOpToExportedModel, bind_eq, pure_eq, hW, hD,
    if_true]
  repeat' first
    | with_reducible apply sat_andThen
    | with_reducible apply sat_orInternalError
    | with_reducible apply sat_call
    | with_reducible apply sat_callTotal
    | with_reducible apply sat_callStatus
    | with_reducible apply sat_note
    | with_reducible apply sat_ret
    | with_reducible apply sat_ite
    | (intro h
       first
         | exact (Bool.false_ne_true h).elim
         | rfl)
    | (intro _ _ _
       dsimp only [List.cons_append, List.nil_append])
    | (intro _
       dsimp only [List.cons_append, List.nil_append])
    | intro _

theorem preCalibrationSteps_quiet (env : Collaborators T) (k : Constants)
    (path : String) (keys : List String) (tags : Finset String) (qo : QuantizationOptions T)
    (w : T.World) :
    Sat (fun r => savedArtifacts r.2.trace = [] ∧ enabledArtifacts r.2.trace = [] ∧
        renamedModules r.2.trace = [] ∧ postCalibrationStageModules r.2.trace = [] ∧
        reachesPostCalibrationStage r.2.trace = false)
      (preCalibrationSteps env k path keys tags qo ⟨w, []⟩) := by
  simp only [preCalibrationSteps, QuantizePtqModelPreCalibrationImpl, ExportCalibrationModel,
    ImportAndPreprocessSavedModel, ModuleOpToExportedModel, bind_eq, pure_eq]
  repeat' first
    | with_reducible apply sat_andThen
    | with_reducible apply sat_orInternalError
    | with_reducible apply sat_call
    | with_reducible apply sat_note
    | with_reducible apply sat_ret
    | with_reducible apply sat_ite
    | exact ⟨rfl, rfl, rfl, rfl, rfl⟩
    | (intro _ _ _
       dsimp only [List.cons_append, List.nil_append])
    | (intro _
       dsimp only [List.cons_append, List.nil_append])

theorem postImpl_quiet (env : Collaborators T) (k : Constants) (m : T.ModuleOp)
    (qo : QuantizationOptions T) (a : AliasMap) (w : T.World) :
    Sat (fun r => savedArtifacts r.2.trace = [] ∧ enabledArtifacts r.2.trace = [] ∧
        renamedModules r.2.trace = [] ∧ postCalibrationStageModules r.2.trace = [m] ∧
        reachesPostCalibrationStage r.2.trace = true)
      (QuantizePtqModelPostCalibrationImpl env k m qo a ⟨w, []⟩) := by
  by_cases hc : qo.op_set = OpSet.STABLEHLO <;>
  simp only [QuantizePtqModelPostCalibrationImpl,
    ModuleOpToExportedModel, bind_eq, pure_eq, hc, decide_True, decide_False, if_true,
    if_false, Bool.false_eq_true] <;>
  repeat' first
    | with_reducible apply sat_andThen
    | with_reducible apply sat_call
    | with_reducible apply sat_ret
    | exact ⟨rfl, rfl, rfl, rfl, rfl⟩
    | (intro _ _ _
       dsimp only [List.cons_append, List.nil_append])

theorem staticRangeAfterPreCalibration_eq (env : Collaborators T) (k : Constants)
    (path : String) (keys : List String) (tags : Finset String) (qo : QuantizationOptions T)
    (sdm : T.SignatureDefMap) (rdm : T.RepresentativeDatasetFileMap)
    (e : T.ExportedModel) (m1 m2 : T.ModuleOp) (a : AliasMap) (s1 : PState T) (dir : String)
    (w2 w3 w4 w5 : T.World) (o1 o2 : T.PyOutcome) (ost : Option Status)
    (hT : env.CreateTmpDir s1.world = (Except.ok dir, w2))
    (hS : env.SaveExportedModel dir e path tags sdm w2 = (o1, w3))
    (hR : env.RunCalibration dir keys tags qo.calibration_options
      qo.force_graph_mode_calibration rdm w3 = (o2, w4))
    (hC : env.AddCalibrationStatistics m1 qo.calibration_options w4 = ((ost, m2), w5)) :
    staticRangeAfterPreCalibration env k path keys tags qo sdm rdm ((e, m1), a) s1 =
      if wholeModelDebugging qo = true then
        QuantizePtqModelPostCalibrationImpl env k (env.ChangeToQuantizedFilename m2) qo a
          ⟨(env.SaveExportedModel qo.get_debugger_config.unquantized_dump_model_path
              (env.EnableDebugging e) path tags sdm w5).2,
            s1.trace ++ ([⟨Event.CreateTmpDir, none⟩,
              ⟨Event.SaveExportedModel dir e path tags sdm, none⟩,
              ⟨Event.RunCalibration dir keys tags qo.calibration_options
                qo.force_graph_mode_calibration rdm, none⟩]
              ++ statisticsEntries m1 qo.calibration_options ost
              ++ [⟨Event.EnableDebugging e, none⟩,
                ⟨Event.ChangeToQuantizedFilename m2, none⟩,
                ⟨Event.SaveExportedModel qo.get_debugger_config.unquantized_dump_model_path
                  (env.EnableDebugging e) path tags sdm, none⟩])⟩
      else
        QuantizePtqModelPostCalibrationImpl env k m2 qo a
          ⟨w5, s1.trace ++ ([⟨Event.CreateTmpDir, none⟩,
              ⟨Event.SaveExportedModel dir e path tags sdm, none⟩,
              ⟨Event.RunCalibration dir keys tags qo.calibration_options
                qo.force_graph_mode_calibration rdm, none⟩]
              ++ statisticsEntries m1 qo.calibration_options ost)⟩ := by
  unfold staticRangeAfterPreCalibration
  simp only [bind_eq, pure_eq]
  have hW : (qo.has_debugger_config = true ∧ qo.get_debugger_config.debugger_type =
      DebuggerType.DEBUGGER_TYPE_WHOLE_MODEL) ↔ wholeModelDebugging qo = true := by
    simp [wholeModelDebugging]
  cases hD : wholeModelDebugging qo <;> cases ost <;>
    simp [andThen, call, callTotal, callStatus, hT, hS, hR, hC, note, hW, hD, ret,
      statisticsEntries]

theorem enabledArtifacts_append (t1 t2 : List (Entry T)) :
    enabledArtifacts (t1 ++ t2) = enabledArtifacts t1 ++ enabledArtifacts t2 := by
  simp [enabledArtifacts, List.filterMap_append]

theorem renamedModules_append (t1 t2 : List (Entry T)) :
    renamedModules (t1 ++ t2) = renamedModules t1 ++ renamedModules t2 := by
  simp [renamedModules, List.filterMap_append]

theorem postCalibrationStageModules_append (t1 t2 : List (Entry T)) :
    postCalibrationStageModules (t1 ++ t2) =
      postCalibrationStageModules t1 ++ postCalibrationStageModules t2 := by
  simp [postCalibrationStageModules, List.filterMap_append]

theorem reachesPostCalibrationStage_append (t1 t2 : List (Entry T)) :
    reachesPostCalibrationStage (t1 ++ t2) =
      (reachesPostCalibrationStage t1 || reachesPostCalibrationStage t2) := by
  simp [reachesPostCalibrationStage, List.any_append]

/-- C6. For every run of `QuantizeStaticRangePtq` that reaches the
post-calibration stage.  The steps the function shares with
`QuantizePtqModelPreCalibration` have returned the pre-calibration artifact `e`
and the live module `m1`, `CreateTmpDir` has returned `dir`, and
`SaveExportedModel` of `e` into `dir`, `RunCalibration` on `dir` and
`AddCalibrationStatistics` on `m1` have been made for real, one from the world
the other left; `m2` is the live module as `AddCalibrationStatistics` leaves it.
`SaveExportedModel` is called exactly twice if the options have a debugger
config of type `DEBUGGER_TYPE_WHOLE_MODEL`, exactly once otherwise.  In the first
case the second artifact saved is `e` after `EnableDebugging`, saved to
`unquantized_dump_model_path`; `ChangeToQuantizedFilename` is applied to `m2`;
and the rest of the run is `QuantizePtqModelPostCalibrationImpl` on the renamed
module, from the world the second save left.  In the second case neither
`EnableDebugging` nor `ChangeToQuantizedFilename` is called, and the rest of the
run is `QuantizePtqModelPostCalibrationImpl` on `m2`, from the world
`AddCalibrationStatistics` left. -/
theorem static_range_saved_artifacts (env : Collaborators T) (k : Constants) (path : String)
    (keys : List String) (tags : Finset String) (qo : QuantizationOptions T)
    (sdm : T.SignatureDefMap) (rdm : T.RepresentativeDatasetFileMap) (w : T.World)
    (h : reachesPostCalibrationStage
      (exec (QuantizeStaticRangePtq env k path keys tags qo sdm rdm) w).2.trace = true) :
    ∃ (e : T.ExportedModel) (m1 m2 : T.ModuleOp) (a : AliasMap) (s1 : PState T)
      (dir : String) (w2 w3 w4 w5 : T.World) (o1 o2 : T.PyOutcome) (ost : Option Status),
      exec (preCalibrationSteps env k path keys tags qo) w = (Except.ok ((e, m1), a), s1) ∧
      env.CreateTmpDir s1.world = (Except.ok dir, w2) ∧
      env.SaveExportedModel dir e path tags sdm w2 = (o1, w3) ∧
      env.RunCalibration dir keys tags qo.calibration_options
        qo.force_graph_mode_calibration rdm w3 = (o2, w4) ∧
      env.AddCalibrationStatistics m1 qo.calibration_options w4 = ((ost, m2), w5) ∧
      (savedArtifacts
        (exec (QuantizeStaticRangePtq env k path keys tags qo sdm rdm) w).2.trace).length =
          (if wholeModelDebugging qo = true then 2 else 1) ∧
      (wholeModelDebugging qo = true →
        savedArtifacts (exec (QuantizeStaticRangePtq env k path keys tags qo sdm rdm) w).2.trace =
          [(dir, e),
           (qo.get_debugger_config.unquantized_dump_model_path, env.EnableDebugging e)] ∧
        enabledArtifacts
          (exec (QuantizeStaticRangePtq env k path keys tags qo sdm rdm) w).2.trace =
            [e] ∧
        renamedModules
          (exec (QuantizeStaticRangePtq env k path keys tags qo sdm rdm) w).2.trace =
            [m2] ∧
        postCalibrationStageModules
          (exec (QuantizeStaticRangePtq env k path keys tags qo sdm rdm) w).2.trace =
            [env.ChangeToQuantizedFilename m2] ∧
        renamedBeforePostCalibrationStage
          (exec (QuantizeStaticRangePtq env k path keys tags qo sdm rdm) w).2.trace =
            true ∧
        (exec (QuantizeStaticRangePtq env k path keys tags qo sdm rdm) w).1 =
          (exec (QuantizePtqModelPostCalibrationImpl env k (env.ChangeToQuantizedFilename m2)
            qo a)
            (env.SaveExportedModel qo.get_debugger_config.unquantized_dump_model_path
              (env.EnableDebugging e) path tags sdm w5).2).1 ∧
        (exec (QuantizeStaticRangePtq env k path keys tags qo sdm rdm) w).2.world =
          (exec (QuantizePtqModelPostCalibrationImpl env k (env.ChangeToQuantizedFilename m2)
            qo a)
            (env.SaveExportedModel qo.get_debugger_config.unquantized_dump_model_path
              (env.EnableDebugging e) path tags sdm w5).2).2.world) ∧
      (wholeModelDebugging qo = false →
        savedArtifacts
          (exec (QuantizeStaticRangePtq env k path keys tags qo sdm rdm) w).2.trace =
            [(dir, e)] ∧
        enabledArtifacts
          (exec (QuantizeStaticRangePtq env k path keys tags qo sdm rdm) w).2.trace =
            [] ∧
        renamedModules
          (exec (QuantizeStaticRangePtq env k path keys tags qo sdm rdm) w).2.trace =
            [] ∧
        postCalibrationStageModules
          (exec (QuantizeStaticRangePtq env k path keys tags qo sdm rdm) w).2.trace =
            [m2] ∧
        (exec (QuantizeStaticRangePtq env k path keys tags qo sdm rdm) w).1 =
          (exec (QuantizePtqModelPostCalibrationImpl env k m2 qo a) w5).1 ∧
        (exec (QuantizeStaticRangePtq env k path keys tags qo sdm rdm) w).2.world =
          (exec (QuantizePtqModelPostCalibrationImpl env k m2 qo a) w5).2.world) := by
  have hq := (preCalibrationSteps_quiet env k path keys tags qo w).holds
  have hb := fun hD => (static_saved_whole_model env k path keys tags qo sdm rdm w hD).holds h
  revert hq
  rcases h0 : preCalibrationSteps env k path keys tags qo ⟨w, []⟩ with
    ⟨st | ⟨⟨e, m1⟩, a⟩, s1⟩ <;> intro hq
  · have hRun :
    (exec (QuantizeStaticRangePtq env k path keys tags qo sdm rdm) w) =
      (Except.error st, s1) := by
      simp only [exec, staticRange_split, andThen, h0]
    rw [hRun] at h
    rw [hq.2.2.2.2] at h
    exact (Bool.false_ne_true h).elim
  · rcases hT : env.CreateTmpDir s1.world with ⟨st | dir, w2⟩
    · have hRun :
      (exec (QuantizeStaticRangePtq env k path keys tags qo sdm rdm) w) =
        (Except.error st, ⟨w2, s1.trace ++ [⟨Event.CreateTmpDir, some st⟩]⟩) := by
        simp only [exec, staticRange_split, andThen, h0, staticRangeAfterPreCalibration,
          bind_eq, call, hT]
      rw [hRun] at h
      simp only [reachesPostCalibrationStage_append, hq.2.2.2.2, Bool.false_or] at h
      exact (Bool.false_ne_true h).elim
    · rcases hS : env.SaveExportedModel dir e path tags sdm w2 with ⟨o1, w3⟩
      rcases hR : env.RunCalibration dir keys tags qo.calibration_options
        qo.force_graph_mode_calibration rdm w3 with ⟨o2, w4⟩
      rcases hC : env.AddCalibrationStatistics m1 qo.calibration_options w4 with
        ⟨⟨ost, m2⟩, w5⟩
      have hRun : (exec (QuantizeStaticRangePtq env k path keys tags qo sdm rdm) w) =
          staticRangeAfterPreCalibration env k path keys tags qo sdm rdm ((e, m1), a) s1 := by
        simp only [exec, staticRange_split, andThen, h0]
      rw [staticRangeAfterPreCalibration_eq env k path keys tags qo sdm rdm e m1 m2 a s1 dir
        w2 w3 w4 w5 o1 o2 ost hT hS hR hC] at hRun
      simp only at hq
      refine ⟨e, m1, m2, a, s1, dir, w2, w3, w4, w5, o1, o2, ost, h0, hT, hS, hR, hC, ?_⟩
      cases hD : wholeModelDebugging qo
      · simp only [hD, Bool.false_eq_true, if_false] at hRun
        rw [framed_PostCalibrationImpl] at hRun
        have hp := (postImpl_quiet env k m2 qo a w5).holds
        have hL : savedArtifacts
          (exec (QuantizeStaticRangePtq env k path keys tags qo sdm rdm) w).2.trace =
            [(dir, e)] := by
          rw [hRun]
          cases ost <;>
            (simp only [savedArtifacts_append, hq.1, hp.1]
             rfl)
        refine ⟨by rw [hL]; rfl, fun hw => (Bool.false_ne_true hw).elim, fun _ => ⟨hL, ?_, ?_, ?_,
            ?_, ?_⟩⟩
        · rw [hRun]
          cases ost <;>
            (simp only [enabledArtifacts_append, hq.2.1, hp.2.1]
             rfl)
        · rw [hRun]
          cases ost <;>
            (simp only [renamedModules_append, hq.2.2.1, hp.2.2.1]
             rfl)
        · rw [hRun]
          cases ost <;>
            (simp only [postCalibrationStageModules_append, hq.2.2.2.1, hp.2.2.2.1]
             rfl)
        · rw [hRun]
          rfl
        · rw [hRun]
          rfl
      · simp only [hD, if_true] at hRun
        rw [framed_PostCalibrationImpl] at hRun
        have hp := (postImpl_quiet env k (env.ChangeToQuantizedFilename m2) qo a
          (env.SaveExportedModel qo.get_debugger_config.unquantized_dump_model_path
              (env.EnableDebugging e) path tags sdm w5).2).holds
        have hL : savedArtifacts
          (exec (QuantizeStaticRangePtq env k path keys tags qo sdm rdm) w).2.trace =
            [(dir, e),
             (qo.get_debugger_config.unquantized_dump_model_path, env.EnableDebugging e)] := by
          rw [hRun]
          cases ost <;>
            (simp only [savedArtifacts_append, hq.1, hp.1]
             rfl)
        refine ⟨by rw [hL]; rfl, fun _ => ⟨hL, ?_, ?_, ?_, hb hD, ?_, ?_⟩,
          fun hw => (Bool.false_ne_true hw.symm).elim⟩
        · rw [hRun]
          cases ost <;>
            (simp only [enabledArtifacts_append, hq.2.1, hp.2.1]
             rfl)
        · rw [hRun]
          cases ost <;>
            (simp only [renamedModules_append, hq.2.2.1, hp.2.2.1]
             rfl)
        · rw [hRun]
          cases ost <;>
            (simp only [postCalibrationStageModules_append, hq.2.2.2.1, hp.2.2.2.1]
             rfl)
        · rw [hRun]
          rfl
        · rw [hRun]
          rfl

/-- Witness of C6 on the concrete instance, with whole-model debugging: two
artifacts are saved, the pre-calibration artifact to the temporary directory and
the same artifact with debugging enabled to "dump", and the post-calibration
stage is run on the renamed module. -/
theorem static_range_saved_artifacts_witness :
    reachesPostCalibrationStage
      (exec (QuantizeStaticRangePtq (demoEnv {}) demoConstants "model" ["serving_default"]
        {"serve"} demoWholeModelOptions [] []) []).2.trace = true ∧
    savedArtifacts
      (exec (QuantizeStaticRangePtq (demoEnv {}) demoConstants "model" ["serving_default"]
        {"serve"} demoWholeModelOptions [] []) []).2.trace =
      [("/tmp/x", demoPreCalibrationResult),
       ("dump", { demoPreCalibrationResult with debugging := true })] ∧
    postCalibrationStageModules
      (exec (QuantizeStaticRangePtq (demoEnv {}) demoConstants "model" ["serving_default"]
        {"serve"} demoWholeModelOptions [] []) []).2.trace =
      [["import model", "freeze", "passes pre", "statistics", "quantized filename"]] ∧
    (savedArtifacts
      (exec (QuantizeStaticRangePtq (demoEnv {}) demoConstants "model" ["serving_default"]
        {"serve"} demoWholeModelOptions [] []) []).2.trace).length =
      (if wholeModelDebugging demoWholeModelOptions = true then 2 else 1) := by
  obtain ⟨_, _, _, _, _, _, _, _, _, _, _, _, _, _, _, _, _, _, hlen, _, _⟩ :=
    static_range_saved_artifacts (demoEnv {}) demoConstants "model" ["serving_default"]
      {"serve"} demoWholeModelOptions [] [] [] rfl
  exact ⟨rfl, rfl, rfl, hlen⟩

end

/-! ## The failure of a `PyFunctionLibrary` call (C2) -/

section

variable {T : Sorts} {α β : Type}

end

end TfQuant
